import Mathlib

/-!
# Register-access protocol and device abstraction of the XMW no-OS synthesizer projects

A shallow embedding of the register codec, the raw spidev test programs, the
ADF4377 test API, the ADF4382 bring-up example, the ADF4382 update tools, the
ADF4377_Test / ADF4382_Test main programs, the vendor-ID examples and the
shipped synthesizer configurations, followed by the properties established
about them.

Conventions: a C `int` result is an `Int`; `uint8_t`, `uint16_t`, `uint64_t`
values are `Nat` reduced modulo `2^8`, `2^16`, `2^64` where a conversion happens
in the source; the outside world (bus, driver library) is an explicit state of
an arbitrary type `σ` passed through every call.
-/

namespace XMW

/-! ## Errno values used by the sources (`no_os_error.h` follows the Linux numbering) -/

/-- Errno `ENOMEM`. -/
def ENOMEM : Int := 12

/-- Errno `EINVAL`. -/
def EINVAL : Int := 22

/-! ## Register codec (3-byte command frame) -/

/-- Modelled from the spec: the register frame of §3 (read flag, 15-bit register
address, data byte). The drivers' own `adf43xx_spi_read` / `adf43xx_spi_write`
live in the driver library, which is not among the sources. -/
structure RegisterFrame where
  read_bit : Bool
  address : Nat
  data : Nat
deriving DecidableEq, Repr

/-- Modelled from the spec: wire layout of §4.1/§6 for the driver's missing frame
builder. Byte 0 carries the read flag in its most significant bit and the upper
seven address bits in bits 6..0, byte 1 the lower eight address bits, byte 2
the data byte. -/
def encode_frame (f : RegisterFrame) : List Nat :=
  [(if f.read_bit then 128 else 0) + (f.address / 256) % 128,
   f.address % 256,
   f.data % 256]

/-- Modelled from the spec: frame of `read(addr)` (§4.1): read flag set,
byte 2 zero (don't-care). -/
def read_frame (addr : Nat) : List Nat :=
  encode_frame { read_bit := true, address := addr, data := 0 }

/-- Modelled from the spec: frame of `write(addr, value)` (§4.1): same frame,
read flag clear, byte 2 the value. -/
def write_frame (addr value : Nat) : List Nat :=
  encode_frame { read_bit := false, address := addr, data := value }

/-- Modelled from the spec: decoding of a frame as (byte0 bit 7,
((byte0 & 0x7F) << 8) | byte1, byte2), the inverse layout of §6. -/
def decode_frame (bytes : List Nat) : Option RegisterFrame :=
  match bytes with
  | [b0, b1, b2] =>
      some { read_bit := decide (b0 &&& 0x80 ≠ 0),
             address := ((b0 &&& 0x7F) <<< 8) ||| b1,
             data := b2 }
  | _ => none

/-- The register value of a read is byte 2 of the response frame
(`vendor_id_lsb = rx_buffer[2]` in simple_vendor_id_test.c; §4.1 of the spec). -/
def read_value (rx : List Nat) : Nat :=
  rx.getD 2 0

/-! ## Raw spidev test programs

Every raw test is a straight line of identical blocks: fill `tx_buffer`, clear
`rx_buffer`, `ioctl(fd, SPI_IOC_MESSAGE(1), &transfer)`, and on a negative
result `close(fd); return -1`. The bus is the function `transfer`, which
answers `none` when the ioctl fails. -/

/-- Outcome of running a list of transfer blocks: the frames handed to the bus
(in order), the last response received, and whether every ioctl succeeded. -/
structure RawRun (σ : Type) where
  sent : List (List Nat)
  last_rx : List Nat
  ok : Bool
  world : σ

/-- Runs the transfer blocks of a raw test in order, stopping at the first
failing ioctl (`if (ret < 0) { ...; close(fd); return -1; }`). -/
def run_transfers {σ : Type} (transfer : σ → List Nat → Option (List Nat) × σ) :
    List (List Nat) → σ → List Nat → RawRun σ
  | [], s, rx => { sent := [], last_rx := rx, ok := true, world := s }
  | tx :: rest, s, _ =>
      match transfer s tx with
      | (none, s1) => { sent := [tx], last_rx := [0, 0, 0], ok := false, world := s1 }
      | (some rx1, s1) =>
          let r := run_transfers transfer rest s1 rx1
          { r with sent := tx :: r.sent }

/-- Frames of simple_vendor_id_test.c `main`, in program order (lines 110, 138, 166). -/
def simple_vendor_id_test_frames : List (List Nat) :=
  [[0x00, 0x00, 0x81], [0x80, 0x0C, 0x00], [0x80, 0x0D, 0x00]]

/-- Frames of simple_chip_id_test.c `main`, in program order (lines 67, 94, 110, 126). -/
def simple_chip_id_test_frames : List (List Nat) :=
  [[0x00, 0x00, 0x81], [0x80, 0x03, 0x00], [0x80, 0x0C, 0x00], [0x80, 0x04, 0x00]]

/-- Frames of spi_mode_test.c `test_spi_mode`, in program order (lines 60, 87, 103, 119). -/
def test_spi_mode_frames : List (List Nat) :=
  [[0x00, 0x00, 0x81], [0x00, 0x00, 0x00], [0x00, 0x0A, 0x5A], [0x80, 0x0A, 0x00]]

/-- Frames of vendor_id_test.c `main`, in program order (lines 67, 94, 110, 127, 155). -/
def vendor_id_test_frames : List (List Nat) :=
  [[0x00, 0x00, 0x81], [0x00, 0x3D, 0x20], [0x00, 0x00, 0x08],
   [0x80, 0x0D, 0x00], [0x80, 0x0C, 0x00]]

/-- The 3-byte frame of spi_loopback_test.c `main`, test 3 (`adf_tx`, line 142). -/
def spi_loopback_test_adf_tx : List Nat :=
  [0x00, 0x0A, 0x5A]

/-- The spidev set-up shared by the raw tests: `open`, then the three
configuration ioctls (mode, bits per word, max speed); each may fail. -/
structure SpidevSetup where
  open_ok : Bool
  mode_ok : Bool
  bits_ok : Bool
  speed_ok : Bool
deriving DecidableEq, Repr

/-- All set-up steps succeeded, i.e. the program reaches its first transfer. -/
def SpidevSetup.ready (c : SpidevSetup) : Bool :=
  c.open_ok && c.mode_ok && c.bits_ok && c.speed_ok

/-- Function `test_spi_mode` of spi_mode_test.c: `-1` when the device cannot be
opened or an ioctl fails, otherwise `1` when the response to the final
scratchpad read contains a non-zero byte and `0` when it is all zero. The
second component lists the frames sent. -/
def test_spi_mode {σ : Type} (transfer : σ → List Nat → Option (List Nat) × σ)
    (c : SpidevSetup) (s : σ) : Int × List (List Nat) × σ :=
  if c.ready then
    let r := run_transfers transfer test_spi_mode_frames s [0, 0, 0]
    if r.ok then
      if r.last_rx.getD 0 0 ≠ 0 ∨ r.last_rx.getD 1 0 ≠ 0 ∨ r.last_rx.getD 2 0 ≠ 0 then
        (1, r.sent, r.world)
      else
        (0, r.sent, r.world)
    else
      (-1, r.sent, r.world)
  else
    (-1, [], s)

/-- Function `main` of simple_vendor_id_test.c up to its return value and the
vendor ID it assembles: `-1` on a set-up or transfer failure, else `0`; the ID
is `(vendor_id_msb << 8) | vendor_id_lsb` with both bytes taken from
`rx_buffer[2]`. -/
def simple_vendor_id_test_main {σ : Type}
    (transfer : σ → List Nat → Option (List Nat) × σ)
    (access_ok : Bool) (c : SpidevSetup) (s : σ) :
    Int × List (List Nat) × Option Nat × σ :=
  if access_ok && c.ready then
    match transfer s [0x00, 0x00, 0x81] with
    | (none, s1) => (-1, [[0x00, 0x00, 0x81]], none, s1)
    | (some _, s1) =>
      match transfer s1 [0x80, 0x0C, 0x00] with
      | (none, s2) => (-1, [[0x00, 0x00, 0x81], [0x80, 0x0C, 0x00]], none, s2)
      | (some rx2, s2) =>
        let vendor_id_lsb := read_value rx2 % 256
        match transfer s2 [0x80, 0x0D, 0x00] with
        | (none, s3) => (-1, simple_vendor_id_test_frames, none, s3)
        | (some rx3, s3) =>
          let vendor_id_msb := read_value rx3 % 256
          let vendor_id := ((vendor_id_msb <<< 8) ||| vendor_id_lsb) % 65536
          (0, simple_vendor_id_test_frames, some vendor_id, s3)
  else
    (-1, [], none, s)


/-! ## Read-modify-write over a register file -/

/-- Complement of a byte within eight bits (`~mask` of the C expression
`(old & ~mask)`, whose result is stored back into a `uint8_t`). -/
def bnot8 (m : Nat) : Nat :=
  255 ^^^ (m % 256)

/-- Modelled from the spec: `update_bits(addr, mask, value)` of §4.1, standing
for the driver's missing `adf4377_spi_update_bit`: `read(addr)`, apply
`(old & ~mask) | (value & mask)`, `write(addr, new)`; an error of either bus
operation is returned and ends the sequence. -/
def update_bits {σ : Type} (read : σ → Nat → Int × Nat × σ)
    (write : σ → Nat → Nat → Int × σ) (s : σ) (addr mask value : Nat) : Int × σ :=
  match read s addr with
  | (ret, old, s1) =>
      if ret ≠ 0 then (ret, s1)
      else write s1 addr ((old &&& bnot8 mask) ||| (value &&& mask))

/-- A register file: the byte held at every address. -/
abbrev RegFile := Nat → Nat

/-- Register-file read: returns the byte last written to the address. -/
def regfile_read (rf : RegFile) (addr : Nat) : Int × Nat × RegFile :=
  (0, rf addr, rf)

/-- Register-file write: stores the byte at the address, nothing else changes. -/
def regfile_write (rf : RegFile) (addr value : Nat) : Int × RegFile :=
  (0, Function.update rf addr (value % 256))

/-! ## ADF4377 driver interface and the adf4377_test API (adf4377_test_api.c) -/

/-- The SPI parameter blocks of common_data.c that the API and the mains
overwrite: `adf4377_spi_extra` (Linux extra block) and `adf4377_spi_ip`. -/
structure SpiBlocks where
  extra_device_id : Nat
  extra_chip_select : Nat
  ip_device_id : Nat
  ip_chip_select : Nat
deriving DecidableEq, Repr

/-- A call into the ADF4377 driver library, with its arguments. -/
inductive Adf4377Call where
  | init (blocks : SpiBlocks)
  | spi_read (dev reg : Nat)
  | spi_write (dev reg val : Nat)
  | spi_update_bit (dev reg mask val : Nat)
  | set_rfout (dev freq : Nat)
  | remove (dev : Nat)
deriving DecidableEq, Repr

/-- The ADF4377 driver library (adf4377.h), which is linked in and not part of
the sources: every entry point is a transition of the outside world `σ`.
`init` receives the current content of the handle variable and answers its new
content; `spi_read` answers the byte it stored through `val`, if any; `REG` is
the header's `ADF4377_REG(x)` address macro. -/
structure Adf4377Driver (σ : Type) where
  REG : Nat → Nat
  init : σ → Option Nat → SpiBlocks → Int × Option Nat × σ
  spi_read : σ → Nat → Nat → Int × Option Nat × σ
  spi_write : σ → Nat → Nat → Nat → Int × σ
  spi_update_bit : σ → Nat → Nat → Nat → Nat → Int × σ
  set_rfout : σ → Nat → Nat → Int × σ
  remove : σ → Nat → Int × σ

/-- State of adf4377_test_api.c: the file-static handle `adf4377_dev`
(`none` is `NULL`), the SPI parameter blocks, the driver calls made so far and
the outside world. -/
structure ApiState (σ : Type) where
  adf4377_dev : Option Nat
  blocks : SpiBlocks
  calls : List Adf4377Call
  world : σ

/-- Function `adf4377_test_init`: stores the SPI endpoint in both parameter
blocks (`(uint32_t)spi_device`, `(uint8_t)spi_cs`) and calls `adf4377_init`
on the handle variable. -/
def adf4377_test_init {σ : Type} (d : Adf4377Driver σ) (st : ApiState σ)
    (spi_device spi_cs : Int) : Int × ApiState σ :=
  let b : SpiBlocks :=
    { extra_device_id := (spi_device % 2 ^ 32).toNat
      extra_chip_select := (spi_cs % 2 ^ 8).toNat
      ip_device_id := (spi_device % 2 ^ 32).toNat
      ip_chip_select := (spi_cs % 2 ^ 8).toNat }
  match d.init st.world st.adf4377_dev b with
  | (ret, dev1, w1) =>
      (ret, { adf4377_dev := dev1, blocks := b,
              calls := st.calls ++ [Adf4377Call.init b], world := w1 })

/-- Function `adf4377_test_read_reg`: `-EINVAL` without a handle, otherwise the
result of `adf4377_spi_read(adf4377_dev, ADF4377_REG(reg), val)`. The second
component is the byte stored through `val`, if any. -/
def adf4377_test_read_reg {σ : Type} (d : Adf4377Driver σ) (st : ApiState σ)
    (reg : Nat) : Int × Option Nat × ApiState σ :=
  match st.adf4377_dev with
  | none => (-EINVAL, none, st)
  | some dev =>
      match d.spi_read st.world dev (d.REG reg) with
      | (ret, val, w1) =>
          (ret, val, { st with calls := st.calls ++ [Adf4377Call.spi_read dev (d.REG reg)],
                               world := w1 })

/-- Function `adf4377_test_write_reg`: `-EINVAL` without a handle, otherwise the
result of `adf4377_spi_write(adf4377_dev, ADF4377_REG(reg), val)`. -/
def adf4377_test_write_reg {σ : Type} (d : Adf4377Driver σ) (st : ApiState σ)
    (reg val : Nat) : Int × ApiState σ :=
  match st.adf4377_dev with
  | none => (-EINVAL, st)
  | some dev =>
      match d.spi_write st.world dev (d.REG reg) val with
      | (ret, w1) =>
          (ret, { st with calls := st.calls ++ [Adf4377Call.spi_write dev (d.REG reg) val],
                          world := w1 })

/-- Function `adf4377_test_update_bits`: `-EINVAL` without a handle, otherwise
the result of `adf4377_spi_update_bit(adf4377_dev, ADF4377_REG(reg), mask, value)`. -/
def adf4377_test_update_bits {σ : Type} (d : Adf4377Driver σ) (st : ApiState σ)
    (reg mask value : Nat) : Int × ApiState σ :=
  match st.adf4377_dev with
  | none => (-EINVAL, st)
  | some dev =>
      match d.spi_update_bit st.world dev (d.REG reg) mask value with
      | (ret, w1) =>
          (ret, { st with
                  calls := st.calls ++ [Adf4377Call.spi_update_bit dev (d.REG reg) mask value],
                  world := w1 })

/-- Function `adf4377_test_set_rfout`: `-EINVAL` without a handle, otherwise the
result of `adf4377_set_rfout(adf4377_dev, freq_hz)`. -/
def adf4377_test_set_rfout {σ : Type} (d : Adf4377Driver σ) (st : ApiState σ)
    (freq_hz : Nat) : Int × ApiState σ :=
  match st.adf4377_dev with
  | none => (-EINVAL, st)
  | some dev =>
      match d.set_rfout st.world dev freq_hz with
      | (ret, w1) =>
          (ret, { st with calls := st.calls ++ [Adf4377Call.set_rfout dev freq_hz],
                          world := w1 })

/-- Function `adf4377_test_remove`: `0` without a handle; otherwise calls
`adf4377_remove(adf4377_dev)`, clears the handle and returns the driver's
result. -/
def adf4377_test_remove {σ : Type} (d : Adf4377Driver σ) (st : ApiState σ) :
    Int × ApiState σ :=
  match st.adf4377_dev with
  | none => (0, st)
  | some dev =>
      match d.remove st.world dev with
      | (ret, w1) =>
          (ret, { st with adf4377_dev := none,
                          calls := st.calls ++ [Adf4377Call.remove dev],
                          world := w1 })

/-- State of the API at program start: the static handle is `NULL`, no driver
call has been made. -/
def api_start {σ : Type} (b : SpiBlocks) (w : σ) : ApiState σ :=
  { adf4377_dev := none, blocks := b, calls := [], world := w }

/-- The ADF4377 driver over a register file: register reads and writes act on
the file, `adf4377_spi_update_bit` is the read-modify-write of the spec,
`ADF4377_REG(x)` is `x`; `init` hands out handle 1 and, like `set_rfout` and
`remove`, always succeeds without touching the file. -/
def regfile_driver : Adf4377Driver RegFile where
  REG := fun x => x
  init := fun rf _ _ => (0, some 1, rf)
  spi_read := fun rf _ reg =>
    ((regfile_read rf reg).1, some (regfile_read rf reg).2.1, (regfile_read rf reg).2.2)
  spi_write := fun rf _ reg val => regfile_write rf reg val
  spi_update_bit := fun rf _ reg mask val => update_bits regfile_read regfile_write rf reg mask val
  set_rfout := fun rf _ _ => (0, rf)
  remove := fun rf _ => (0, rf)

/-- Mask `ADF4377_MUXOUT_MSK` of adf4377.h (bits [7:4] of REG001D, as main.c
documents: "sets bits [7:4]"). -/
def ADF4377_MUXOUT_MSK : Nat := 0xF0

/-- Value `ADF4377_MUXOUT_HIGH` of adf4377.h ("ADF4377_MUXOUT_HIGH = 0x8" in main.c). -/
def ADF4377_MUXOUT_HIGH : Nat := 0x8

/-- Macro `ADF4377_MUXOUT(x)` of adf4377.h: the value placed in the field of
`ADF4377_MUXOUT_MSK`, i.e. shifted to bit 4. -/
def ADF4377_MUXOUT (x : Nat) : Nat :=
  (x <<< 4) &&& ADF4377_MUXOUT_MSK

/-! ## Frequency model -/

/-- Modelled from the spec: the frequency-model constants of a `ChipProfile`
(§3, §4.3), standing for the per-family limits of the missing driver headers:
the VCO range, the discrete set of post-dividers, the largest integer feedback
ratio the counter holds, and the fixed modulus of the fractional accumulator
(`none` for a family without one). -/
structure ChipProfile where
  vco_min : Nat
  vco_max : Nat
  post_dividers : List Nat
  n_int_max : Nat
  frac_modulus : Option Nat
deriving DecidableEq, Repr

/-- Modelled from the spec: the register fields written by the forward
computation of §4.3 (doubler, reference divider, integer and fractional feedback
ratio, post-divider). -/
structure DividerPlan where
  doubler_en : Bool
  ref_div : Nat
  n_int : Nat
  frac : Nat
  post_div : Nat
deriving DecidableEq, Repr

/-- Modelled from the spec: the input-rejection errors of §7 that the frequency
model can raise. -/
inductive PlanError where
  | ConfigOutOfRange
  | FrequencyOutOfRange
  | UnsupportedFractionalRatio
deriving DecidableEq, Repr

/-- Modelled from the spec: `f_pfd = ref_freq_hz * (doubler_en ? 2 : 1) / ref_div`
(§4.3), in integer hertz. -/
def pfd_frequency (ref_freq_hz : Nat) (doubler_en : Bool) (ref_div : Nat) : Nat :=
  ref_freq_hz * (if doubler_en then 2 else 1) / ref_div

/-- Modelled from the spec: a post-divider `d` keeps the VCO core frequency
`target_freq_hz * d` within `[vco_min, vco_max]` (§4.3). -/
def vco_in_bounds (p : ChipProfile) (target_freq_hz d : Nat) : Bool :=
  decide (p.vco_min ≤ target_freq_hz * d ∧ target_freq_hz * d ≤ p.vco_max)

/-- Modelled from the spec: the post-divider choice with the tie-break of §4.3,
the smallest post-divider of the profile that keeps the VCO in bounds. -/
def select_post_divider (p : ChipProfile) (target_freq_hz : Nat) : Option Nat :=
  (p.post_dividers.filter (fun d => vco_in_bounds p target_freq_hz d)).min?

/-- Modelled from the spec: forward computation `compute_divider_plan` of §4.3
(the computation inside the missing `adf4377_set_rfout`): the comparison
frequency, the feedback ratio `N = target_freq_hz / f_pfd` split into its
integer part and a fractional part on the fixed modulus, and the post-divider. -/
def compute_divider_plan (p : ChipProfile) (ref_freq_hz : Nat) (doubler_en : Bool)
    (ref_div target_freq_hz : Nat) : Except PlanError DividerPlan :=
  if ref_div = 0 then Except.error PlanError.ConfigOutOfRange
  else if pfd_frequency ref_freq_hz doubler_en ref_div = 0 then
    Except.error PlanError.ConfigOutOfRange
  else if p.n_int_max < target_freq_hz / pfd_frequency ref_freq_hz doubler_en ref_div then
    Except.error PlanError.FrequencyOutOfRange
  else
    match select_post_divider p target_freq_hz with
    | none => Except.error PlanError.FrequencyOutOfRange
    | some d =>
        match p.frac_modulus with
        | none =>
            if target_freq_hz % pfd_frequency ref_freq_hz doubler_en ref_div = 0 then
              Except.ok { doubler_en := doubler_en, ref_div := ref_div,
                          n_int := target_freq_hz / pfd_frequency ref_freq_hz doubler_en ref_div,
                          frac := 0, post_div := d }
            else Except.error PlanError.UnsupportedFractionalRatio
        | some m =>
            Except.ok { doubler_en := doubler_en, ref_div := ref_div,
                        n_int := target_freq_hz / pfd_frequency ref_freq_hz doubler_en ref_div,
                        frac := target_freq_hz % pfd_frequency ref_freq_hz doubler_en ref_div * m
                                  / pfd_frequency ref_freq_hz doubler_en ref_div,
                        post_div := d }

/-- Modelled from the spec: inverse computation `recompute_from_registers` of
§4.3 (the computation inside the missing `adf4377_get_rfout`): the same formula
read backwards, `f_pfd * (n_int + frac / modulus)` in integer hertz. -/
def recompute_from_registers (p : ChipProfile) (ref_freq_hz : Nat) (plan : DividerPlan) : Nat :=
  match p.frac_modulus with
  | none => plan.n_int * pfd_frequency ref_freq_hz plan.doubler_en plan.ref_div
  | some m =>
      plan.n_int * pfd_frequency ref_freq_hz plan.doubler_en plan.ref_div
        + plan.frac * pfd_frequency ref_freq_hz plan.doubler_en plan.ref_div / m

/-- Modelled from the spec: one step of the fractional accumulator in whole
hertz, `f_pfd / modulus` rounded up; a family without an accumulator has no
step. -/
def accumulator_step_hz (p : ChipProfile) (f_pfd : Nat) : Nat :=
  match p.frac_modulus with
  | none => 0
  | some m => (f_pfd + m - 1) / m

/-- Modelled from the spec: a request within the profile bounds (§4.3): a legal
reference divider and comparison frequency, a feedback ratio within the counter
width, some post-divider that keeps the VCO in range, and either a fractional
accumulator (of positive modulus) or an integer ratio. -/
def valid_request (p : ChipProfile) (ref_freq_hz : Nat) (doubler_en : Bool)
    (ref_div target_freq_hz : Nat) : Prop :=
  0 < ref_div
  ∧ 0 < pfd_frequency ref_freq_hz doubler_en ref_div
  ∧ target_freq_hz / pfd_frequency ref_freq_hz doubler_en ref_div ≤ p.n_int_max
  ∧ (∃ d ∈ p.post_dividers, vco_in_bounds p target_freq_hz d = true)
  ∧ (match p.frac_modulus with
      | none => target_freq_hz % pfd_frequency ref_freq_hz doubler_en ref_div = 0
      | some m => 0 < m)

/-- The frequency fields of `struct adf4377_init_param` (adf4377.h). -/
structure adf4377_init_param where
  clkin_freq : Nat
  ref_doubler_en : Nat
  f_clk : Nat
  ref_div_factor : Nat
deriving DecidableEq, Repr

/-- The initialisation parameters `adf4377_ip` of ADF4377_Test common_data.c
(lines 81-95). -/
def adf4377_ip : adf4377_init_param :=
  { clkin_freq := 125000000, ref_doubler_en := 1, f_clk := 10000000000, ref_div_factor := 1 }

/-- Product of two `uint64_t` values as the machine computes it. -/
def mul_u64 (a b : Nat) : Nat :=
  a * b % 2 ^ 64

/-- The comparison frequency computed in 64-bit unsigned arithmetic. -/
def pfd_frequency_u64 (ref_freq_hz : Nat) (doubler_en : Bool) (ref_div : Nat) : Nat :=
  mul_u64 ref_freq_hz (if doubler_en then 2 else 1) / ref_div

/-! ## ADF4382 bring-up example (basic_example.c) -/

/-- The constants of adf4382.h that basic_example.c uses and that are not part
of the sources: the reset command, the wire-mode value macro
`ADF4382_SPI_3W_CFG(x)`, the CMOS field value
`no_os_field_prep(ADF4382_CMOS_OV_MSK, x)`, the power-on delay, the scratchpad
pattern and the table `adf4382_reg_defaults` of (register, value) pairs. The
table is indexed by a `uint8_t` in the source, so it has fewer than 256
entries. -/
structure Adf4382Header where
  RESET_CMD : Nat
  SPI_3W_CFG : Bool → Nat
  CMOS_OV : Bool → Nat
  POR_DELAY_US : Nat
  SPI_SCRATCHPAD_TEST : Nat
  reg_defaults : List (Nat × Nat)
  reg_defaults_size : reg_defaults.length < 256

/-- What example_main does to the outside world, in order. -/
inductive BusEvent where
  | calloc
  | spi_init
  | write (reg val : Nat)
  | udelay (us : Nat)
  | read (reg : Nat)
  | spi_remove
  | free
deriving DecidableEq, Repr

/-- The platform and driver functions example_main calls, as transitions of
the outside world: `no_os_calloc` (did it return memory), `no_os_spi_init`,
`adf4382_spi_write(dev, reg, val)`, `adf4382_spi_read(dev, reg, &val)` (result
and the content of `val` afterwards), `no_os_udelay`, `no_os_spi_remove` and
`no_os_free`. -/
structure Adf4382Platform (σ : Type) where
  calloc : σ → Bool × σ
  spi_init : σ → Int × σ
  spi_write : σ → Nat → Nat → Int × σ
  spi_read : σ → Nat → Int × Nat × σ
  udelay : σ → Nat → σ
  spi_remove : σ → σ
  free : σ → σ

/-- Labels `error_spi:` / `error_dev:` / `error:` of example_main: release the
SPI descriptor, free the device structure, return `ret`. -/
def error_spi {σ : Type} (P : Adf4382Platform σ) (ret : Int) (tr : List BusEvent) (s : σ) :
    Int × List BusEvent × σ :=
  (ret, tr ++ [BusEvent.spi_remove, BusEvent.free], P.free (P.spi_remove s))

/-- Labels `error_dev:` / `error:` of example_main: free the device structure,
return `ret`. -/
def error_dev {σ : Type} (P : Adf4382Platform σ) (ret : Int) (tr : List BusEvent) (s : σ) :
    Int × List BusEvent × σ :=
  (ret, tr ++ [BusEvent.free], P.free s)

/-- A run of consecutive `adf4382_spi_write` calls, each followed by
`if (ret) goto error_spi;`: the result is the first non-zero return code, or 0
when every write succeeded; the events are the writes issued. -/
def write_sequence {σ : Type} (P : Adf4382Platform σ) :
    List (Nat × Nat) → σ → Int × List BusEvent × σ
  | [], s => (0, [], s)
  | (reg, val) :: rest, s =>
      match P.spi_write s reg val with
      | (ret, s1) =>
          if ret ≠ 0 then (ret, [BusEvent.write reg val], s1)
          else
            match write_sequence P rest s1 with
            | (ret2, tr2, s2) => (ret2, BusEvent.write reg val :: tr2, s2)

/-- The writes of example_main between the power-on delay and the scratchpad
read, in program order: wire mode (step 7), CMOS voltage (step 8), the default
table, the MUXOUT test write to 0x02E, the scratchpad pattern to 0x00A. -/
def config_writes (H : Adf4382Header) (spi_3wire_en cmos_3v3 : Bool) : List (Nat × Nat) :=
  [(0x00, H.SPI_3W_CFG (!spi_3wire_en)), (0x3D, H.CMOS_OV cmos_3v3)]
    ++ H.reg_defaults ++ [(0x02E, 0x8), (0x00A, H.SPI_SCRATCHPAD_TEST)]

/-- Function `example_main` of basic_example.c. `spi_3wire_en` and `cmos_3v3`
are the fields of `adf4382_ip` copied into the device structure. The result is
the return value, the events in order and the final outside world. -/
def example_main {σ : Type} (H : Adf4382Header) (P : Adf4382Platform σ)
    (spi_3wire_en cmos_3v3 : Bool) (s : σ) : Int × List BusEvent × σ :=
  let alloc := P.calloc s
  if alloc.1 = false then (-ENOMEM, [BusEvent.calloc], alloc.2)
  else
    let init := P.spi_init alloc.2
    if init.1 ≠ 0 then error_dev P init.1 [BusEvent.calloc, BusEvent.spi_init] init.2
    else
      let reset := P.spi_write init.2 0x00 H.RESET_CMD
      if reset.1 ≠ 0 then
        error_spi P reset.1
          [BusEvent.calloc, BusEvent.spi_init, BusEvent.write 0x00 H.RESET_CMD] reset.2
      else
        let cfg := write_sequence P (config_writes H spi_3wire_en cmos_3v3)
          (P.udelay reset.2 H.POR_DELAY_US)
        if cfg.1 ≠ 0 then
          error_spi P cfg.1
            ([BusEvent.calloc, BusEvent.spi_init, BusEvent.write 0x00 H.RESET_CMD,
              BusEvent.udelay H.POR_DELAY_US] ++ cfg.2.1) cfg.2.2
        else
          let rd := P.spi_read cfg.2.2 0x00A
          if rd.1 ≠ 0 then
            error_spi P rd.1
              ([BusEvent.calloc, BusEvent.spi_init, BusEvent.write 0x00 H.RESET_CMD,
                BusEvent.udelay H.POR_DELAY_US] ++ cfg.2.1 ++ [BusEvent.read 0x00A]) rd.2.2
          else if rd.2.1 % 256 ≠ H.SPI_SCRATCHPAD_TEST then
            error_spi P (-EINVAL)
              ([BusEvent.calloc, BusEvent.spi_init, BusEvent.write 0x00 H.RESET_CMD,
                BusEvent.udelay H.POR_DELAY_US] ++ cfg.2.1 ++ [BusEvent.read 0x00A]) rd.2.2
          else
            (0,
             [BusEvent.calloc, BusEvent.spi_init, BusEvent.write 0x00 H.RESET_CMD,
              BusEvent.udelay H.POR_DELAY_US] ++ cfg.2.1
               ++ [BusEvent.read 0x00A, BusEvent.spi_remove, BusEvent.free],
             P.free (P.spi_remove rd.2.2))

/-! ## ADF4382 update tools (update_adf4382.c, update_adf4382_static.c) -/

/-- A call into the ADF4382 driver library, with its arguments. -/
inductive Adf4382Call where
  | init (spi_device_id : Nat)
  | set_rfout (dev freq : Nat)
  | set_cp_i (dev : Nat) (cp_i : Int)
  | set_bleed_word (dev : Nat) (bleed_word : Int)
  | set_phase_adjust (dev phase_ps : Nat)
  | remove (dev : Nat)
deriving DecidableEq, Repr

/-- The six entry points of the ADF4382 driver library the update tools use
(resolved with `dlsym` in update_adf4382.c, linked in update_adf4382_static.c),
as transitions of the outside world. `init` receives the SPI device id and the
current content of the handle variable and answers its new content. -/
structure Adf4382Driver (σ : Type) where
  init : σ → Option Nat → Nat → Int × Option Nat × σ
  remove : σ → Nat → Int × σ
  set_rfout : σ → Nat → Nat → Int × σ
  set_cp_i : σ → Nat → Int → Int × σ
  set_bleed_word : σ → Nat → Int → Int × σ
  set_phase_adjust : σ → Nat → Nat → Int × σ

/-- Globals of update_adf4382_static.c: the handle `adf4382_dev` (`none` is
`NULL`), with the driver calls made so far and the outside world. -/
structure ToolState (σ : Type) where
  adf4382_dev : Option Nat
  calls : List Adf4382Call
  world : σ

/-- Globals of update_adf4382.c: as `ToolState`, with `lib_handle` (is the
shared library open). -/
structure DynToolState (σ : Type) where
  lib_handle : Bool
  adf4382_dev : Option Nat
  calls : List Adf4382Call
  world : σ

namespace update_adf4382

/-- Function `set_charge_pump_current` of update_adf4382.c (lines 191-211). -/
def set_charge_pump_current {σ : Type} (d : Adf4382Driver σ) (st : DynToolState σ)
    (cp_i : Int) : Int × DynToolState σ :=
  match st.adf4382_dev with
  | none => (-1, st)
  | some dev =>
      if cp_i < 0 ∨ cp_i > 15 then (-1, st)
      else
        match d.set_cp_i st.world dev cp_i with
        | (ret, w1) =>
            (if ret ≠ 0 then -1 else 0,
             { st with calls := st.calls ++ [Adf4382Call.set_cp_i dev cp_i], world := w1 })

/-- Function `set_bleed_word` of update_adf4382.c (lines 218-238). -/
def set_bleed_word {σ : Type} (d : Adf4382Driver σ) (st : DynToolState σ)
    (bleed_word : Int) : Int × DynToolState σ :=
  match st.adf4382_dev with
  | none => (-1, st)
  | some dev =>
      if bleed_word < 0 ∨ bleed_word > 8191 then (-1, st)
      else
        match d.set_bleed_word st.world dev bleed_word with
        | (ret, w1) =>
            (if ret ≠ 0 then -1 else 0,
             { st with calls := st.calls ++ [Adf4382Call.set_bleed_word dev bleed_word],
                       world := w1 })

end update_adf4382

namespace update_adf4382_static

/-- Function `set_charge_pump_current` of update_adf4382_static.c (lines 135-156). -/
def set_charge_pump_current {σ : Type} (d : Adf4382Driver σ) (st : ToolState σ)
    (cp_i : Int) : Int × ToolState σ :=
  match st.adf4382_dev with
  | none => (-1, st)
  | some dev =>
      if cp_i < 0 ∨ cp_i > 15 then (-1, st)
      else
        match d.set_cp_i st.world dev cp_i with
        | (ret, w1) =>
            (if ret ≠ 0 then -1 else 0,
             { st with calls := st.calls ++ [Adf4382Call.set_cp_i dev cp_i], world := w1 })

/-- Function `set_bleed_word` of update_adf4382_static.c (lines 163-184). -/
def set_bleed_word {σ : Type} (d : Adf4382Driver σ) (st : ToolState σ)
    (bleed_word : Int) : Int × ToolState σ :=
  match st.adf4382_dev with
  | none => (-1, st)
  | some dev =>
      if bleed_word < 0 ∨ bleed_word > 8191 then (-1, st)
      else
        match d.set_bleed_word st.world dev bleed_word with
        | (ret, w1) =>
            (if ret ≠ 0 then -1 else 0,
             { st with calls := st.calls ++ [Adf4382Call.set_bleed_word dev bleed_word],
                       world := w1 })

end update_adf4382_static

/-! ## Sample environments -/

/-- A header instance: reset command 0x81, scratchpad pattern 0x5A and CMOS
value 0x20 as the raw tests send them, both SDO-active bits (0x18) for 4-wire
mode, and a two-entry default table. -/
def sample_header : Adf4382Header where
  RESET_CMD := 0x81
  SPI_3W_CFG := fun en => if en then 0x18 else 0x00
  CMOS_OV := fun en => if en then 0x20 else 0x00
  POR_DELAY_US := 200
  SPI_SCRATCHPAD_TEST := 0x5A
  reg_defaults := [(0x100, 0x25), (0x0ff, 0x1d)]
  reg_defaults_size := by decide

/-- The simulated transport of an absent device: every call succeeds and every
read hands back zero. -/
def absent_device : Adf4382Platform Unit where
  calloc := fun s => (true, s)
  spi_init := fun s => (0, s)
  spi_write := fun s _ _ => (0, s)
  spi_read := fun s _ => (0, 0, s)
  udelay := fun s _ => s
  spi_remove := fun s => s
  free := fun s => s

/-- An ADF4382 driver in which every call succeeds; `init` hands out handle 1. -/
def willing_driver : Adf4382Driver Unit where
  init := fun s _ _ => (0, some 1, s)
  remove := fun s _ => (0, s)
  set_rfout := fun s _ _ => (0, s)
  set_cp_i := fun s _ _ => (0, s)
  set_bleed_word := fun s _ _ => (0, s)
  set_phase_adjust := fun s _ _ => (0, s)

/-! ## Command lines and the C library -/

/-- The C library conversions the main programs apply to option values
(`atoi`, `strtoull(.., NULL, 10)`); they are outside the repository, so every
result about a command line holds for whatever they answer. -/
structure Libc where
  atoi : String → Int
  strtoull : String → Nat

/-- Conversion of an `int` to `uint32_t`. -/
def to_u32 (x : Int) : Nat :=
  (x % 2 ^ 32).toNat

/-- Conversion of an `int` to `uint8_t`. -/
def to_u8 (x : Int) : Nat :=
  (x % 2 ^ 8).toNat

/-- Value of the leading decimal digits of a character list. -/
def leading_digits : List Char → Nat → Nat
  | [], acc => acc
  | c :: cs, acc =>
      if 48 ≤ c.toNat ∧ c.toNat ≤ 57 then leading_digits cs (acc * 10 + (c.toNat - 48))
      else acc

/-- Decimal reading of a string: an optional sign, then the leading digits. -/
def decimal_value (s : String) : Int :=
  match s.toList with
  | '-' :: cs => -(leading_digits cs 0 : Int)
  | '+' :: cs => (leading_digits cs 0 : Int)
  | cs => (leading_digits cs 0 : Int)

/-- A C library instance for decimal option values that fit their target
type. -/
def decimal_libc : Libc where
  atoi := decimal_value
  strtoull := fun s => (decimal_value s).toNat

/-- Local variables of `main` in the update tools after the option loop
(lines 299-304 of update_adf4382.c, 242-247 of update_adf4382_static.c). -/
structure UpdateOptions where
  spi_device_id : Nat
  freq_hz : Nat
  cp_i : Int
  bleed_word : Int
  phase_ps : Nat
  freq_set : Bool
  cp_set : Bool
  bleed_set : Bool
  phase_set : Bool
deriving DecidableEq, Repr

/-- Initial values of the locals of `main` in the update tools. -/
def UpdateOptions.start : UpdateOptions :=
  { spi_device_id := 0, freq_hz := 0, cp_i := -1, bleed_word := -1, phase_ps := 0,
    freq_set := false, cp_set := false, bleed_set := false, phase_set := false }

/-- How the option loop of the update tools ends: all arguments consumed,
`--help` / `-h` met (`return 0`), or an argument that is no option with a
value (`return 1`). -/
inductive ParseOutcome where
  | run (o : UpdateOptions)
  | help
  | unknown (arg : String)
deriving DecidableEq, Repr

/-- The option loop of `main` in update_adf4382.c (lines 307-335) and, with the
same text, update_adf4382_static.c (lines 250-278), over `argv[1..]`. A
value-taking option is recognised only when another argument follows it
(`i + 1 < argc`). -/
def parse_update_args (L : Libc) : List String → UpdateOptions → ParseOutcome
  | [], o => ParseOutcome.run o
  | [a], _ =>
      if a = "--help" ∨ a = "-h" then ParseOutcome.help else ParseOutcome.unknown a
  | a :: v :: rest, o =>
      if a = "--spi-device" then
        parse_update_args L rest { o with spi_device_id := to_u32 (L.atoi v) }
      else if a = "--freq" then
        parse_update_args L rest { o with freq_hz := L.strtoull v % 2 ^ 64, freq_set := true }
      else if a = "--cp-i" then
        parse_update_args L rest { o with cp_i := L.atoi v, cp_set := true }
      else if a = "--bleed" then
        parse_update_args L rest { o with bleed_word := L.atoi v, bleed_set := true }
      else if a = "--phase" then
        parse_update_args L rest { o with phase_ps := to_u32 (L.atoi v), phase_set := true }
      else if a = "--help" ∨ a = "-h" then ParseOutcome.help
      else ParseOutcome.unknown a

/-! ## The update tools: remaining functions and `main` -/

/-- Is the call `adf4382_remove`. -/
def Adf4382Call.is_remove : Adf4382Call → Bool
  | Adf4382Call.remove _ => true
  | _ => false

/-- Is the call one of the four parameter setters. -/
def Adf4382Call.is_setter : Adf4382Call → Bool
  | Adf4382Call.set_rfout _ _ => true
  | Adf4382Call.set_cp_i _ _ => true
  | Adf4382Call.set_bleed_word _ _ => true
  | Adf4382Call.set_phase_adjust _ _ => true
  | _ => false

namespace update_adf4382

/-- Globals of update_adf4382.c at program start: `lib_handle = NULL`,
`adf4382_dev = NULL`. -/
def start {σ : Type} (w : σ) : DynToolState σ :=
  { lib_handle := false, adf4382_dev := none, calls := [], world := w }

/-- Function `load_adf4382_library` (lines 94-118): `-1` when `dlopen` fails or
a symbol does not resolve (the library is then closed, the stale `lib_handle`
is kept), else `0`. -/
def load_adf4382_library {σ : Type} (dlopen_ok symbols_ok : Bool) (st : DynToolState σ) :
    Int × DynToolState σ :=
  if dlopen_ok = false then (-1, st)
  else if symbols_ok = false then (-1, { st with lib_handle := true })
  else (0, { st with lib_handle := true })

/-- Function `init_adf4382` (lines 125-162): calls `adf4382_init` on the handle
variable; `-1` when it returns non-zero, else `0`. -/
def init_adf4382 {σ : Type} (d : Adf4382Driver σ) (st : DynToolState σ)
    (spi_device_id : Nat) : Int × DynToolState σ :=
  let r := d.init st.world st.adf4382_dev spi_device_id
  (if r.1 ≠ 0 then -1 else 0,
   { st with adf4382_dev := r.2.1, calls := st.calls ++ [Adf4382Call.init spi_device_id],
             world := r.2.2 })

/-- Function `set_frequency` (lines 169-184). -/
def set_frequency {σ : Type} (d : Adf4382Driver σ) (st : DynToolState σ)
    (freq_hz : Nat) : Int × DynToolState σ :=
  match st.adf4382_dev with
  | none => (-1, st)
  | some dev =>
      (if (d.set_rfout st.world dev freq_hz).1 ≠ 0 then -1 else 0,
       { st with calls := st.calls ++ [Adf4382Call.set_rfout dev freq_hz],
                 world := (d.set_rfout st.world dev freq_hz).2 })

/-- Function `set_phase_adjustment` (lines 245-260). -/
def set_phase_adjustment {σ : Type} (d : Adf4382Driver σ) (st : DynToolState σ)
    (phase_ps : Nat) : Int × DynToolState σ :=
  match st.adf4382_dev with
  | none => (-1, st)
  | some dev =>
      (if (d.set_phase_adjust st.world dev phase_ps).1 ≠ 0 then -1 else 0,
       { st with calls := st.calls ++ [Adf4382Call.set_phase_adjust dev phase_ps],
                 world := (d.set_phase_adjust st.world dev phase_ps).2 })

/-- Function `cleanup` (lines 265-276): removes the device if a handle is held
and clears the handle, then closes the library if it is open. -/
def cleanup {σ : Type} (d : Adf4382Driver σ) (st : DynToolState σ) : DynToolState σ :=
  match st.adf4382_dev with
  | none => { st with lib_handle := false }
  | some dev =>
      { lib_handle := false, adf4382_dev := none,
        calls := st.calls ++ [Adf4382Call.remove dev],
        world := (d.remove st.world dev).2 }

/-- The "Apply parameter updates" part of `main` (lines 354-381): the requested
setters in the order frequency, charge pump, bleed word, phase; the result is
non-zero as soon as one of them fails, and the later ones are then skipped. -/
def apply_updates {σ : Type} (d : Adf4382Driver σ) (st : DynToolState σ)
    (o : UpdateOptions) : Int × DynToolState σ :=
  let f := if o.freq_set then set_frequency d st o.freq_hz else (0, st)
  if f.1 ≠ 0 then f
  else
    let c := if o.cp_set then set_charge_pump_current d f.2 o.cp_i else (0, f.2)
    if c.1 ≠ 0 then c
    else
      let b := if o.bleed_set then set_bleed_word d c.2 o.bleed_word else (0, c.2)
      if b.1 ≠ 0 then b
      else if o.phase_set then set_phase_adjustment d b.2 o.phase_ps else (0, b.2)

/-- Function `main` of update_adf4382.c (lines 297-389) on `argv[1..]`:
the return value and the final globals. `dlopen_ok` and `symbols_ok` say
whether the shared library opens and all six symbols resolve. -/
def main {σ : Type} (L : Libc) (d : Adf4382Driver σ) (dlopen_ok symbols_ok : Bool)
    (args : List String) (w : σ) : Int × DynToolState σ :=
  match parse_update_args L args UpdateOptions.start with
  | ParseOutcome.help => (0, start w)
  | ParseOutcome.unknown _ => (1, start w)
  | ParseOutcome.run o =>
      if !o.freq_set && !o.cp_set && !o.bleed_set && !o.phase_set then (1, start w)
      else if (load_adf4382_library dlopen_ok symbols_ok (start w)).1 ≠ 0 then
        (1, (load_adf4382_library dlopen_ok symbols_ok (start w)).2)
      else if (init_adf4382 d (load_adf4382_library dlopen_ok symbols_ok (start w)).2
                o.spi_device_id).1 ≠ 0 then
        (1, cleanup d (init_adf4382 d (load_adf4382_library dlopen_ok symbols_ok (start w)).2
                        o.spi_device_id).2)
      else
        (if (apply_updates d (init_adf4382 d
                (load_adf4382_library dlopen_ok symbols_ok (start w)).2
                o.spi_device_id).2 o).1 ≠ 0 then 1 else 0,
         cleanup d (apply_updates d (init_adf4382 d
                (load_adf4382_library dlopen_ok symbols_ok (start w)).2
                o.spi_device_id).2 o).2)

end update_adf4382

namespace update_adf4382_static

/-- Globals of update_adf4382_static.c at program start: `adf4382_dev = NULL`. -/
def start {σ : Type} (w : σ) : ToolState σ :=
  { adf4382_dev := none, calls := [], world := w }

/-- Function `init_adf4382` (lines 56-105): calls `adf4382_init` on the handle
variable; `-1` when it returns non-zero, else `0`. -/
def init_adf4382 {σ : Type} (d : Adf4382Driver σ) (st : ToolState σ)
    (spi_device_id : Nat) : Int × ToolState σ :=
  let r := d.init st.world st.adf4382_dev spi_device_id
  (if r.1 ≠ 0 then -1 else 0,
   { adf4382_dev := r.2.1, calls := st.calls ++ [Adf4382Call.init spi_device_id],
     world := r.2.2 })

/-- Function `set_frequency` (lines 112-128). -/
def set_frequency {σ : Type} (d : Adf4382Driver σ) (st : ToolState σ)
    (freq_hz : Nat) : Int × ToolState σ :=
  match st.adf4382_dev with
  | none => (-1, st)
  | some dev =>
      (if (d.set_rfout st.world dev freq_hz).1 ≠ 0 then -1 else 0,
       { st with calls := st.calls ++ [Adf4382Call.set_rfout dev freq_hz],
                 world := (d.set_rfout st.world dev freq_hz).2 })

/-- Function `set_phase_adjustment` (lines 191-207). -/
def set_phase_adjustment {σ : Type} (d : Adf4382Driver σ) (st : ToolState σ)
    (phase_ps : Nat) : Int × ToolState σ :=
  match st.adf4382_dev with
  | none => (-1, st)
  | some dev =>
      (if (d.set_phase_adjust st.world dev phase_ps).1 ≠ 0 then -1 else 0,
       { st with calls := st.calls ++ [Adf4382Call.set_phase_adjust dev phase_ps],
                 world := (d.set_phase_adjust st.world dev phase_ps).2 })

/-- Function `cleanup` (lines 212-219): removes the device if a handle is held
and clears the handle. -/
def cleanup {σ : Type} (d : Adf4382Driver σ) (st : ToolState σ) : ToolState σ :=
  match st.adf4382_dev with
  | none => st
  | some dev =>
      { adf4382_dev := none, calls := st.calls ++ [Adf4382Call.remove dev],
        world := (d.remove st.world dev).2 }

/-- The "Apply parameter updates" part of `main` (lines 292-319): the requested
setters in the order frequency, charge pump, bleed word, phase; the result is
non-zero as soon as one of them fails, and the later ones are then skipped. -/
def apply_updates {σ : Type} (d : Adf4382Driver σ) (st : ToolState σ)
    (o : UpdateOptions) : Int × ToolState σ :=
  let f := if o.freq_set then set_frequency d st o.freq_hz else (0, st)
  if f.1 ≠ 0 then f
  else
    let c := if o.cp_set then set_charge_pump_current d f.2 o.cp_i else (0, f.2)
    if c.1 ≠ 0 then c
    else
      let b := if o.bleed_set then set_bleed_word d c.2 o.bleed_word else (0, c.2)
      if b.1 ≠ 0 then b
      else if o.phase_set then set_phase_adjustment d b.2 o.phase_ps else (0, b.2)

/-- Function `main` of update_adf4382_static.c (lines 240-327) on `argv[1..]`:
the return value and the final globals. -/
def main {σ : Type} (L : Libc) (d : Adf4382Driver σ) (args : List String) (w : σ) :
    Int × ToolState σ :=
  match parse_update_args L args UpdateOptions.start with
  | ParseOutcome.help => (0, start w)
  | ParseOutcome.unknown _ => (1, start w)
  | ParseOutcome.run o =>
      if !o.freq_set && !o.cp_set && !o.bleed_set && !o.phase_set then (1, start w)
      else if (init_adf4382 d (start w) o.spi_device_id).1 ≠ 0 then
        (1, cleanup d (init_adf4382 d (start w) o.spi_device_id).2)
      else
        (if (apply_updates d (init_adf4382 d (start w) o.spi_device_id).2 o).1 ≠ 0 then 1
         else 0,
         cleanup d (apply_updates d (init_adf4382 d (start w) o.spi_device_id).2 o).2)

end update_adf4382_static

/-- The call list `c2` extends `c1` by calls that all satisfy `p`. -/
def ExtendsBy (p : Adf4382Call → Bool) (c1 c2 : List Adf4382Call) : Prop :=
  ∃ l, c2 = c1 ++ l ∧ ∀ c ∈ l, p c = true

/-- Is the call `adf4382_set_rfout`. -/
def Adf4382Call.is_rfout : Adf4382Call → Bool
  | Adf4382Call.set_rfout _ _ => true
  | _ => false

/-- Is the call `adf4382_set_rfout` or `adf4382_set_cp_i`. -/
def Adf4382Call.is_rfout_or_cp : Adf4382Call → Bool
  | Adf4382Call.set_rfout _ _ => true
  | Adf4382Call.set_cp_i _ _ => true
  | _ => false

/-- Is the call `adf4382_init`. -/
def Adf4382Call.is_init (c : Adf4382Call) : Bool :=
  match c with
  | Adf4382Call.init _ => true
  | _ => false

/-- An ADF4382 driver whose `adf4382_init` fails with `-EINVAL` and stores no
handle (no chip connected); the other calls succeed. -/
def refusing_driver : Adf4382Driver Unit where
  init := fun s _ _ => (-22, none, s)
  remove := fun s _ => (0, s)
  set_rfout := fun s _ _ => (0, s)
  set_cp_i := fun s _ _ => (0, s)
  set_bleed_word := fun s _ _ => (0, s)
  set_phase_adjust := fun s _ _ => (0, s)

/-! ## ADF4377_Test and ADF4382_Test main programs -/

/-- The option loop of `main` in ADF4377_Test main.c (lines 65-81) and, with
the same text, ADF4382_Test main.c (lines 67-83), over `argv[1..]`, acting on
the SPI parameter blocks; `none` is the `return 0` of `--help` / `-h`.
`--spi-device` stores into the extra block only, `--spi-cs` into both blocks;
an argument that is no option is skipped. The chip-select fields are
`uint8_t`, the device ids `uint32_t` (the casts of adf4377_test_init). -/
def parse_spi_args (L : Libc) : List String → SpiBlocks → Option SpiBlocks
  | [], b => some b
  | [a], b => if a = "--help" ∨ a = "-h" then none else some b
  | a :: v :: rest, b =>
      if a = "--spi-device" then
        parse_spi_args L rest { b with extra_device_id := to_u32 (L.atoi v) }
      else if a = "--spi-cs" then
        parse_spi_args L rest { b with extra_chip_select := to_u8 (L.atoi v),
                                       ip_chip_select := to_u8 (L.atoi v) }
      else if a = "--help" ∨ a = "-h" then none
      else parse_spi_args L (v :: rest) b

/-- The SPI parameter blocks as the option loop of the test mains leaves them
when it ends, also when it ends in the `return 0` of `--help` / `-h`: the
options that precede `--help` have been stored in the global blocks by then. -/
def spi_blocks_after_args (L : Libc) : List String → SpiBlocks → SpiBlocks
  | [], b => b
  | [_], b => b
  | a :: v :: rest, b =>
      if a = "--spi-device" then
        spi_blocks_after_args L rest { b with extra_device_id := to_u32 (L.atoi v) }
      else if a = "--spi-cs" then
        spi_blocks_after_args L rest { b with extra_chip_select := to_u8 (L.atoi v),
                                              ip_chip_select := to_u8 (L.atoi v) }
      else if a = "--help" ∨ a = "-h" then b
      else spi_blocks_after_args L (v :: rest) b

/-- The closing banner of the test mains. -/
inductive Verdict where
  | success
  | errors
deriving DecidableEq, Repr

/-- What a run of a test main leaves behind: the return value, the value of
`ret` right after the verification step (if reached), the closing banner (if
reached), the SPI parameter blocks after the option loop, and the outside
world. -/
structure TestRun (σ : Type) (Call : Type) where
  ret : Int
  checked : Option Int
  verdict : Option Verdict
  blocks : SpiBlocks
  calls : List Call
  world : σ

namespace ADF4377_Test

/-- Function `main` of ADF4377_Test main.c. `b0` holds the SPI parameter
blocks of common_data.c at program start; on the `--help` path the blocks are
those the options before `--help` left. The local handle is what
`adf4377_init` stored (0 stands for the indeterminate pointer when it stored
nothing); `read_back` is the byte the last read stored. -/
def main {σ : Type} (L : Libc) (d : Adf4377Driver σ) (args : List String) (b0 : SpiBlocks)
    (w : σ) : TestRun σ Adf4377Call :=
  match parse_spi_args L args b0 with
  | none => { ret := 0, checked := none, verdict := none,
              blocks := spi_blocks_after_args L args b0, calls := [], world := w }
  | some b =>
    let i := d.init w none b
    let dev := i.2.1.getD 0
    let c1 := [Adf4377Call.init b]
    if i.1 < 0 then
      { ret := i.1, checked := none, verdict := none, blocks := b, calls := c1, world := i.2.2 }
    else
      let r1 := d.spi_read i.2.2 dev (d.REG 0x1D)
      let c2 := c1 ++ [Adf4377Call.spi_read dev (d.REG 0x1D)]
      if r1.1 < 0 then
        { ret := r1.1, checked := none, verdict := none, blocks := b,
          calls := c2 ++ [Adf4377Call.remove dev], world := (d.remove r1.2.2 dev).2 }
      else
        let u := d.spi_update_bit r1.2.2 dev (d.REG 0x1D) ADF4377_MUXOUT_MSK
          (ADF4377_MUXOUT ADF4377_MUXOUT_HIGH)
        let c3 := c2 ++ [Adf4377Call.spi_update_bit dev (d.REG 0x1D) ADF4377_MUXOUT_MSK
          (ADF4377_MUXOUT ADF4377_MUXOUT_HIGH)]
        if u.1 < 0 then
          { ret := u.1, checked := none, verdict := none, blocks := b,
            calls := c3 ++ [Adf4377Call.remove dev], world := (d.remove u.2 dev).2 }
        else
          let r2 := d.spi_read u.2 dev (d.REG 0x1D)
          let c4 := c3 ++ [Adf4377Call.spi_read dev (d.REG 0x1D)]
          if r2.1 < 0 then
            { ret := r2.1, checked := none, verdict := none, blocks := b,
              calls := c4 ++ [Adf4377Call.remove dev], world := (d.remove r2.2.2 dev).2 }
          else
            let read_back := (r2.2.1.getD (r1.2.1.getD 0)) % 256
            let rm := d.remove r2.2.2 dev
            { ret := rm.1,
              checked := some (if (read_back >>> 4) &&& 0x0F = ADF4377_MUXOUT_HIGH then r2.1
                               else -1),
              verdict := some (if rm.1 = 0 then Verdict.success else Verdict.errors),
              blocks := b, calls := c4 ++ [Adf4377Call.remove dev], world := rm.2 }

end ADF4377_Test

/-- A call into the ADF4382 driver library made by ADF4382_Test main.c. -/
inductive Adf4382TestCall where
  | init (blocks : SpiBlocks)
  | spi_read (dev reg : Nat)
  | spi_write (dev reg val : Nat)
  | get_rfout (dev : Nat)
  | get_ref_clk (dev : Nat)
  | remove (dev : Nat)
deriving DecidableEq, Repr

/-- The entry points of the ADF4382 driver library that ADF4382_Test main.c
calls, as transitions of the outside world; `spi_read`, `get_rfout` and
`get_ref_clk` answer what they stored through their result pointer, if
anything. -/
structure Adf4382TestDriver (σ : Type) where
  init : σ → Option Nat → SpiBlocks → Int × Option Nat × σ
  spi_read : σ → Nat → Nat → Int × Option Nat × σ
  spi_write : σ → Nat → Nat → Nat → Int × σ
  get_rfout : σ → Nat → Int × Option Nat × σ
  get_ref_clk : σ → Nat → Int × Option Nat × σ
  remove : σ → Nat → Int × σ

namespace ADF4382_Test

/-- Function `main` of ADF4382_Test main.c. `b0` holds the SPI parameter
blocks of common_data.c at program start; on the `--help` path the blocks are
those the options before `--help` left. -/
def main {σ : Type} (L : Libc) (d : Adf4382TestDriver σ) (args : List String)
    (b0 : SpiBlocks) (w : σ) : TestRun σ Adf4382TestCall :=
  match parse_spi_args L args b0 with
  | none => { ret := 0, checked := none, verdict := none,
              blocks := spi_blocks_after_args L args b0, calls := [], world := w }
  | some b =>
    let i := d.init w none b
    let dev := i.2.1.getD 0
    let c1 := [Adf4382TestCall.init b]
    if i.1 < 0 then
      { ret := i.1, checked := none, verdict := none, blocks := b, calls := c1, world := i.2.2 }
    else
      let r1 := d.spi_read i.2.2 dev 0x0A
      let c2 := c1 ++ [Adf4382TestCall.spi_read dev 0x0A]
      if r1.1 < 0 then
        { ret := r1.1, checked := none, verdict := none, blocks := b,
          calls := c2 ++ [Adf4382TestCall.remove dev], world := (d.remove r1.2.2 dev).2 }
      else
        let wr := d.spi_write r1.2.2 dev 0x0A 0xAA
        let c3 := c2 ++ [Adf4382TestCall.spi_write dev 0x0A 0xAA]
        if wr.1 < 0 then
          { ret := wr.1, checked := none, verdict := none, blocks := b,
            calls := c3 ++ [Adf4382TestCall.remove dev], world := (d.remove wr.2 dev).2 }
        else
          let r2 := d.spi_read wr.2 dev 0x0A
          let c4 := c3 ++ [Adf4382TestCall.spi_read dev 0x0A]
          if r2.1 < 0 then
            { ret := r2.1, checked := none, verdict := none, blocks := b,
              calls := c4 ++ [Adf4382TestCall.remove dev], world := (d.remove r2.2.2 dev).2 }
          else
            let read_back := (r2.2.1.getD (r1.2.1.getD 0)) % 256
            let checked : Int := if read_back = 0xAA then r2.1 else -1
            let f := d.get_rfout r2.2.2 dev
            let c5 := c4 ++ [Adf4382TestCall.get_rfout dev]
            if f.1 < 0 then
              { ret := f.1, checked := some checked, verdict := none, blocks := b,
                calls := c5 ++ [Adf4382TestCall.remove dev], world := (d.remove f.2.2 dev).2 }
            else
              let k := d.get_ref_clk f.2.2 dev
              let c6 := c5 ++ [Adf4382TestCall.get_ref_clk dev]
              if k.1 < 0 then
                { ret := k.1, checked := some checked, verdict := none, blocks := b,
                  calls := c6 ++ [Adf4382TestCall.remove dev],
                  world := (d.remove k.2.2 dev).2 }
              else
                let rm := d.remove k.2.2 dev
                { ret := rm.1, checked := some checked,
                  verdict := some (if rm.1 = 0 then Verdict.success else Verdict.errors),
                  blocks := b, calls := c6 ++ [Adf4382TestCall.remove dev], world := rm.2 }

end ADF4382_Test

/-- An ADF4377 driver for an absent chip behind a working bus: every call
succeeds, `adf4377_init` hands out handle 1, every read stores zero. -/
def absent_adf4377 : Adf4377Driver Unit where
  REG := fun x => x
  init := fun s _ _ => (0, some 1, s)
  spi_read := fun s _ _ => (0, some 0, s)
  spi_write := fun s _ _ _ => (0, s)
  spi_update_bit := fun s _ _ _ _ => (0, s)
  set_rfout := fun s _ _ => (0, s)
  remove := fun s _ => (0, s)

/-- An ADF4382 driver for an absent chip behind a working bus: every call
succeeds, `adf4382_init` hands out handle 1, every read stores zero. -/
def absent_adf4382 : Adf4382TestDriver Unit where
  init := fun s _ _ => (0, some 1, s)
  spi_read := fun s _ _ => (0, some 0, s)
  spi_write := fun s _ _ _ => (0, s)
  get_rfout := fun s _ => (0, some 0, s)
  get_ref_clk := fun s _ => (0, some 0, s)
  remove := fun s _ => (0, s)

/-! ## ADF4377 vendor-ID examples (vendor_id_example.c, minimal_vendor_id_test.c) -/

/-- Value `ADF4377_VENDOR_ID_LSB` of adf4377.h, the content of register 0x0C:
0x56 ("Expected: 0x56 (according to datasheet)" and `vendor_id_lsb == 0x56` in
simple_vendor_id_test.c). -/
def ADF4377_VENDOR_ID_LSB : Nat := 0x56

/-- The 16-bit vendor ID `(vendor_id_msb << 8) | vendor_id_lsb` of two bytes. -/
def vendor_id_of (msb lsb : Nat) : Nat :=
  (((msb % 256) <<< 8) ||| (lsb % 256)) % 65536

namespace vendor_id_example

/-- Function `example_main` of vendor_id_example.c. `VENDOR_ID_LSB` is the
header constant the combined ID is compared with (line 86). The locals
`vendor_id_lsb` and `vendor_id_msb` start at 0 and hold what the reads
stored. -/
def example_main {σ : Type} (d : Adf4377Driver σ) (VENDOR_ID_LSB : Nat) (b : SpiBlocks)
    (w : σ) : Int × List Adf4377Call × σ :=
  let i := d.init w none b
  let dev := i.2.1.getD 0
  if i.1 ≠ 0 then (i.1, [Adf4377Call.init b], i.2.2)
  else
    let r1 := d.spi_read i.2.2 dev 0x0C
    if r1.1 ≠ 0 then
      (r1.1, [Adf4377Call.init b, Adf4377Call.spi_read dev 0x0C, Adf4377Call.remove dev],
       (d.remove r1.2.2 dev).2)
    else
      let r2 := d.spi_read r1.2.2 dev 0x0D
      if r2.1 ≠ 0 then
        (r2.1, [Adf4377Call.init b, Adf4377Call.spi_read dev 0x0C,
                Adf4377Call.spi_read dev 0x0D, Adf4377Call.remove dev],
         (d.remove r2.2.2 dev).2)
      else
        (if vendor_id_of (r2.2.1.getD 0) (r1.2.1.getD 0) = VENDOR_ID_LSB then r2.1 else -1,
         [Adf4377Call.init b, Adf4377Call.spi_read dev 0x0C,
          Adf4377Call.spi_read dev 0x0D, Adf4377Call.remove dev],
         (d.remove r2.2.2 dev).2)

end vendor_id_example

namespace minimal_vendor_id_test

/-- Function `example_main` of minimal_vendor_id_test.c, over the platform
functions it calls (`no_os_calloc`, `no_os_spi_init`, `adf4377_spi_read`,
`no_os_spi_remove`, `no_os_free`); the combined ID is compared with the
literal 0x0456 (line 118). -/
def example_main {σ : Type} (P : Adf4382Platform σ) (s : σ) : Int × List BusEvent × σ :=
  let alloc := P.calloc s
  if alloc.1 = false then (-ENOMEM, [BusEvent.calloc], alloc.2)
  else
    let init := P.spi_init alloc.2
    if init.1 < 0 then
      (init.1, [BusEvent.calloc, BusEvent.spi_init, BusEvent.free], P.free init.2)
    else
      let r1 := P.spi_read init.2 0x0C
      if r1.1 ≠ 0 then
        (r1.1, [BusEvent.calloc, BusEvent.spi_init, BusEvent.read 0x0C,
                BusEvent.spi_remove, BusEvent.free], P.free (P.spi_remove r1.2.2))
      else
        let r2 := P.spi_read r1.2.2 0x0D
        if r2.1 ≠ 0 then
          (r2.1, [BusEvent.calloc, BusEvent.spi_init, BusEvent.read 0x0C, BusEvent.read 0x0D,
                  BusEvent.spi_remove, BusEvent.free], P.free (P.spi_remove r2.2.2))
        else
          (if vendor_id_of r2.2.1 r1.2.1 = 0x0456 then r2.1 else -1,
           [BusEvent.calloc, BusEvent.spi_init, BusEvent.read 0x0C, BusEvent.read 0x0D,
            BusEvent.spi_remove, BusEvent.free], P.free (P.spi_remove r2.2.2))

end minimal_vendor_id_test

/-- An ADF4377 driver for a genuine chip: every call succeeds, register 0x0C
reads 0x56, register 0x0D reads 0x04, every other register reads 0. -/
def genuine_adf4377 : Adf4377Driver Unit where
  REG := fun x => x
  init := fun s _ _ => (0, some 1, s)
  spi_read := fun s _ reg => (0, some (if reg = 0x0C then 0x56 else if reg = 0x0D then 0x04 else 0), s)
  spi_write := fun s _ _ _ => (0, s)
  spi_update_bit := fun s _ _ _ _ => (0, s)
  set_rfout := fun s _ _ => (0, s)
  remove := fun s _ => (0, s)

/-- An ADF4377 driver for a device that is not an ADF4377: every call
succeeds, register 0x0C reads 0x56, every other register reads 0. -/
def foreign_adf4377 : Adf4377Driver Unit where
  REG := fun x => x
  init := fun s _ _ => (0, some 1, s)
  spi_read := fun s _ reg => (0, some (if reg = 0x0C then 0x56 else 0), s)
  spi_write := fun s _ _ _ => (0, s)
  spi_update_bit := fun s _ _ _ _ => (0, s)
  set_rfout := fun s _ _ => (0, s)
  remove := fun s _ => (0, s)

/-! ## Order of the bus operations in basic_example.c -/

/-- The bus operations of example_main in program order: the reset write, the
power-on delay, the configuration writes and the scratchpad read-back. -/
def bus_script (H : Adf4382Header) (spi_3wire_en cmos_3v3 : Bool) : List BusEvent :=
  [BusEvent.write 0x00 H.RESET_CMD, BusEvent.udelay H.POR_DELAY_US]
    ++ (config_writes H spi_3wire_en cmos_3v3).map (fun p => BusEvent.write p.1 p.2)
    ++ [BusEvent.read 0x00A]

/-- Return code and next world of one bus operation on the platform (the
delay always succeeds). -/
def bus_step {σ : Type} (P : Adf4382Platform σ) (s : σ) : BusEvent → Int × σ
  | BusEvent.write reg val => P.spi_write s reg val
  | BusEvent.read reg => ((P.spi_read s reg).1, (P.spi_read s reg).2.2)
  | BusEvent.udelay us => (0, P.udelay s us)
  | _ => (0, s)

/-- Reference behaviour "fixed order, stop at the first failure": issue the
operations of a script one after the other, each with its return code, and
issue nothing after the first operation that returns non-zero. -/
def run_until_failure {σ : Type} (P : Adf4382Platform σ) :
    List BusEvent → σ → List (BusEvent × Int)
  | [], _ => []
  | e :: rest, s =>
      if (bus_step P s e).1 ≠ 0 then [(e, (bus_step P s e).1)]
      else (e, 0) :: run_until_failure P rest (bus_step P s e).2

/-! ## spi_mode_test.c `main` -/

namespace spi_mode_test

/-- Function `main` of spi_mode_test.c: runs `test_spi_mode` for the four SPI
modes in turn (`c0` .. `c3` are the set-up outcomes of the four runs) and sets
`found_response` when a result is non-zero (`if (test_spi_mode(...))`). The
result is the return value, `found_response` (the program prints "SUCCESS:
Found a mode where the chip responds!" exactly when it is set), the frames
sent and the outside world. -/
def main {σ : Type} (transfer : σ → List Nat → Option (List Nat) × σ)
    (c0 c1 c2 c3 : SpidevSetup) (s : σ) : Int × Bool × List (List Nat) × σ :=
  let r0 := test_spi_mode transfer c0 s
  let r1 := test_spi_mode transfer c1 r0.2.2
  let r2 := test_spi_mode transfer c2 r1.2.2
  let r3 := test_spi_mode transfer c3 r2.2.2
  (0,
   decide (r0.1 ≠ 0) || decide (r1.1 ≠ 0) || decide (r2.1 ≠ 0) || decide (r3.1 ≠ 0),
   r0.2.1 ++ r1.2.1 ++ r2.2.1 ++ r3.2.1,
   r3.2.2)

end spi_mode_test

/-- The set-up outcome in which `/dev/spidev0.0` cannot be opened. -/
def no_spidev : SpidevSetup :=
  { open_ok := false, mode_ok := false, bits_ok := false, speed_ok := false }

/-- The set-up outcome in which every step succeeds. -/
def spidev_ready : SpidevSetup :=
  { open_ok := true, mode_ok := true, bits_ok := true, speed_ok := true }

/-- A bus on which every transfer succeeds and nothing answers: the response
is all zero. -/
def silent_bus : Unit → List Nat → Option (List Nat) × Unit :=
  fun s _ => (some [0, 0, 0], s)

/-! ## spi_diagnostic.c and test_connections.c -/

/-- Frames of spi_diagnostic.c `main`, in program order: the all-zero probe
(line 13), the "ADF4382 reset command (0x81)" (lines 95-97) and the "read
ADF4382 register 0x00" frame (lines 113-115). -/
def spi_diagnostic_frames : List (List Nat) :=
  [[0x00, 0x00, 0x00], [0x00, 0x81, 0x00], [0x00, 0x00, 0x00]]

/-- Frames of test_connections.c `main`, in program order: the slow-speed probe
(line 48), the five patterns `0x80 | i` (lines 61-69), the "Reset command"
(line 75) and the "Read reg 0" frame (line 81). -/
def test_connections_frames : List (List Nat) :=
  [[0x00, 0x00, 0x00]]
    ++ (List.range 5).map (fun i => [0x00, 0x80 ||| i, 0x00])
    ++ [[0x00, 0x81, 0x00], [0x00, 0x00, 0x00]]

/-- Function `main` of spi_diagnostic.c: `1` when the device cannot be set up
or a transfer fails, else `0`; with the frames sent. -/
def spi_diagnostic_main {σ : Type} (transfer : σ → List Nat → Option (List Nat) × σ)
    (c : SpidevSetup) (s : σ) : Int × List (List Nat) × σ :=
  if c.ready then
    let r := run_transfers transfer spi_diagnostic_frames s [0, 0, 0]
    (if r.ok then 0 else 1, r.sent, r.world)
  else (1, [], s)

/-- Transfers whose result is only printed (`ret < 0 ? "FAILED" : "OK"`): all
frames are sent, whatever the bus answers. -/
def send_all {σ : Type} (transfer : σ → List Nat → Option (List Nat) × σ) :
    List (List Nat) → σ → List (List Nat) × σ
  | [], s => ([], s)
  | tx :: rest, s =>
      (tx :: (send_all transfer rest (transfer s tx).2).1,
       (send_all transfer rest (transfer s tx).2).2)

/-- Function `main` of test_connections.c: `1` when the device cannot be
opened, else `0` after sending every frame (the results of the configuration
ioctls and of the transfers are not checked). -/
def test_connections_main {σ : Type} (transfer : σ → List Nat → Option (List Nat) × σ)
    (open_ok : Bool) (s : σ) : Int × List (List Nat) × σ :=
  if open_ok then
    (0, (send_all transfer test_connections_frames s).1,
     (send_all transfer test_connections_frames s).2)
  else (1, [], s)

/-! ## The wire-mode write of the raw ADF4382 tests -/

/-- Frames of skip_scratchpad_test.c `main`, in program order: reset (line 67),
CMOS voltage (line 94), wire mode (line 110), the seven register defaults of
lines 128-141 and the vendor-ID read (line 163). -/
def skip_scratchpad_test_frames : List (List Nat) :=
  [[0x00, 0x00, 0x81], [0x00, 0x3D, 0x20], [0x00, 0x00, 0x18]]
    ++ [(0x01, 0x00), (0x02, 0x00), (0x03, 0x06), (0x04, 0x05), (0x05, 0x05),
        (0x0C, 0x56), (0x0D, 0x04)].map (fun p => [0x00, p.1, p.2])
    ++ [[0x80, 0x0D, 0x00]]

/-- The frame vendor_id_test.c sends under "3. Configuring SPI to 4-wire
mode..." (line 110). -/
def vendor_id_test_wire_mode : List Nat :=
  [0x00, 0x00, 0x08]

/-- The frame skip_scratchpad_test.c sends under "3. Configuring SPI to 4-wire
mode..." (line 110). -/
def skip_scratchpad_test_wire_mode : List Nat :=
  [0x00, 0x00, 0x18]

/-- The frame `test_spi_mode` of spi_mode_test.c sends under "2. Configuring
SPI to 4-wire mode..." (line 87). -/
def test_spi_mode_wire_mode : List Nat :=
  [0x00, 0x00, 0x00]

/-! ## Command lines of the update tools, option by option -/

/-- The options of the update tools that take a value (lines 308-326 of
update_adf4382.c). -/
def value_options : List String :=
  ["--spi-device", "--freq", "--cp-i", "--bleed", "--phase"]

/-- The command line that consists of the given option/value pairs. -/
def pairs_args : List (String × String) → List String
  | [] => []
  | p :: ps => p.1 :: p.2 :: pairs_args ps

/-- One round of the option loop of the update tools on an option followed by
a value (the first five branches, lines 308-326 of update_adf4382.c). -/
def record_option (L : Libc) (o : UpdateOptions) (p : String × String) : UpdateOptions :=
  if p.1 = "--spi-device" then { o with spi_device_id := to_u32 (L.atoi p.2) }
  else if p.1 = "--freq" then { o with freq_hz := L.strtoull p.2 % 2 ^ 64, freq_set := true }
  else if p.1 = "--cp-i" then { o with cp_i := L.atoi p.2, cp_set := true }
  else if p.1 = "--bleed" then { o with bleed_word := L.atoi p.2, bleed_set := true }
  else if p.1 = "--phase" then { o with phase_ps := to_u32 (L.atoi p.2), phase_set := true }
  else o

/-- The value given last for option `name` among option/value pairs, if the
option occurs at all. -/
def last_value (ps : List (String × String)) (name : String) : Option String :=
  (ps.reverse.find? (fun p => decide (p.1 = name))).map (fun p => p.2)

/-- What a command line of option/value pairs asks for, read option by option
and not in command-line order: a parameter is requested when its option
occurs, with the value given last; an option that does not occur leaves the
initial value of its variable. -/
def requested_options (L : Libc) (ps : List (String × String)) : UpdateOptions :=
  { spi_device_id := ((last_value ps "--spi-device").map (fun v => to_u32 (L.atoi v))).getD 0
    freq_hz := ((last_value ps "--freq").map (fun v => L.strtoull v % 2 ^ 64)).getD 0
    cp_i := ((last_value ps "--cp-i").map (fun v => L.atoi v)).getD (-1)
    bleed_word := ((last_value ps "--bleed").map (fun v => L.atoi v)).getD (-1)
    phase_ps := ((last_value ps "--phase").map (fun v => to_u32 (L.atoi v))).getD 0
    freq_set := (last_value ps "--freq").isSome
    cp_set := (last_value ps "--cp-i").isSome
    bleed_set := (last_value ps "--bleed").isSome
    phase_set := (last_value ps "--phase").isSome }

/-- One requested parameter update, with its value. -/
inductive UpdateRequest where
  | frequency (freq_hz : Nat)
  | charge_pump (cp_i : Int)
  | bleed (bleed_word : Int)
  | phase (phase_ps : Nat)
deriving DecidableEq, Repr

/-- The requested updates in the fixed order frequency, charge-pump current,
bleed word, phase adjustment. -/
def requested_updates (o : UpdateOptions) : List UpdateRequest :=
  (if o.freq_set then [UpdateRequest.frequency o.freq_hz] else [])
    ++ (if o.cp_set then [UpdateRequest.charge_pump o.cp_i] else [])
    ++ (if o.bleed_set then [UpdateRequest.bleed o.bleed_word] else [])
    ++ (if o.phase_set then [UpdateRequest.phase o.phase_ps] else [])

namespace update_adf4382

/-- The setter function of update_adf4382.c that serves a request. -/
def apply_update {σ : Type} (d : Adf4382Driver σ) (st : DynToolState σ) :
    UpdateRequest → Int × DynToolState σ
  | UpdateRequest.frequency freq_hz => set_frequency d st freq_hz
  | UpdateRequest.charge_pump cp_i => set_charge_pump_current d st cp_i
  | UpdateRequest.bleed bleed_word => set_bleed_word d st bleed_word
  | UpdateRequest.phase phase_ps => set_phase_adjustment d st phase_ps

/-- Reference behaviour "in the given order, stop at the first failure": the
requests are served one after the other; the first setter that returns
non-zero ends the sequence with its result, and nothing is served after it. -/
def apply_until_failure {σ : Type} (d : Adf4382Driver σ) :
    DynToolState σ → List UpdateRequest → Int × DynToolState σ
  | st, [] => (0, st)
  | st, u :: us =>
      if (apply_update d st u).1 ≠ 0 then apply_update d st u
      else apply_until_failure d (apply_update d st u).2 us

end update_adf4382

namespace update_adf4382_static

/-- The setter function of update_adf4382_static.c that serves a request. -/
def apply_update {σ : Type} (d : Adf4382Driver σ) (st : ToolState σ) :
    UpdateRequest → Int × ToolState σ
  | UpdateRequest.frequency freq_hz => set_frequency d st freq_hz
  | UpdateRequest.charge_pump cp_i => set_charge_pump_current d st cp_i
  | UpdateRequest.bleed bleed_word => set_bleed_word d st bleed_word
  | UpdateRequest.phase phase_ps => set_phase_adjustment d st phase_ps

/-- Reference behaviour "in the given order, stop at the first failure": the
requests are served one after the other; the first setter that returns
non-zero ends the sequence with its result, and nothing is served after it. -/
def apply_until_failure {σ : Type} (d : Adf4382Driver σ) :
    ToolState σ → List UpdateRequest → Int × ToolState σ
  | st, [] => (0, st)
  | st, u :: us =>
      if (apply_update d st u).1 ≠ 0 then apply_update d st u
      else apply_until_failure d (apply_update d st u).2 us

end update_adf4382_static

/-- An ADF4382 driver whose `adf4382_set_cp_i` fails with `-EINVAL`; the other
calls succeed and `init` hands out handle 1. -/
def cp_failing_driver : Adf4382Driver Unit where
  init := fun s _ _ => (0, some 1, s)
  remove := fun s _ => (0, s)
  set_rfout := fun s _ _ => (0, s)
  set_cp_i := fun s _ _ => (-22, s)
  set_bleed_word := fun s _ _ => (0, s)
  set_phase_adjust := fun s _ _ => (0, s)

/-! ## Sequences of calls of the adf4377_test API -/

/-- A call of the API of adf4377_test_api.c, with its arguments. -/
inductive ApiCall where
  | init (spi_device spi_cs : Int)
  | read_reg (reg : Nat)
  | write_reg (reg val : Nat)
  | update_bits (reg mask value : Nat)
  | set_rfout (freq_hz : Nat)
  | remove
deriving DecidableEq, Repr

/-- The API function an `ApiCall` stands for, applied to the state: its return
value and the state it leaves. -/
def api_step {σ : Type} (d : Adf4377Driver σ) (st : ApiState σ) : ApiCall → Int × ApiState σ
  | ApiCall.init spi_device spi_cs => adf4377_test_init d st spi_device spi_cs
  | ApiCall.read_reg reg =>
      ((adf4377_test_read_reg d st reg).1, (adf4377_test_read_reg d st reg).2.2)
  | ApiCall.write_reg reg val => adf4377_test_write_reg d st reg val
  | ApiCall.update_bits reg mask value => adf4377_test_update_bits d st reg mask value
  | ApiCall.set_rfout freq_hz => adf4377_test_set_rfout d st freq_hz
  | ApiCall.remove => adf4377_test_remove d st

/-- A caller's sequence of API calls, made one after the other: the return
values in order and the final state. -/
def run_api {σ : Type} (d : Adf4377Driver σ) : ApiState σ → List ApiCall → List Int × ApiState σ
  | st, [] => ([], st)
  | st, c :: rest =>
      ((api_step d st c).1 :: (run_api d (api_step d st c).2 rest).1,
       (run_api d (api_step d st c).2 rest).2)

/-- Number of `adf4377_test_init` calls of a sequence that returned 0. -/
def successful_inits : List ApiCall → List Int → Nat
  | ApiCall.init _ _ :: cs, r :: rs => (if r = 0 then 1 else 0) + successful_inits cs rs
  | _ :: cs, _ :: rs => successful_inits cs rs
  | _, _ => 0

/-- Is the driver call `adf4377_remove`. -/
def Adf4377Call.is_remove : Adf4377Call → Bool
  | Adf4377Call.remove _ => true
  | _ => false

/-- One step of the scan of a list of driver calls for a removal that does not
follow an initialisation: `some armed` while none was found, where `armed` says
that `adf4377_init` was called after the last `adf4377_remove`; `none` once an
`adf4377_remove` was met unarmed. -/
def lifecycle_step : Option Bool → Adf4377Call → Option Bool
  | none, _ => none
  | some _, Adf4377Call.init _ => some true
  | some armed, Adf4377Call.remove _ => if armed then some false else none
  | some armed, _ => some armed

/-- Every `adf4377_remove` in the list of driver calls has an `adf4377_init`
before it that is later than any earlier `adf4377_remove`: no handle is removed
twice. -/
def removes_follow_init (calls : List Adf4377Call) : Bool :=
  (calls.foldl lifecycle_step (some false)).isSome

/-- An ADF4377 driver whose `adf4377_init` succeeds on SPI device 0 (handing
out handle 1) and fails with `-EINVAL` on any other device, leaving the handle
variable as it was; `adf4377_remove` fails with `-EINVAL`; the other calls
succeed. -/
def flaky_adf4377 : Adf4377Driver Unit where
  REG := fun x => x
  init := fun s h b => if b.ip_device_id = 0 then (0, some 1, s) else (-22, h, s)
  spi_read := fun s _ _ => (0, some 0, s)
  spi_write := fun s _ _ _ => (0, s)
  spi_update_bit := fun s _ _ _ _ => (0, s)
  set_rfout := fun s _ _ => (0, s)
  remove := fun s _ => (-22, s)

/-! ## Verdicts of simple_vendor_id_test.c -/

/-- The three messages a check of simple_vendor_id_test.c chooses from:
"SUCCESS", "PARTIAL SUCCESS" (some response) and "FAILURE" (no response). -/
inductive IdVerdict where
  | success
  | responding
  | silent
deriving DecidableEq, Repr

/-- The check of one identification byte against its datasheet value (lines
154-161 for the LSB and 0x56, lines 182-188 for the MSB and 0x04). -/
def byte_verdict (datasheet b : Nat) : IdVerdict :=
  if b = datasheet then IdVerdict.success
  else if b ≠ 0 then IdVerdict.responding
  else IdVerdict.silent

/-- The check of the full vendor ID (lines 194-200, repeated for the closing
message in lines 205-211). -/
def id_verdict (vendor_id : Nat) : IdVerdict :=
  if vendor_id = 0x0456 then IdVerdict.success
  else if vendor_id ≠ 0 then IdVerdict.responding
  else IdVerdict.silent

/-! ## Initialisation parameters of the synthesizers -/

/-- Struct `linux_spi_init_param` as update_adf4382_static.c fills it (lines
58-63). -/
structure linux_spi_init_param where
  device_id : Nat
  chip_select : Nat
  max_speed_hz : Nat
  mode : Nat
deriving DecidableEq, Repr

/-- The platform operation tables a `platform_ops` pointer can refer to. -/
inductive SpiPlatformOps where
  | linux_spi_ops
deriving DecidableEq, Repr

/-- Struct `no_os_spi_init_param` (declared in lines 51-59 of update_adf4382.c);
a `NULL` pointer is `none`. -/
structure no_os_spi_init_param where
  device_id : Nat
  max_speed_hz : Nat
  bit_order : Nat
  mode : Nat
  platform_ops : Option SpiPlatformOps
  chip_select : Nat
  extra : Option linux_spi_init_param
deriving DecidableEq, Repr

/-- Struct `adf4382_init_param` (declared in lines 61-76 of update_adf4382.c);
`spi_init` is the block the pointer refers to. -/
structure adf4382_init_param where
  spi_init : no_os_spi_init_param
  spi_3wire_en : Bool
  cmos_3v3 : Bool
  ref_freq_hz : Nat
  freq : Nat
  ref_doubler_en : Bool
  ref_div : Nat
  cp_i : Nat
  bleed_word : Nat
  ld_count : Nat
  en_lut_gen : Nat
  en_lut_cal : Nat
  max_lpf_cap_value_uf : Nat
  id : Nat
deriving DecidableEq, Repr

/-- The ADF4382 driver library as both update tools reach it: `adf4382_init`
receives the initialisation parameters and the current content of the handle
variable and answers its new content; the other five entry points are those of
`Adf4382Driver`. -/
structure Adf4382Library (σ : Type) where
  init : σ → Option Nat → adf4382_init_param → Int × Option Nat × σ
  remove : σ → Nat → Int × σ
  set_rfout : σ → Nat → Nat → Int × σ
  set_cp_i : σ → Nat → Int → Int × σ
  set_bleed_word : σ → Nat → Int → Int × σ
  set_phase_adjust : σ → Nat → Nat → Int × σ

namespace update_adf4382

/-- Local `spi_param` of `init_adf4382` in update_adf4382.c (lines 127-135):
`platform_ops` and `extra` are `NULL`. -/
def spi_param (spi_device_id : Nat) : no_os_spi_init_param :=
  { device_id := spi_device_id, max_speed_hz := 1500000, bit_order := 0, mode := 0,
    platform_ops := none, chip_select := 0, extra := none }

/-- Local `init_param` of `init_adf4382` in update_adf4382.c (lines 137-152). -/
def init_param (spi_device_id : Nat) : adf4382_init_param :=
  { spi_init := spi_param spi_device_id, spi_3wire_en := false, cmos_3v3 := false,
    ref_freq_hz := 125000000, freq := 20000000000, ref_doubler_en := true, ref_div := 1,
    cp_i := 15, bleed_word := 4903, ld_count := 10, en_lut_gen := 0, en_lut_cal := 0,
    max_lpf_cap_value_uf := 10, id := 0 }

/-- The driver as update_adf4382.c calls it: `adf4382_init` is always handed
the `init_param` of `init_adf4382` (line 154). -/
def linked {σ : Type} (lib : Adf4382Library σ) : Adf4382Driver σ where
  init := fun w h spi_device_id => lib.init w h (init_param spi_device_id)
  remove := lib.remove
  set_rfout := lib.set_rfout
  set_cp_i := lib.set_cp_i
  set_bleed_word := lib.set_bleed_word
  set_phase_adjust := lib.set_phase_adjust

end update_adf4382

namespace update_adf4382_static

/-- Local `spi_extra` of `init_adf4382` in update_adf4382_static.c (lines 58-63). -/
def spi_extra (spi_device_id : Nat) : linux_spi_init_param :=
  { device_id := spi_device_id, chip_select := 0, max_speed_hz := 1500000, mode := 0 }

/-- Local `spi_param` of `init_adf4382` in update_adf4382_static.c (lines
65-73): `platform_ops` is `&linux_spi_ops`, `extra` is `&spi_extra`. -/
def spi_param (spi_device_id : Nat) : no_os_spi_init_param :=
  { device_id := spi_device_id, max_speed_hz := 1500000, bit_order := 0, mode := 0,
    platform_ops := some SpiPlatformOps.linux_spi_ops, chip_select := 0,
    extra := some (spi_extra spi_device_id) }

/-- Local `init_param` of `init_adf4382` in update_adf4382_static.c (lines 75-90). -/
def init_param (spi_device_id : Nat) : adf4382_init_param :=
  { spi_init := spi_param spi_device_id, spi_3wire_en := false, cmos_3v3 := false,
    ref_freq_hz := 125000000, freq := 20000000000, ref_doubler_en := true, ref_div := 1,
    cp_i := 15, bleed_word := 4903, ld_count := 10, en_lut_gen := 0, en_lut_cal := 0,
    max_lpf_cap_value_uf := 10, id := 0 }

/-- The driver as update_adf4382_static.c calls it: `adf4382_init` is always
handed the `init_param` of `init_adf4382` (line 93). -/
def linked {σ : Type} (lib : Adf4382Library σ) : Adf4382Driver σ where
  init := fun w h spi_device_id => lib.init w h (init_param spi_device_id)
  remove := lib.remove
  set_rfout := lib.set_rfout
  set_cp_i := lib.set_cp_i
  set_bleed_word := lib.set_bleed_word
  set_phase_adjust := lib.set_phase_adjust

end update_adf4382_static

/-- The globals of update_adf4382.c without `lib_handle`, as globals of
update_adf4382_static.c. -/
def DynToolState.to_static {σ : Type} (st : DynToolState σ) : ToolState σ :=
  { adf4382_dev := st.adf4382_dev, calls := st.calls, world := st.world }

/-- A driver library whose `adf4382_init` needs the platform operations of the
SPI block: with `platform_ops == NULL` it fails with `-EINVAL` and stores no
handle, otherwise it succeeds and hands out handle 1; the other calls succeed. -/
def strict_library : Adf4382Library Unit where
  init := fun s h p => if p.spi_init.platform_ops.isSome then (0, some 1, s) else (-22, h, s)
  remove := fun s _ => (0, s)
  set_rfout := fun s _ _ => (0, s)
  set_cp_i := fun s _ _ => (0, s)
  set_bleed_word := fun s _ _ => (0, s)
  set_phase_adjust := fun s _ _ => (0, s)

/-- A driver library whose `adf4382_init` looks at the synthesizer values only:
it succeeds (handle 1) when the requested output is a multiple of the
comparison frequency and fails with `-EINVAL` otherwise; the other calls
succeed. -/
def synth_only_library : Adf4382Library Unit where
  init := fun s h p =>
    if p.freq % pfd_frequency p.ref_freq_hz p.ref_doubler_en p.ref_div = 0 then (0, some 1, s)
    else (-22, h, s)
  remove := fun s _ => (0, s)
  set_rfout := fun s _ _ => (0, s)
  set_cp_i := fun s _ _ => (0, s)
  set_bleed_word := fun s _ _ => (0, s)
  set_phase_adjust := fun s _ _ => (0, s)

namespace ADF4382_Test

/-- The initialisation parameters `adf4382_ip` of ADF4382_Test common_data.c
(lines 58-73). The SPI block `adf4382_spi_ip` and the enumerator `ID_ADF4382`
are built from header values that are not among the sources. -/
def adf4382_ip (adf4382_spi_ip : no_os_spi_init_param) (ID_ADF4382 : Nat) :
    adf4382_init_param :=
  { spi_init := adf4382_spi_ip, spi_3wire_en := false, cmos_3v3 := true,
    ref_freq_hz := 125000000, freq := 20000000000, ref_doubler_en := true, ref_div := 1,
    cp_i := 15, bleed_word := 4903, ld_count := 10, en_lut_gen := 0, en_lut_cal := 0,
    max_lpf_cap_value_uf := 10, id := ID_ADF4382 }

end ADF4382_Test

/-- The fields of `struct adf4368_init_param` other than the SPI block, as
adf4368 common_data.c names them. -/
structure adf4368_init_param where
  spi_4wire_en : Bool
  cmos_3v3 : Bool
  ref_freq_hz : Nat
  freq : Nat
  ref_doubler_en : Bool
  ref_div : Nat
  cp_i : Nat
  ld_count : Nat
deriving DecidableEq, Repr

/-- The initialisation parameters `adf4368_ip` of adf4368 common_data.c (lines
63-73). -/
def adf4368_ip : adf4368_init_param :=
  { spi_4wire_en := true, cmos_3v3 := true, ref_freq_hz := 100000000, freq := 2400000000,
    ref_doubler_en := false, ref_div := 1, cp_i := 2, ld_count := 0 }

namespace libadnoos

/-- Macro `CLKIN_FREQ` of libadnoos examples/adf4377_test.c (line 38). -/
def CLKIN_FREQ : Nat := 125000000

/-- Macro `OUTPUT_FREQ` of libadnoos examples/adf4377_test.c (line 39). -/
def OUTPUT_FREQ : Nat := 11000000000

/-- The frequency fields of the local `init_param` of `main` in
libadnoos examples/adf4377_test.c (lines 75-78). -/
def init_param : adf4377_init_param :=
  { clkin_freq := CLKIN_FREQ, ref_doubler_en := 1, f_clk := OUTPUT_FREQ, ref_div_factor := 1 }

end libadnoos

/-- A synthesizer configuration has the integer feedback ratio `N`: the
comparison frequency `ref_freq_hz * (doubler ? 2 : 1) / ref_div` is computed
without remainder, the target is `N` times it, and the values computed on the
way (the doubled reference, the comparison frequency, the ratio, the product
read back) are below `2^64` and come out the same in 64-bit unsigned
arithmetic. -/
def IntegerRatio (ref_freq_hz : Nat) (doubler_en : Bool) (ref_div target_freq_hz N : Nat) :
    Prop :=
  0 < ref_div
  ∧ ref_freq_hz * (if doubler_en then 2 else 1) % ref_div = 0
  ∧ 0 < pfd_frequency ref_freq_hz doubler_en ref_div
  ∧ target_freq_hz % pfd_frequency ref_freq_hz doubler_en ref_div = 0
  ∧ target_freq_hz / pfd_frequency ref_freq_hz doubler_en ref_div = N
  ∧ N * pfd_frequency ref_freq_hz doubler_en ref_div = target_freq_hz
  ∧ ref_freq_hz * (if doubler_en then 2 else 1) < 2 ^ 64
  ∧ target_freq_hz < 2 ^ 64
  ∧ pfd_frequency_u64 ref_freq_hz doubler_en ref_div
      = pfd_frequency ref_freq_hz doubler_en ref_div
  ∧ mul_u64 N (pfd_frequency_u64 ref_freq_hz doubler_en ref_div) = target_freq_hz

/-- Position of a request in the fixed order of the update tools: frequency,
charge-pump current, bleed word, phase adjustment. -/
def UpdateRequest.rank : UpdateRequest → Nat
  | UpdateRequest.frequency _ => 0
  | UpdateRequest.charge_pump _ => 1
  | UpdateRequest.bleed _ => 2
  | UpdateRequest.phase _ => 3

/-! ## Register read with the address check of the codec -/

/-- Errno `EIO`. -/
def EIO : Int := 5

/-- A bus together with the record of the frames handed to it, in order: a
transport mock that counts the transfers. -/
structure LoggedBus (σ : Type) where
  frames : List (List Nat)
  bus : σ

/-- Modelled from the spec: an address within the chip's addressable range
(§3, §4.1): it fits the 15-bit address field and lies within the register map
of the profile, whose size is a profile constant. -/
def addressable (map_size addr : Nat) : Bool :=
  decide (addr < 2 ^ 15 ∧ addr < map_size)

/-- Modelled from the spec: `read(addr)` of §4.1, the body of the driver's
missing `adf4377_spi_read`. An address beyond the addressable range fails with
`InvalidAddress` (`-EINVAL`), checked before any bus activity; otherwise the
read frame is handed to the bus in one transfer and the value is byte 2 of the
response; a failed transfer is a `TransportError` (`-EIO`). -/
def codec_read {σ : Type} (transfer : σ → List Nat → Option (List Nat) × σ) (map_size : Nat)
    (w : LoggedBus σ) (addr : Nat) : Int × Option Nat × LoggedBus σ :=
  if addressable map_size addr then
    (if (transfer w.bus (read_frame addr)).1.isSome then 0 else - EIO,
     (transfer w.bus (read_frame addr)).1.map (fun rx => read_value rx % 256),
     { frames := w.frames ++ [read_frame addr], bus := (transfer w.bus (read_frame addr)).2 })
  else (-EINVAL, none, w)

/-- Modelled from the spec: an ADF4377 driver whose `adf4377_spi_read` is the
read of §4.1 over a bus; its other entry points are those of `d`. -/
def with_codec_read {σ : Type} (transfer : σ → List Nat → Option (List Nat) × σ)
    (map_size : Nat) (d : Adf4377Driver (LoggedBus σ)) : Adf4377Driver (LoggedBus σ) :=
  { d with spi_read := fun w _ reg => codec_read transfer map_size w reg }

/-- An ADF4377 driver over any outside world in which every call succeeds and
leaves the world as it is; `adf4377_init` hands out handle 1, every read stores
zero, `ADF4377_REG(x)` is `x`. -/
def quiet_adf4377 (τ : Type) : Adf4377Driver τ where
  REG := fun x => x
  init := fun s _ _ => (0, some 1, s)
  spi_read := fun s _ _ => (0, some 0, s)
  spi_write := fun s _ _ _ => (0, s)
  spi_update_bit := fun s _ _ _ _ => (0, s)
  set_rfout := fun s _ _ => (0, s)
  remove := fun s _ => (0, s)

/-- An ADF4382 driver whose `adf4382_init` returns 0 without storing a handle;
the other calls succeed. -/
def handleless_driver : Adf4382Driver Unit where
  init := fun s _ _ => (0, none, s)
  remove := fun s _ => (0, s)
  set_rfout := fun s _ _ => (0, s)
  set_cp_i := fun s _ _ => (0, s)
  set_bleed_word := fun s _ _ => (0, s)
  set_phase_adjust := fun s _ _ => (0, s)

/-- Is the driver call `adf4377_init`. -/
def Adf4377Call.is_init : Adf4377Call → Bool
  | Adf4377Call.init _ => true
  | _ => false

/-- An ADF4377 driver whose `adf4377_init` fails with `-EINVAL` after it has
stored handle 1, leaving the device for the caller to remove; the other calls
succeed. -/
def storing_on_failure : Adf4377Driver Unit where
  REG := fun x => x
  init := fun s _ _ => (-22, some 1, s)
  spi_read := fun s _ _ => (0, some 0, s)
  spi_write := fun s _ _ _ => (0, s)
  spi_update_bit := fun s _ _ _ _ => (0, s)
  set_rfout := fun s _ _ => (0, s)
  remove := fun s _ => (0, s)

/-! # Theorems -/

/-! ## Bytes and bit fields -/

/-- Setting bit 7 of a 7-bit value is adding 128. -/
theorem or_0x80_of_lt {x : Nat} (h : x < 128) : 0x80 ||| x = 128 + x := by
  have key := Nat.mul_add_lt_is_or (i := 7) (b := x) (by simpa using h) 1
  simpa using key.symm

/-- Masking with `0xFF` is reduction modulo 256. -/
theorem and_0xFF (a : Nat) : a &&& 0xFF = a % 256 := by
  simpa using Nat.and_pow_two_sub_one_eq_mod a 8

/-- Masking with `0x7F` is reduction modulo 128. -/
theorem and_0x7F (a : Nat) : a &&& 0x7F = a % 128 := by
  simpa using Nat.and_pow_two_sub_one_eq_mod a 7

/-- Shifting right by eight is division by 256. -/
theorem shiftRight_8 (a : Nat) : a >>> 8 = a / 256 := by
  simp [Nat.shiftRight_eq_div_pow]

/-- A 15-bit address has a 7-bit upper part. -/
theorem addr_hi_lt {a : Nat} (ha : a < 2 ^ 15) : a / 256 < 128 := by
  omega

/-- Bit 7 and the low seven bits of a byte whose bit 7 was set on a 7-bit value. -/
theorem flag_and_field_of_set : ∀ x < 128,
    (0x80 ||| x) &&& 0x80 = 0x80 ∧ (0x80 ||| x) &&& 0x7F = x ∧ (0x80 ||| x) < 256 := by
  decide

/-- A 7-bit value has bit 7 clear. -/
theorem flag_clear_of_lt : ∀ x < 128, x &&& 0x80 = 0 := by
  decide

/-! ## Register codec -/

/-- The frames the codec builds always have three bytes. -/
theorem encode_frame_length (f : RegisterFrame) : (encode_frame f).length = 3 := rfl

/-- A run of transfer blocks in which every ioctl succeeded has sent exactly
the frames of the program, in order. -/
theorem run_transfers_sent {σ : Type} (transfer : σ → List Nat → Option (List Nat) × σ)
    (frames : List (List Nat)) (s : σ) (rx : List Nat)
    (hok : (run_transfers transfer frames s rx).ok = true) :
    (run_transfers transfer frames s rx).sent = frames := by
  induction frames generalizing s rx with
  | nil => rfl
  | cons tx rest ih =>
      unfold run_transfers at hok ⊢
      split at hok
      · simp at hok
      · next rx1 s1 heq =>
          simp only at hok ⊢
          rw [ih s1 rx1 hok]

/-- C1: for every register address below 2^15 the read frame is
[0x80 | (a >> 8), a & 0xFF, 0x00]: bit 7 of byte 0 is the read flag, bits 6..0
of byte 0 are the upper seven address bits, byte 1 the lower eight, byte 2 is
zero; the value of a read is byte 2 of the 3-byte response; and the read frames
sent by simple_vendor_id_test.c (0x000C, 0x000D), simple_chip_id_test.c
(0x0003, 0x000C, 0x0004) and spi_mode_test.c (0x000A) are this encoding of
their addresses, and are what a run without a failed transfer puts on the bus. -/
theorem read_frame_layout (a : Nat) (ha : a < 2 ^ 15) :
    read_frame a = [0x80 ||| (a >>> 8), a &&& 0xFF, 0x00]
    ∧ (0x80 ||| (a >>> 8)) &&& 0x80 = 0x80
    ∧ (0x80 ||| (a >>> 8)) &&& 0x7F = a >>> 8
    ∧ (∀ r0 r1 r2 : Nat, read_value [r0, r1, r2] = r2)
    ∧ simple_vendor_id_test_frames.drop 1 = [read_frame 0x000C, read_frame 0x000D]
    ∧ simple_chip_id_test_frames.drop 1
        = [read_frame 0x0003, read_frame 0x000C, read_frame 0x0004]
    ∧ test_spi_mode_frames.drop 3 = [read_frame 0x000A]
    ∧ (∀ (σ : Type) (transfer : σ → List Nat → Option (List Nat) × σ)
        (c : SpidevSetup) (s : σ),
        0 ≤ (test_spi_mode transfer c s).1 →
        (test_spi_mode transfer c s).2.1.drop 3 = [read_frame 0x000A])
    ∧ (∀ (σ : Type) (transfer : σ → List Nat → Option (List Nat) × σ)
        (access_ok : Bool) (c : SpidevSetup) (s : σ),
        (simple_vendor_id_test_main transfer access_ok c s).1 = 0 →
        (simple_vendor_id_test_main transfer access_ok c s).2.1.drop 1
          = [read_frame 0x000C, read_frame 0x000D]) := by
  have hhi : a / 256 < 128 := addr_hi_lt ha
  have hbits := flag_and_field_of_set (a / 256) hhi
  refine ⟨?_, ?_, ?_, ?_, ?_, ?_, ?_, ?_, ?_⟩
  · simp only [read_frame, encode_frame, shiftRight_8, and_0xFF, or_0x80_of_lt hhi]
    simp [Nat.mod_eq_of_lt hhi]
  · rw [shiftRight_8]; exact hbits.1
  · rw [shiftRight_8]; exact hbits.2.1
  · intro r0 r1 r2
    rfl
  · decide
  · decide
  · decide
  · intro σ transfer c s h
    unfold test_spi_mode at h ⊢
    by_cases hc : c.ready = true
    · simp only [hc, if_true] at h ⊢
      by_cases hok : (run_transfers transfer test_spi_mode_frames s [0, 0, 0]).ok = true
      · have hsent := run_transfers_sent transfer test_spi_mode_frames s [0, 0, 0] hok
        simp only [hok, if_true]
        split_ifs <;> simp only [hsent] <;> decide
      · simp [hok] at h
    · simp [hc] at h
  · intro σ transfer access_ok c s h
    unfold simple_vendor_id_test_main at h ⊢
    split_ifs at h ⊢
    · split at h
      · simp at h
      · split at h
        · simp at h
        · split at h
          · simp at h
          · simp only [List.drop_one, List.tail]
            decide
    · simp at h

/-- Instance of `read_frame_layout` at the MUXOUT register address 0x001D. -/
theorem read_frame_layout_witness :
    (0x001D : Nat) < 2 ^ 15 ∧ read_frame 0x001D = [0x80 ||| (0x001D >>> 8), 0x001D &&& 0xFF, 0x00] :=
  ⟨by decide, (read_frame_layout 0x001D (by decide)).1⟩

/-- C2: for every register address below 2^15 and every data byte the write
frame is [(a >> 8) & 0x7F, a & 0xFF, v] with bit 7 of byte 0 clear; and the
write frames of the raw SPI tests (scratchpad write of 0x5A to 0x000A in
spi_mode_test.c and spi_loopback_test.c, CMOS write of 0x20 to 0x003D in
vendor_id_test.c, reset write of 0x81 to 0x0000 in every test) are this
encoding. -/
theorem write_frame_layout (a v : Nat) (ha : a < 2 ^ 15) (hv : v < 256) :
    write_frame a v = [(a >>> 8) &&& 0x7F, a &&& 0xFF, v]
    ∧ ((a >>> 8) &&& 0x7F) &&& 0x80 = 0
    ∧ test_spi_mode_frames.get? 2 = some (write_frame 0x000A 0x5A)
    ∧ spi_loopback_test_adf_tx = write_frame 0x000A 0x5A
    ∧ vendor_id_test_frames.get? 1 = some (write_frame 0x003D 0x20)
    ∧ test_spi_mode_frames.head? = some (write_frame 0x0000 0x81)
    ∧ vendor_id_test_frames.head? = some (write_frame 0x0000 0x81)
    ∧ simple_vendor_id_test_frames.head? = some (write_frame 0x0000 0x81)
    ∧ simple_chip_id_test_frames.head? = some (write_frame 0x0000 0x81) := by
  have hhi : a / 256 < 128 := addr_hi_lt ha
  refine ⟨?_, ?_, ?_, ?_, ?_, ?_, ?_, ?_, ?_⟩
  · simp [write_frame, encode_frame, shiftRight_8, and_0xFF, and_0x7F,
      Nat.mod_eq_of_lt hv]
  · rw [shiftRight_8, and_0x7F, Nat.mod_eq_of_lt hhi]
    exact flag_clear_of_lt (a / 256) hhi
  all_goals decide

/-- Instance of `write_frame_layout` at the scratchpad write of 0x5A to 0x000A. -/
theorem write_frame_layout_witness :
    ((0x000A : Nat) < 2 ^ 15 ∧ (0x5A : Nat) < 256)
    ∧ write_frame 0x000A 0x5A = [(0x000A >>> 8) &&& 0x7F, 0x000A &&& 0xFF, 0x5A] :=
  ⟨⟨by decide, by decide⟩, (write_frame_layout 0x000A 0x5A (by decide) (by decide)).1⟩

/-! ## Read-modify-write -/

/-- Bits of the byte complement: bit `i` of `bnot8 m` is the negation of bit `i`
of `m` below bit 8. -/
theorem testBit_bnot8 {m : Nat} (hm : m < 256) {i : Nat} (hi : i < 8) :
    (bnot8 m).testBit i = !(m.testBit i) := by
  have h255 : (255 : Nat).testBit i = true := by
    have key := Nat.testBit_two_pow_sub_one 8 i
    simpa [hi] using key
  simp [bnot8, Nat.mod_eq_of_lt hm, Nat.testBit_xor, h255]

/-- Bits of the read-modify-write result: masked bits come from the value, the
others from the old byte. -/
theorem testBit_rmw {old mask value : Nat} (hm : mask < 256) {i : Nat} (hi : i < 8) :
    ((old &&& bnot8 mask) ||| (value &&& mask)).testBit i
      = if mask.testBit i then value.testBit i else old.testBit i := by
  rw [Nat.testBit_or, Nat.testBit_and, Nat.testBit_and, testBit_bnot8 hm hi]
  cases mask.testBit i <;> simp

/-- The read-modify-write result of bytes is a byte. -/
theorem rmw_lt {old mask : Nat} (value : Nat) (ho : old < 256) (hm : mask < 256) :
    (old &&& bnot8 mask) ||| (value &&& mask) < 256 := by
  have h1 : old &&& bnot8 mask < 2 ^ 8 := by
    rw [Nat.and_comm]; exact Nat.and_lt_two_pow _ (by simpa using ho)
  have h2 : value &&& mask < 2 ^ 8 := Nat.and_lt_two_pow _ (by simpa using hm)
  simpa using Nat.or_lt_two_pow h1 h2

set_option maxRecDepth 100000 in
/-- The MUXOUT update of ADF4377_Test main.c on every old byte: the field
[7:4] reads 0x8 afterwards and the low nibble is the old one. -/
theorem muxout_update_all_bytes : ∀ old < 256,
    (((old &&& bnot8 0xF0) ||| (0x80 &&& 0xF0)) >>> 4) &&& 0x0F = 0x8
    ∧ ((old &&& bnot8 0xF0) ||| (0x80 &&& 0xF0)) &&& 0x0F = old &&& 0x0F := by
  decide

/-- C3: over a register file, `adf4377_test_update_bits(reg, mask, value)`
(the driver's `adf4377_spi_update_bit`) followed by `adf4377_test_read_reg(reg)`
succeeds and reads `(old & ~mask) | (value & mask)`, bit for bit the value under
the mask and the old byte elsewhere; every other register and the read itself
leave the file unchanged; and for the MUXOUT update of main.c (mask 0xF0, value
0x80 on REG001D) the read-back `new` has `((new >> 4) & 0x0F) == 0x8` and
`(new & 0x0F) == (old & 0x0F)` for every old byte. -/
theorem update_bits_read_back (st : ApiState RegFile) (dev reg mask value : Nat)
    (hdev : st.adf4377_dev = some dev)
    (hold : st.world reg < 256) (hmask : mask < 256) :
    (adf4377_test_update_bits regfile_driver st reg mask value).1 = 0
    ∧ (adf4377_test_read_reg regfile_driver
        (adf4377_test_update_bits regfile_driver st reg mask value).2 reg).1 = 0
    ∧ (adf4377_test_read_reg regfile_driver
        (adf4377_test_update_bits regfile_driver st reg mask value).2 reg).2.1
        = some ((st.world reg &&& bnot8 mask) ||| (value &&& mask))
    ∧ (∀ i, i < 8 →
        ((st.world reg &&& bnot8 mask) ||| (value &&& mask)).testBit i
          = if mask.testBit i then value.testBit i else (st.world reg).testBit i)
    ∧ (∀ a, a ≠ reg →
        (adf4377_test_update_bits regfile_driver st reg mask value).2.world a = st.world a)
    ∧ (adf4377_test_read_reg regfile_driver
        (adf4377_test_update_bits regfile_driver st reg mask value).2 reg).2.2.world
        = (adf4377_test_update_bits regfile_driver st reg mask value).2.world
    ∧ (ADF4377_MUXOUT_MSK = 0xF0 ∧ ADF4377_MUXOUT ADF4377_MUXOUT_HIGH = 0x80)
    ∧ (∀ st0 : ApiState RegFile, st0.adf4377_dev = some dev → st0.world 0x1D < 256 →
        ∃ new, (adf4377_test_read_reg regfile_driver
            (adf4377_test_update_bits regfile_driver st0 0x1D ADF4377_MUXOUT_MSK
              (ADF4377_MUXOUT ADF4377_MUXOUT_HIGH)).2 0x1D).2.1 = some new
          ∧ (new >>> 4) &&& 0x0F = 0x8
          ∧ new &&& 0x0F = st0.world 0x1D &&& 0x0F) := by
  have hlt := rmw_lt value hold hmask
  have rd : ∀ (s0 : ApiState RegFile) (r m v : Nat), s0.adf4377_dev = some dev →
      s0.world r < 256 → m < 256 →
      (adf4377_test_read_reg regfile_driver
        (adf4377_test_update_bits regfile_driver s0 r m v).2 r).2.1
        = some ((s0.world r &&& bnot8 m) ||| (v &&& m)) := by
    intro s0 r m v h0 ho hm
    have hl := rmw_lt v ho hm
    simp [adf4377_test_update_bits, adf4377_test_read_reg, regfile_driver, update_bits,
      regfile_read, regfile_write, h0, Nat.mod_eq_of_lt hl]
  refine ⟨?_, ?_, rd st reg mask value hdev hold hmask, ?_, ?_, ?_, ⟨rfl, by decide⟩, ?_⟩
  · simp [adf4377_test_update_bits, regfile_driver, update_bits, regfile_read,
      regfile_write, hdev]
  · simp [adf4377_test_update_bits, adf4377_test_read_reg, regfile_driver, update_bits,
      regfile_read, regfile_write, hdev]
  · intro i hi
    exact testBit_rmw hmask hi
  · intro a ha
    simp [adf4377_test_update_bits, regfile_driver, update_bits, regfile_read,
      regfile_write, hdev, Function.update, ha]
  · simp [adf4377_test_update_bits, adf4377_test_read_reg, regfile_driver, update_bits,
      regfile_read, regfile_write, hdev]
  · intro st0 h0 ho
    refine ⟨_, rd st0 0x1D ADF4377_MUXOUT_MSK (ADF4377_MUXOUT ADF4377_MUXOUT_HIGH) h0 ho
      (by decide), ?_⟩
    have hm : ADF4377_MUXOUT ADF4377_MUXOUT_HIGH = 0x80 := by decide
    rw [hm]
    exact muxout_update_all_bytes (st0.world 0x1D) ho

/-- Instance of `update_bits_read_back`: REG001D holding 0x3C, MUXOUT update. -/
theorem update_bits_read_back_witness :
    (adf4377_test_read_reg regfile_driver
      (adf4377_test_update_bits regfile_driver
        { adf4377_dev := some 1, blocks := ⟨0, 0, 0, 0⟩, calls := [],
          world := fun a => if a = 0x1D then 0x3C else 0 } 0x1D 0xF0 0x80).2 0x1D).2.1
      = some ((0x3C &&& bnot8 0xF0) ||| (0x80 &&& 0xF0)) :=
  (update_bits_read_back
    { adf4377_dev := some 1, blocks := ⟨0, 0, 0, 0⟩, calls := [],
      world := fun a => if a = 0x1D then 0x3C else 0 } 1 0x1D 0xF0 0x80
    rfl (by decide) (by decide)).2.2.1


/-! ## The adf4377_test API without and with a handle -/

/-- After `adf4377_test_remove` no handle is held, whatever the driver answered. -/
theorem remove_clears_handle {σ : Type} (d : Adf4377Driver σ) (st : ApiState σ) :
    (adf4377_test_remove d st).2.adf4377_dev = none := by
  unfold adf4377_test_remove
  cases h : st.adf4377_dev with
  | none => simpa using h
  | some dev => simp

/-- C7: whenever no device handle is held, each of `adf4377_test_read_reg`,
`adf4377_test_write_reg`, `adf4377_test_update_bits` and
`adf4377_test_set_rfout` returns `-EINVAL` and hands back the state as it was
(same handle, same parameter blocks, same list of driver calls, same outside
world), for all arguments; no handle is held at program start and after every
`adf4377_test_remove`. -/
theorem no_handle_rejected {σ : Type} (d : Adf4377Driver σ) (st : ApiState σ)
    (h : st.adf4377_dev = none) (reg val mask value freq_hz : Nat) :
    adf4377_test_read_reg d st reg = (-EINVAL, none, st)
    ∧ adf4377_test_write_reg d st reg val = (-EINVAL, st)
    ∧ adf4377_test_update_bits d st reg mask value = (-EINVAL, st)
    ∧ adf4377_test_set_rfout d st freq_hz = (-EINVAL, st)
    ∧ -EINVAL = (-22 : Int)
    ∧ (∀ (b : SpiBlocks) (w : σ), (api_start b w).adf4377_dev = none)
    ∧ (∀ st0 : ApiState σ, (adf4377_test_remove d st0).2.adf4377_dev = none) := by
  refine ⟨?_, ?_, ?_, ?_, rfl, fun _ _ => rfl, remove_clears_handle d⟩
  · simp [adf4377_test_read_reg, h]
  · simp [adf4377_test_write_reg, h]
  · simp [adf4377_test_update_bits, h]
  · simp [adf4377_test_set_rfout, h]

/-- Instance of `no_handle_rejected`: a register read at program start. -/
theorem no_handle_rejected_witness :
    (api_start ⟨0, 0, 0, 0⟩ (fun _ => 0) : ApiState RegFile).adf4377_dev = none
    ∧ adf4377_test_read_reg regfile_driver (api_start ⟨0, 0, 0, 0⟩ (fun _ => 0)) 0x1D
        = (-EINVAL, none, api_start ⟨0, 0, 0, 0⟩ (fun _ => 0)) :=
  ⟨rfl, (no_handle_rejected regfile_driver (api_start ⟨0, 0, 0, 0⟩ (fun _ => 0)) rfl
    0x1D 0 0 0 0).1⟩

/-- C8 fails on the code: after init and a first remove over the register-file
driver, the second `adf4377_test_remove` returns 0, not an error code. -/
theorem second_remove_returns_zero :
    (adf4377_test_init regfile_driver (api_start ⟨0, 0, 0, 0⟩ (fun _ => 0)) 0 0).2.adf4377_dev
      = some 1
    ∧ (adf4377_test_remove regfile_driver
        (adf4377_test_remove regfile_driver
          (adf4377_test_init regfile_driver
            (api_start ⟨0, 0, 0, 0⟩ (fun _ => 0)) 0 0).2).2).1 = 0 := by
  constructor <;> rfl

/-- C8 as amended: `adf4377_test_remove` on a device that has already been
removed is a silent no-op: for every driver and state, a second call returns 0,
makes no driver call and leaves the state as the first call left it. -/
theorem second_remove_is_noop {σ : Type} (d : Adf4377Driver σ) (st : ApiState σ) :
    adf4377_test_remove d (adf4377_test_remove d st).2
      = (0, (adf4377_test_remove d st).2) := by
  have h := remove_clears_handle d st
  generalize (adf4377_test_remove d st).2 = st1 at h ⊢
  simp [adf4377_test_remove, h]

/-- Function `adf4377_test_read_reg` checks the handle only: without a handle
it returns `-EINVAL` and makes no driver call; with a handle held it passes the
register number to the driver's `adf4377_spi_read` as `ADF4377_REG(reg)`
exactly once and returns the driver's result and byte unchanged, keeping the
handle. -/
theorem read_reg_forwards {σ : Type} (d : Adf4377Driver σ) (st : ApiState σ) (reg : Nat) :
    (st.adf4377_dev = none → adf4377_test_read_reg d st reg = (-EINVAL, none, st))
    ∧ (∀ dev, st.adf4377_dev = some dev →
        (adf4377_test_read_reg d st reg).1 = (d.spi_read st.world dev (d.REG reg)).1
        ∧ (adf4377_test_read_reg d st reg).2.1 = (d.spi_read st.world dev (d.REG reg)).2.1
        ∧ (adf4377_test_read_reg d st reg).2.2.calls
            = st.calls ++ [Adf4377Call.spi_read dev (d.REG reg)]
        ∧ (adf4377_test_read_reg d st reg).2.2.world
            = (d.spi_read st.world dev (d.REG reg)).2.2
        ∧ (adf4377_test_read_reg d st reg).2.2.adf4377_dev = some dev) := by
  constructor
  · intro h
    simp [adf4377_test_read_reg, h]
  · intro dev h
    unfold adf4377_test_read_reg
    rw [h]
    exact ⟨rfl, rfl, rfl, rfl, rfl⟩

/-- The read of the codec on an address beyond the addressable range: the
error, no value, and the bus with its record of frames as it was. -/
theorem codec_read_rejects {σ : Type} (transfer : σ → List Nat → Option (List Nat) × σ)
    (map_size : Nat) (w : LoggedBus σ) (addr : Nat)
    (hout : 2 ^ 15 ≤ addr ∨ map_size ≤ addr) :
    codec_read transfer map_size w addr = (-EINVAL, none, w) := by
  have h : addressable map_size addr = false := by
    unfold addressable
    rw [decide_eq_false_iff_not]
    omega
  simp [codec_read, h]

/-- The read of the codec on an addressable register: exactly one transfer,
of the read frame of the address. -/
theorem codec_read_transfers {σ : Type} (transfer : σ → List Nat → Option (List Nat) × σ)
    (map_size : Nat) (w : LoggedBus σ) (addr : Nat)
    (hin : addr < 2 ^ 15 ∧ addr < map_size) :
    (codec_read transfer map_size w addr).2.2.frames = w.frames ++ [read_frame addr]
    ∧ (codec_read transfer map_size w addr).2.2.bus = (transfer w.bus (read_frame addr)).2 := by
  have h : addressable map_size addr = true := by
    unfold addressable
    rw [decide_eq_true_iff]
    exact hin
  simp [codec_read, h]

/-- C9: a register read for an address beyond the chip's addressable range is
rejected before it reaches the transport. `adf4377_test_read_reg` forwards the
register number to the driver's read, which follows §4.1 of the spec; when the
address `ADF4377_REG(reg)` does not fit the 15-bit address field (it is 0x8000
or more) or lies past the register map, the call yields the `InvalidAddress`
error `-EINVAL` and no value, and the bus and its record of frames are as
before: no transfer was issued. Without a handle the call is rejected with the
same error before the driver is reached. An addressable register, by contrast,
costs exactly one transfer, of its read frame. -/
theorem out_of_range_read_rejected {σ : Type}
    (transfer : σ → List Nat → Option (List Nat) × σ) (map_size : Nat)
    (d : Adf4377Driver (LoggedBus σ)) (st : ApiState (LoggedBus σ)) (reg : Nat)
    (hout : 0x8000 ≤ d.REG reg ∨ map_size ≤ d.REG reg) :
    (∀ dev, st.adf4377_dev = some dev →
        (adf4377_test_read_reg (with_codec_read transfer map_size d) st reg).1 = -EINVAL
        ∧ (adf4377_test_read_reg (with_codec_read transfer map_size d) st reg).2.1 = none
        ∧ (adf4377_test_read_reg (with_codec_read transfer map_size d) st reg).2.2.world.frames
            = st.world.frames
        ∧ (adf4377_test_read_reg (with_codec_read transfer map_size d) st reg).2.2.world.bus
            = st.world.bus
        ∧ (adf4377_test_read_reg (with_codec_read transfer map_size d) st reg).2.2.adf4377_dev
            = some dev)
    ∧ (st.adf4377_dev = none →
        adf4377_test_read_reg (with_codec_read transfer map_size d) st reg
          = (-EINVAL, none, st))
    ∧ (∀ w : LoggedBus σ,
        codec_read transfer map_size w (d.REG reg) = (-EINVAL, none, w))
    ∧ -EINVAL = (-22 : Int)
    ∧ (∀ (reg2 dev : Nat), d.REG reg2 < 0x8000 → d.REG reg2 < map_size →
        st.adf4377_dev = some dev →
        (adf4377_test_read_reg (with_codec_read transfer map_size d) st reg2).2.2.world.frames
          = st.world.frames ++ [read_frame (d.REG reg2)]) := by
  have hrej : ∀ w : LoggedBus σ,
      codec_read transfer map_size w (d.REG reg) = (-EINVAL, none, w) := by
    intro w
    exact codec_read_rejects transfer map_size w (d.REG reg) (by norm_num at hout ⊢; exact hout)
  have hfw := read_reg_forwards (with_codec_read transfer map_size d) st
  refine ⟨?_, (hfw reg).1, hrej, rfl, ?_⟩
  · intro dev h
    obtain ⟨h1, h2, _, h4, h5⟩ := (hfw reg).2 dev h
    have e : (with_codec_read transfer map_size d).spi_read st.world dev
        ((with_codec_read transfer map_size d).REG reg) = (-EINVAL, none, st.world) :=
      hrej st.world
    rw [e] at h1 h2 h4
    exact ⟨h1, h2, by rw [h4], by rw [h4], h5⟩
  · intro reg2 dev h1 h2 h
    obtain ⟨_, _, _, h4, _⟩ := (hfw reg2).2 dev h
    rw [h4]
    exact (codec_read_transfers transfer map_size st.world (d.REG reg2)
      ⟨by norm_num at h1 ⊢; exact h1, h2⟩).1

/-- Instance of `out_of_range_read_rejected`: on a chip with a 0x100-register
map behind a silent bus, reading 0x8000 with a handle held returns -22 and the
record of frames stays empty. -/
theorem out_of_range_read_rejected_witness :
    ((0x8000 : Nat) ≤ (quiet_adf4377 (LoggedBus Unit)).REG 0x8000
      ∨ 0x100 ≤ (quiet_adf4377 (LoggedBus Unit)).REG 0x8000)
    ∧ (adf4377_test_read_reg (with_codec_read silent_bus 0x100 (quiet_adf4377 (LoggedBus Unit)))
        { adf4377_dev := some 1, blocks := ⟨0, 0, 0, 0⟩, calls := [],
          world := { frames := [], bus := () } } 0x8000).1 = -22
    ∧ (adf4377_test_read_reg (with_codec_read silent_bus 0x100 (quiet_adf4377 (LoggedBus Unit)))
        { adf4377_dev := some 1, blocks := ⟨0, 0, 0, 0⟩, calls := [],
          world := { frames := [], bus := () } } 0x8000).2.2.world.frames = [] :=
  ⟨Or.inl (Nat.le_refl _),
   ((out_of_range_read_rejected silent_bus 0x100 (quiet_adf4377 (LoggedBus Unit))
      { adf4377_dev := some 1, blocks := ⟨0, 0, 0, 0⟩, calls := [],
        world := { frames := [], bus := () } } 0x8000 (Or.inl (Nat.le_refl _))).1 1 rfl).1,
   ((out_of_range_read_rejected silent_bus 0x100 (quiet_adf4377 (LoggedBus Unit))
      { adf4377_dev := some 1, blocks := ⟨0, 0, 0, 0⟩, calls := [],
        world := { frames := [], bus := () } } 0x8000 (Or.inl (Nat.le_refl _))).1 1 rfl).2.2.1⟩

/-! ## Frequency model -/

/-- Truncating a remainder to the accumulator and reading it back: the result
never exceeds the remainder, falls short of it by at most one accumulator step
(rounded up to whole hertz), and the accumulator word itself is within one step. -/
theorem frac_read_back (f m r : Nat) (hf : 0 < f) (hm : 0 < m) :
    r * m / f * f / m ≤ r
    ∧ r - r * m / f * f / m ≤ (f + m - 1) / m
    ∧ r * m - r * m / f * f < f := by
  have h1 : r * m / f * f ≤ r * m := Nat.div_mul_le_self _ _
  have h2 : r * m < r * m / f * f + f := Nat.lt_div_mul_add hf
  have h3 : r * m / f * f / m * m ≤ r * m / f * f := Nat.div_mul_le_self _ _
  have h4 : r * m / f * f < r * m / f * f / m * m + m := Nat.lt_div_mul_add hm
  refine ⟨?_, ?_, by omega⟩
  · exact Nat.le_of_mul_le_mul_right (Nat.le_trans h3 h1) hm
  · rw [Nat.le_div_iff_mul_le hm, Nat.sub_mul]
    omega

/-- A request within the profile bounds finds a post-divider. -/
theorem select_post_divider_isSome (p : ChipProfile) (target : Nat)
    (h : ∃ d ∈ p.post_dividers, vco_in_bounds p target d = true) :
    ∃ d, select_post_divider p target = some d := by
  obtain ⟨d, hd, hv⟩ := h
  have hmem : d ∈ p.post_dividers.filter (fun d => vco_in_bounds p target d) :=
    List.mem_filter.mpr ⟨hd, hv⟩
  unfold select_post_divider
  cases hsel : (p.post_dividers.filter (fun d => vco_in_bounds p target d)).min? with
  | some d0 => exact ⟨d0, rfl⟩
  | none =>
      rw [List.min?_eq_none_iff] at hsel
      rw [hsel] at hmem
      cases hmem

/-- C4: for every request within the profile bounds the forward computation
succeeds, and the frequency read back from the written fields never exceeds
the target, differs from it by at most one step of the fractional accumulator
(the written ratio itself lies less than one step below the target), and is
the target exactly when the target is an integer multiple of f_pfd. -/
theorem plan_round_trip (p : ChipProfile) (ref_freq_hz : Nat) (doubler_en : Bool)
    (ref_div target_freq_hz : Nat)
    (hvalid : valid_request p ref_freq_hz doubler_en ref_div target_freq_hz) :
    ∃ plan, compute_divider_plan p ref_freq_hz doubler_en ref_div target_freq_hz = Except.ok plan
      ∧ recompute_from_registers p ref_freq_hz plan ≤ target_freq_hz
      ∧ target_freq_hz - recompute_from_registers p ref_freq_hz plan
          ≤ accumulator_step_hz p (pfd_frequency ref_freq_hz doubler_en ref_div)
      ∧ (∀ m, p.frac_modulus = some m →
          target_freq_hz * m
            - (plan.n_int * m + plan.frac) * pfd_frequency ref_freq_hz doubler_en ref_div
          < pfd_frequency ref_freq_hz doubler_en ref_div)
      ∧ (pfd_frequency ref_freq_hz doubler_en ref_div ∣ target_freq_hz →
          recompute_from_registers p ref_freq_hz plan = target_freq_hz) := by
  obtain ⟨hdiv, hpfd, hn, hpost, hfrac⟩ := hvalid
  obtain ⟨d, hd⟩ := select_post_divider_isSome p target_freq_hz hpost
  generalize hf : pfd_frequency ref_freq_hz doubler_en ref_div = f at *
  have hsplit : f * (target_freq_hz / f) + target_freq_hz % f = target_freq_hz :=
    Nat.div_add_mod _ _
  have hcomm : target_freq_hz / f * f = f * (target_freq_hz / f) := Nat.mul_comm _ _
  cases hmod : p.frac_modulus with
  | none =>
      rw [hmod] at hfrac
      simp only at hfrac
      refine ⟨{ doubler_en := doubler_en, ref_div := ref_div, n_int := target_freq_hz / f,
                frac := 0, post_div := d }, ?_, ?_, ?_, ?_, ?_⟩
      · simp [compute_divider_plan, hf, hd, hmod, hfrac, Nat.ne_of_gt hdiv,
          Nat.ne_of_gt hpfd, Nat.not_lt.mpr hn]
      · simp only [recompute_from_registers, hmod, hf]; omega
      · simp only [recompute_from_registers, hmod, hf, accumulator_step_hz]; omega
      · intro m hm; cases hm
      · intro _
        simp only [recompute_from_registers, hmod, hf]; omega
  | some m =>
      rw [hmod] at hfrac
      simp only at hfrac
      obtain ⟨hb1, hb2, hb3⟩ := frac_read_back f m (target_freq_hz % f) hpfd hfrac
      refine ⟨{ doubler_en := doubler_en, ref_div := ref_div, n_int := target_freq_hz / f,
                frac := target_freq_hz % f * m / f, post_div := d }, ?_, ?_, ?_, ?_, ?_⟩
      · simp [compute_divider_plan, hf, hd, hmod, Nat.ne_of_gt hdiv,
          Nat.ne_of_gt hpfd, Nat.not_lt.mpr hn]
      · simp only [recompute_from_registers, hmod, hf]; omega
      · simp only [recompute_from_registers, hmod, hf, accumulator_step_hz]; omega
      · intro m0 hm0
        cases hm0
        have e1 : target_freq_hz * m = f * (target_freq_hz / f) * m + target_freq_hz % f * m := by
          rw [← Nat.add_mul, hsplit]
        have e2 : (target_freq_hz / f * m + target_freq_hz % f * m / f) * f
            = f * (target_freq_hz / f) * m + target_freq_hz % f * m / f * f := by
          rw [Nat.add_mul]; congr 1; ring
        rw [e1, e2]
        omega
      · intro hdvd
        have hr : target_freq_hz % f = 0 := Nat.mod_eq_zero_of_dvd hdvd
        simp only [recompute_from_registers, hmod, hf, hr]
        simp
        omega

/-- Instance of `plan_round_trip`: a fractional request one hertz above 10 GHz
on a profile with a 2^25 accumulator. -/
theorem plan_round_trip_witness :
    ∃ plan, compute_divider_plan ⟨6000000000, 12000000000, [1, 2, 4, 8], 4095, some 33554432⟩
        125000000 true 1 10000000001 = Except.ok plan
      ∧ recompute_from_registers ⟨6000000000, 12000000000, [1, 2, 4, 8], 4095, some 33554432⟩
          125000000 plan ≤ 10000000001 :=
  match plan_round_trip ⟨6000000000, 12000000000, [1, 2, 4, 8], 4095, some 33554432⟩
      125000000 true 1 10000000001
      ⟨by decide, by decide, by decide, ⟨1, by decide, by decide⟩, by decide⟩ with
  | ⟨plan, h1, h2, _⟩ => ⟨plan, h1, h2⟩

/-- C5: for the shipped ADF4377 configuration (125 MHz reference, doubler on,
reference divider 1, 10 GHz output) the frequency model gives
f_pfd = 125 MHz * 2 / 1 = 250 MHz and N = 10 GHz / 250 MHz = 40 with remainder
zero; reading back N * f_pfd with post-divider 1 gives exactly 10 GHz; and
every intermediate value fits 64-bit unsigned arithmetic, so the machine
computation agrees with the exact one. -/
theorem shipped_adf4377_plan :
    adf4377_ip.clkin_freq = 125000000 ∧ adf4377_ip.ref_doubler_en = 1
    ∧ adf4377_ip.ref_div_factor = 1 ∧ adf4377_ip.f_clk = 10000000000
    ∧ pfd_frequency adf4377_ip.clkin_freq (decide (adf4377_ip.ref_doubler_en ≠ 0))
        adf4377_ip.ref_div_factor = 250000000
    ∧ adf4377_ip.clkin_freq * 2 / adf4377_ip.ref_div_factor = 250000000
    ∧ adf4377_ip.f_clk / 250000000 = 40
    ∧ adf4377_ip.f_clk % 250000000 = 0
    ∧ (∀ p : ChipProfile, recompute_from_registers p adf4377_ip.clkin_freq
        { doubler_en := true, ref_div := 1, n_int := 40, frac := 0, post_div := 1 }
        = 10000000000)
    ∧ adf4377_ip.clkin_freq * 2 < 2 ^ 64
    ∧ adf4377_ip.f_clk < 2 ^ 64
    ∧ 40 * 250000000 < 2 ^ 64
    ∧ pfd_frequency_u64 adf4377_ip.clkin_freq (decide (adf4377_ip.ref_doubler_en ≠ 0))
        adf4377_ip.ref_div_factor = 250000000
    ∧ mul_u64 40 250000000 = 10000000000 := by
  refine ⟨rfl, rfl, rfl, rfl, by decide, by decide, by decide, by decide, ?_,
    by decide, by decide, by decide, by decide, by decide⟩
  intro p
  cases hmod : p.frac_modulus <;>
    simp [recompute_from_registers, hmod, pfd_frequency, adf4377_ip]

/-! ## ADF4382 bring-up example -/

/-- When every write succeeds, a run of writes returns 0. -/
theorem write_sequence_ok {σ : Type} (P : Adf4382Platform σ)
    (hw : ∀ s0 r v, (P.spi_write s0 r v).1 = 0) (ws : List (Nat × Nat)) (s : σ) :
    (write_sequence P ws s).1 = 0 := by
  induction ws generalizing s with
  | nil => rfl
  | cons w rest ih =>
      obtain ⟨reg, val⟩ := w
      have h0 := hw s reg val
      have h1 := ih (P.spi_write s reg val).2
      simp only [write_sequence]
      rw [h0]
      simpa using h1

/-- C6: in example_main of basic_example.c, if every read hands back zero
(absent device) and the scratchpad pattern is non-zero, then whatever the
allocation, the SPI initialisation, the writes and the read return, the
function returns a non-zero code, so the success path returning 0 is never
taken; and when everything before the comparison succeeds the code returned
is `-EINVAL`. -/
theorem absent_device_fails {σ : Type} (H : Adf4382Header) (P : Adf4382Platform σ)
    (spi_3wire_en cmos_3v3 : Bool) (s : σ)
    (hread : ∀ s0 reg, (P.spi_read s0 reg).2.1 = 0)
    (htest : H.SPI_SCRATCHPAD_TEST ≠ 0) :
    (example_main H P spi_3wire_en cmos_3v3 s).1 ≠ 0
    ∧ ((P.calloc s).1 = true → (∀ s0, (P.spi_init s0).1 = 0) →
        (∀ s0 r v, (P.spi_write s0 r v).1 = 0) → (∀ s0 r, (P.spi_read s0 r).1 = 0) →
        (example_main H P spi_3wire_en cmos_3v3 s).1 = -EINVAL) := by
  have hne : ∀ s0, ¬ ((P.spi_read s0 0x00A).2.1 % 256 = H.SPI_SCRATCHPAD_TEST) := by
    intro s0 h
    rw [hread s0 0x00A] at h
    exact htest h.symm
  constructor
  · simp only [example_main]
    split_ifs <;> simp_all [error_spi, error_dev, ENOMEM, EINVAL]
  · intro hcal hinit hwr hrd
    have hcfg := write_sequence_ok P hwr (config_writes H spi_3wire_en cmos_3v3)
    simp only [example_main]
    split_ifs <;> simp_all [error_spi, error_dev, ENOMEM, EINVAL]

/-- Instance of `absent_device_fails`: the simulated absent device with the
sample header fails with `-EINVAL`. -/
theorem absent_device_fails_witness :
    (example_main sample_header absent_device false true ()).1 ≠ 0
    ∧ (example_main sample_header absent_device false true ()).1 = -EINVAL :=
  ⟨(absent_device_fails sample_header absent_device false true ()
      (fun _ _ => rfl) (by decide)).1,
   (absent_device_fails sample_header absent_device false true ()
      (fun _ _ => rfl) (by decide)).2 rfl (fun _ => rfl) (fun _ _ _ => rfl) (fun _ _ => rfl)⟩

/-! ## ADF4382 update tools -/

/-- C10: with an initialised device, `set_charge_pump_current(cp_i)` returns -1
without a driver call for every `cp_i` outside 0..15 and `set_bleed_word(w)`
returns -1 without a driver call for every `w` outside 0..8191; for every
in-range value the driver setter is called exactly once, with the handle and
that value, and the function returns 0 if and only if the driver returned 0
(and -1 otherwise); in update_adf4382.c and in update_adf4382_static.c alike. -/
theorem setters_check_range {σ : Type} (d : Adf4382Driver σ) (dyn : DynToolState σ)
    (sta : ToolState σ) (dev : Nat) (cp_i w : Int)
    (hdyn : dyn.adf4382_dev = some dev) (hsta : sta.adf4382_dev = some dev) :
    ((cp_i < 0 ∨ 15 < cp_i) →
        update_adf4382.set_charge_pump_current d dyn cp_i = (-1, dyn)
        ∧ update_adf4382_static.set_charge_pump_current d sta cp_i = (-1, sta))
    ∧ ((w < 0 ∨ 8191 < w) →
        update_adf4382.set_bleed_word d dyn w = (-1, dyn)
        ∧ update_adf4382_static.set_bleed_word d sta w = (-1, sta))
    ∧ ((0 ≤ cp_i ∧ cp_i ≤ 15) →
        (update_adf4382.set_charge_pump_current d dyn cp_i).2.calls
            = dyn.calls ++ [Adf4382Call.set_cp_i dev cp_i]
        ∧ (update_adf4382.set_charge_pump_current d dyn cp_i).2.world
            = (d.set_cp_i dyn.world dev cp_i).2
        ∧ ((update_adf4382.set_charge_pump_current d dyn cp_i).1 = 0
            ↔ (d.set_cp_i dyn.world dev cp_i).1 = 0)
        ∧ ((d.set_cp_i dyn.world dev cp_i).1 ≠ 0 →
            (update_adf4382.set_charge_pump_current d dyn cp_i).1 = -1)
        ∧ (update_adf4382_static.set_charge_pump_current d sta cp_i).2.calls
            = sta.calls ++ [Adf4382Call.set_cp_i dev cp_i]
        ∧ (update_adf4382_static.set_charge_pump_current d sta cp_i).2.world
            = (d.set_cp_i sta.world dev cp_i).2
        ∧ ((update_adf4382_static.set_charge_pump_current d sta cp_i).1 = 0
            ↔ (d.set_cp_i sta.world dev cp_i).1 = 0)
        ∧ ((d.set_cp_i sta.world dev cp_i).1 ≠ 0 →
            (update_adf4382_static.set_charge_pump_current d sta cp_i).1 = -1))
    ∧ ((0 ≤ w ∧ w ≤ 8191) →
        (update_adf4382.set_bleed_word d dyn w).2.calls
            = dyn.calls ++ [Adf4382Call.set_bleed_word dev w]
        ∧ (update_adf4382.set_bleed_word d dyn w).2.world
            = (d.set_bleed_word dyn.world dev w).2
        ∧ ((update_adf4382.set_bleed_word d dyn w).1 = 0
            ↔ (d.set_bleed_word dyn.world dev w).1 = 0)
        ∧ ((d.set_bleed_word dyn.world dev w).1 ≠ 0 →
            (update_adf4382.set_bleed_word d dyn w).1 = -1)
        ∧ (update_adf4382_static.set_bleed_word d sta w).2.calls
            = sta.calls ++ [Adf4382Call.set_bleed_word dev w]
        ∧ (update_adf4382_static.set_bleed_word d sta w).2.world
            = (d.set_bleed_word sta.world dev w).2
        ∧ ((update_adf4382_static.set_bleed_word d sta w).1 = 0
            ↔ (d.set_bleed_word sta.world dev w).1 = 0)
        ∧ ((d.set_bleed_word sta.world dev w).1 ≠ 0 →
            (update_adf4382_static.set_bleed_word d sta w).1 = -1)) := by
  refine ⟨?_, ?_, ?_, ?_⟩
  · intro h
    have h2 : cp_i < 0 ∨ cp_i > 15 := h
    simp [update_adf4382.set_charge_pump_current,
      update_adf4382_static.set_charge_pump_current, hdyn, hsta, h2]
  · intro h
    have h2 : w < 0 ∨ w > 8191 := h
    simp [update_adf4382.set_bleed_word, update_adf4382_static.set_bleed_word,
      hdyn, hsta, h2]
  · intro h
    have h2 : ¬ (cp_i < 0 ∨ cp_i > 15) := by omega
    simp only [update_adf4382.set_charge_pump_current,
      update_adf4382_static.set_charge_pump_current, hdyn, hsta, h2, if_false]
    refine ⟨?_, ?_, ?_, ?_, ?_, ?_, ?_, ?_⟩ <;> first | trivial | (split_ifs <;> simp_all)
  · intro h
    have h2 : ¬ (w < 0 ∨ w > 8191) := by omega
    simp only [update_adf4382.set_bleed_word, update_adf4382_static.set_bleed_word,
      hdyn, hsta, h2, if_false]
    refine ⟨?_, ?_, ?_, ?_, ?_, ?_, ?_, ?_⟩ <;> first | trivial | (split_ifs <;> simp_all)

/-- Instance of `setters_check_range`: charge-pump value 16 and bleed word 8192
are refused, in both tools, with the state untouched. -/
theorem setters_check_range_witness :
    (update_adf4382.set_charge_pump_current willing_driver
        { lib_handle := true, adf4382_dev := some 1, calls := [], world := () } 16
      = (-1, { lib_handle := true, adf4382_dev := some 1, calls := [], world := () })
     ∧ update_adf4382_static.set_charge_pump_current willing_driver
        { adf4382_dev := some 1, calls := [], world := () } 16
      = (-1, { adf4382_dev := some 1, calls := [], world := () }))
    ∧ (update_adf4382.set_bleed_word willing_driver
        { lib_handle := true, adf4382_dev := some 1, calls := [], world := () } 8192
      = (-1, { lib_handle := true, adf4382_dev := some 1, calls := [], world := () })
     ∧ update_adf4382_static.set_bleed_word willing_driver
        { adf4382_dev := some 1, calls := [], world := () } 8192
      = (-1, { adf4382_dev := some 1, calls := [], world := () })) :=
  ⟨(setters_check_range willing_driver
      { lib_handle := true, adf4382_dev := some 1, calls := [], world := () }
      { adf4382_dev := some 1, calls := [], world := () } 1 16 8192 rfl rfl).1
      (Or.inr (by decide)),
   (setters_check_range willing_driver
      { lib_handle := true, adf4382_dev := some 1, calls := [], world := () }
      { adf4382_dev := some 1, calls := [], world := () } 1 16 8192 rfl rfl).2.1
      (Or.inr (by decide))⟩

/-! ## Update tools: call bookkeeping -/

/-- A call list extends itself by nothing. -/
theorem extendsBy_refl (p : Adf4382Call → Bool) (c : List Adf4382Call) : ExtendsBy p c c :=
  ⟨[], by simp, by simp⟩

/-- Appending one call that satisfies the predicate is an extension. -/
theorem extendsBy_single (p : Adf4382Call → Bool) (c : List Adf4382Call) (x : Adf4382Call)
    (hx : p x = true) : ExtendsBy p c (c ++ [x]) :=
  ⟨[x], rfl, by simpa using hx⟩

/-- Extensions compose. -/
theorem extendsBy_trans {p : Adf4382Call → Bool} {c1 c2 c3 : List Adf4382Call}
    (h12 : ExtendsBy p c1 c2) (h23 : ExtendsBy p c2 c3) : ExtendsBy p c1 c3 := by
  obtain ⟨l1, e1, p1⟩ := h12
  obtain ⟨l2, e2, p2⟩ := h23
  refine ⟨l1 ++ l2, by rw [e2, e1, List.append_assoc], ?_⟩
  intro c hc
  rcases List.mem_append.mp hc with h | h
  · exact p1 c h
  · exact p2 c h

/-- An extension by calls of a smaller class is an extension by the larger class. -/
theorem extendsBy_mono {p q : Adf4382Call → Bool} (hpq : ∀ c, p c = true → q c = true)
    {c1 c2 : List Adf4382Call} (h : ExtendsBy p c1 c2) : ExtendsBy q c1 c2 := by
  obtain ⟨l, e, hp⟩ := h
  exact ⟨l, e, fun c hc => hpq c (hp c hc)⟩

/-- An extension by calls outside a class adds no member of the class. -/
theorem extendsBy_countP {p q : Adf4382Call → Bool} (hpq : ∀ c, p c = true → q c = false)
    {c1 c2 : List Adf4382Call} (h : ExtendsBy p c1 c2) :
    c2.countP q = c1.countP q := by
  obtain ⟨l, e, hp⟩ := h
  have hl : l.countP q = 0 := by
    rw [List.countP_eq_zero]
    intro c hc
    simp [hpq c (hp c hc)]
  rw [e, List.countP_append, hl, Nat.add_zero]

/-- An extension by calls of a class adds only members of the class. -/
theorem extendsBy_mem {p : Adf4382Call → Bool} {c1 c2 : List Adf4382Call}
    (h : ExtendsBy p c1 c2) (x : Adf4382Call) (hx : x ∈ c2) : x ∈ c1 ∨ p x = true := by
  obtain ⟨l, e, hp⟩ := h
  rw [e] at hx
  rcases List.mem_append.mp hx with h1 | h1
  · exact Or.inl h1
  · exact Or.inr (hp x h1)

/-! ## Update tool (update_adf4382.c): what each function does to the globals -/

/-- `set_frequency` keeps the handle and adds at most one `adf4382_set_rfout` call. -/
theorem set_frequency_spec_dyn {σ : Type} (d : Adf4382Driver σ) (st : DynToolState σ) (f : Nat) :
    (update_adf4382.set_frequency d st f).2.adf4382_dev = st.adf4382_dev
    ∧ ExtendsBy Adf4382Call.is_rfout st.calls (update_adf4382.set_frequency d st f).2.calls := by
  obtain h | ⟨dev, h⟩ := Option.eq_none_or_eq_some st.adf4382_dev
  · have e : update_adf4382.set_frequency d st f = (-1, st) := by
      simp [update_adf4382.set_frequency, h]
    rw [e]
    exact ⟨rfl, extendsBy_refl _ _⟩
  · have e : update_adf4382.set_frequency d st f
        = (if (d.set_rfout st.world dev f).1 ≠ 0 then -1 else 0,
           { st with calls := st.calls ++ [Adf4382Call.set_rfout dev f],
                     world := (d.set_rfout st.world dev f).2 }) := by
      simp [update_adf4382.set_frequency, h]
    rw [e]
    exact ⟨rfl, extendsBy_single _ _ _ rfl⟩

/-- `set_charge_pump_current` keeps the handle, adds at most one
`adf4382_set_cp_i` call, and refuses an out-of-range value with the globals
untouched. -/
theorem set_charge_pump_current_spec_dyn {σ : Type} (d : Adf4382Driver σ) (st : DynToolState σ)
    (v : Int) :
    (update_adf4382.set_charge_pump_current d st v).2.adf4382_dev = st.adf4382_dev
    ∧ ExtendsBy Adf4382Call.is_rfout_or_cp st.calls
        (update_adf4382.set_charge_pump_current d st v).2.calls
    ∧ ((v < 0 ∨ 15 < v) → update_adf4382.set_charge_pump_current d st v = (-1, st)) := by
  obtain h | ⟨dev, h⟩ := Option.eq_none_or_eq_some st.adf4382_dev
  · have e : update_adf4382.set_charge_pump_current d st v = (-1, st) := by
      simp [update_adf4382.set_charge_pump_current, h]
    rw [e]
    exact ⟨rfl, extendsBy_refl _ _, fun _ => rfl⟩
  · by_cases hr : v < 0 ∨ v > 15
    · have e : update_adf4382.set_charge_pump_current d st v = (-1, st) := by
        simp [update_adf4382.set_charge_pump_current, h, hr]
      rw [e]
      exact ⟨rfl, extendsBy_refl _ _, fun _ => rfl⟩
    · have e : update_adf4382.set_charge_pump_current d st v
          = (if (d.set_cp_i st.world dev v).1 ≠ 0 then -1 else 0,
             { st with calls := st.calls ++ [Adf4382Call.set_cp_i dev v],
                       world := (d.set_cp_i st.world dev v).2 }) := by
        simp [update_adf4382.set_charge_pump_current, h, hr]
      rw [e]
      exact ⟨rfl, extendsBy_single _ _ _ rfl, fun hv => absurd hv hr⟩

/-- `set_bleed_word` keeps the handle, adds at most one `adf4382_set_bleed_word`
call, and refuses an out-of-range value with the globals untouched. -/
theorem set_bleed_word_spec_dyn {σ : Type} (d : Adf4382Driver σ) (st : DynToolState σ) (v : Int) :
    (update_adf4382.set_bleed_word d st v).2.adf4382_dev = st.adf4382_dev
    ∧ ExtendsBy Adf4382Call.is_setter st.calls (update_adf4382.set_bleed_word d st v).2.calls
    ∧ ((v < 0 ∨ 8191 < v) → update_adf4382.set_bleed_word d st v = (-1, st)) := by
  obtain h | ⟨dev, h⟩ := Option.eq_none_or_eq_some st.adf4382_dev
  · have e : update_adf4382.set_bleed_word d st v = (-1, st) := by
      simp [update_adf4382.set_bleed_word, h]
    rw [e]
    exact ⟨rfl, extendsBy_refl _ _, fun _ => rfl⟩
  · by_cases hr : v < 0 ∨ v > 8191
    · have e : update_adf4382.set_bleed_word d st v = (-1, st) := by
        simp [update_adf4382.set_bleed_word, h, hr]
      rw [e]
      exact ⟨rfl, extendsBy_refl _ _, fun _ => rfl⟩
    · have e : update_adf4382.set_bleed_word d st v
          = (if (d.set_bleed_word st.world dev v).1 ≠ 0 then -1 else 0,
             { st with calls := st.calls ++ [Adf4382Call.set_bleed_word dev v],
                       world := (d.set_bleed_word st.world dev v).2 }) := by
        simp [update_adf4382.set_bleed_word, h, hr]
      rw [e]
      exact ⟨rfl, extendsBy_single _ _ _ rfl, fun hv => absurd hv hr⟩

/-- `set_phase_adjustment` keeps the handle and adds at most one
`adf4382_set_phase_adjust` call. -/
theorem set_phase_adjustment_spec_dyn {σ : Type} (d : Adf4382Driver σ) (st : DynToolState σ)
    (v : Nat) :
    (update_adf4382.set_phase_adjustment d st v).2.adf4382_dev = st.adf4382_dev
    ∧ ExtendsBy Adf4382Call.is_setter st.calls (update_adf4382.set_phase_adjustment d st v).2.calls := by
  obtain h | ⟨dev, h⟩ := Option.eq_none_or_eq_some st.adf4382_dev
  · have e : update_adf4382.set_phase_adjustment d st v = (-1, st) := by
      simp [update_adf4382.set_phase_adjustment, h]
    rw [e]
    exact ⟨rfl, extendsBy_refl _ _⟩
  · have e : update_adf4382.set_phase_adjustment d st v
        = (if (d.set_phase_adjust st.world dev v).1 ≠ 0 then -1 else 0,
           { st with calls := st.calls ++ [Adf4382Call.set_phase_adjust dev v],
                     world := (d.set_phase_adjust st.world dev v).2 }) := by
      simp [update_adf4382.set_phase_adjustment, h]
    rw [e]
    exact ⟨rfl, extendsBy_single _ _ _ rfl⟩

/-- Each optional setter step of `apply_updates` keeps the handle and adds
setter calls only. -/
theorem update_steps_spec_dyn {σ : Type} (d : Adf4382Driver σ) (o : UpdateOptions)
    (s0 : DynToolState σ) :
    ((if o.freq_set then update_adf4382.set_frequency d s0 o.freq_hz else (0, s0)).2.adf4382_dev
        = s0.adf4382_dev
      ∧ ExtendsBy Adf4382Call.is_rfout s0.calls
          (if o.freq_set then update_adf4382.set_frequency d s0 o.freq_hz else (0, s0)).2.calls)
    ∧ ((if o.cp_set then update_adf4382.set_charge_pump_current d s0 o.cp_i else (0, s0)).2.adf4382_dev
        = s0.adf4382_dev
      ∧ ExtendsBy Adf4382Call.is_rfout_or_cp s0.calls
          (if o.cp_set then update_adf4382.set_charge_pump_current d s0 o.cp_i else (0, s0)).2.calls)
    ∧ ((if o.bleed_set then update_adf4382.set_bleed_word d s0 o.bleed_word else (0, s0)).2.adf4382_dev
        = s0.adf4382_dev
      ∧ ExtendsBy Adf4382Call.is_setter s0.calls
          (if o.bleed_set then update_adf4382.set_bleed_word d s0 o.bleed_word else (0, s0)).2.calls)
    ∧ ((if o.phase_set then update_adf4382.set_phase_adjustment d s0 o.phase_ps else (0, s0)).2.adf4382_dev
        = s0.adf4382_dev
      ∧ ExtendsBy Adf4382Call.is_setter s0.calls
          (if o.phase_set then update_adf4382.set_phase_adjustment d s0 o.phase_ps
            else (0, s0)).2.calls) := by
  refine ⟨?_, ?_, ?_, ?_⟩
  · split_ifs
    · exact set_frequency_spec_dyn d s0 o.freq_hz
    · exact ⟨rfl, extendsBy_refl _ _⟩
  · split_ifs
    · exact ⟨(set_charge_pump_current_spec_dyn d s0 o.cp_i).1,
        (set_charge_pump_current_spec_dyn d s0 o.cp_i).2.1⟩
    · exact ⟨rfl, extendsBy_refl _ _⟩
  · split_ifs
    · exact ⟨(set_bleed_word_spec_dyn d s0 o.bleed_word).1,
        (set_bleed_word_spec_dyn d s0 o.bleed_word).2.1⟩
    · exact ⟨rfl, extendsBy_refl _ _⟩
  · split_ifs
    · exact set_phase_adjustment_spec_dyn d s0 o.phase_ps
    · exact ⟨rfl, extendsBy_refl _ _⟩

/-- `apply_updates` keeps the handle and adds setter calls only. -/
theorem apply_updates_spec_dyn {σ : Type} (d : Adf4382Driver σ) (st : DynToolState σ)
    (o : UpdateOptions) :
    (update_adf4382.apply_updates d st o).2.adf4382_dev = st.adf4382_dev
    ∧ ExtendsBy Adf4382Call.is_setter st.calls (update_adf4382.apply_updates d st o).2.calls := by
  have m1 : ∀ c, Adf4382Call.is_rfout c = true → Adf4382Call.is_setter c = true := by
    intro c; cases c <;> simp [Adf4382Call.is_rfout, Adf4382Call.is_setter]
  have m2 : ∀ c, Adf4382Call.is_rfout_or_cp c = true → Adf4382Call.is_setter c = true := by
    intro c; cases c <;> simp [Adf4382Call.is_rfout_or_cp, Adf4382Call.is_setter]
  have Ff := (update_steps_spec_dyn d o st).1
  unfold update_adf4382.apply_updates
  dsimp only
  generalize (if o.freq_set = true then update_adf4382.set_frequency d st o.freq_hz else (0, st)) = f
    at Ff ⊢
  have Fc := (update_steps_spec_dyn d o f.2).2.1
  generalize (if o.cp_set = true then update_adf4382.set_charge_pump_current d f.2 o.cp_i else (0, f.2)) = c
    at Fc ⊢
  have Fb := (update_steps_spec_dyn d o c.2).2.2.1
  generalize (if o.bleed_set = true then update_adf4382.set_bleed_word d c.2 o.bleed_word else (0, c.2)) = b
    at Fb ⊢
  have Fp := (update_steps_spec_dyn d o b.2).2.2.2
  generalize (if o.phase_set = true then update_adf4382.set_phase_adjustment d b.2 o.phase_ps
    else (0, b.2)) = p at Fp ⊢
  have Ef := extendsBy_mono m1 Ff.2
  have Ec := extendsBy_trans Ef (extendsBy_mono m2 Fc.2)
  have Eb := extendsBy_trans Ec Fb.2
  have Ep := extendsBy_trans Eb Fp.2
  split_ifs
  · exact ⟨Ff.1, Ef⟩
  · exact ⟨Fc.1.trans Ff.1, Ec⟩
  · exact ⟨Fb.1.trans (Fc.1.trans Ff.1), Eb⟩
  · exact ⟨Fp.1.trans (Fb.1.trans (Fc.1.trans Ff.1)), Ep⟩

/-- With an out-of-range charge-pump value requested, `apply_updates` fails and
has called at most `adf4382_set_rfout`. -/
theorem apply_updates_cp_refused_dyn {σ : Type} (d : Adf4382Driver σ) (st : DynToolState σ)
    (o : UpdateOptions) (hset : o.cp_set = true) (hout : o.cp_i < 0 ∨ 15 < o.cp_i) :
    (update_adf4382.apply_updates d st o).1 ≠ 0
    ∧ ExtendsBy Adf4382Call.is_rfout st.calls (update_adf4382.apply_updates d st o).2.calls := by
  have Ff := (update_steps_spec_dyn d o st).1
  unfold update_adf4382.apply_updates
  dsimp only
  generalize (if o.freq_set = true then update_adf4382.set_frequency d st o.freq_hz else (0, st)) = f
    at Ff ⊢
  rw [if_pos hset, (set_charge_pump_current_spec_dyn d f.2 o.cp_i).2.2 hout]
  have hneg : (((-1 : Int), f.2) : Int × DynToolState σ).1 ≠ 0 := by simp
  by_cases h1 : f.1 ≠ 0
  · rw [if_pos h1]
    exact ⟨h1, Ff.2⟩
  · rw [if_neg h1, if_pos hneg]
    exact ⟨hneg, Ff.2⟩

/-- With an out-of-range bleed word requested, `apply_updates` fails and has
called at most `adf4382_set_rfout` and `adf4382_set_cp_i`. -/
theorem apply_updates_bleed_refused_dyn {σ : Type} (d : Adf4382Driver σ) (st : DynToolState σ)
    (o : UpdateOptions) (hset : o.bleed_set = true)
    (hout : o.bleed_word < 0 ∨ 8191 < o.bleed_word) :
    (update_adf4382.apply_updates d st o).1 ≠ 0
    ∧ ExtendsBy Adf4382Call.is_rfout_or_cp st.calls (update_adf4382.apply_updates d st o).2.calls := by
  have m1 : ∀ c, Adf4382Call.is_rfout c = true → Adf4382Call.is_rfout_or_cp c = true := by
    intro c; cases c <;> simp [Adf4382Call.is_rfout, Adf4382Call.is_rfout_or_cp]
  have Ff := (update_steps_spec_dyn d o st).1
  unfold update_adf4382.apply_updates
  dsimp only
  generalize (if o.freq_set = true then update_adf4382.set_frequency d st o.freq_hz else (0, st)) = f
    at Ff ⊢
  have Fc := (update_steps_spec_dyn d o f.2).2.1
  generalize (if o.cp_set = true then update_adf4382.set_charge_pump_current d f.2 o.cp_i else (0, f.2)) = c
    at Fc ⊢
  have Ef := extendsBy_mono m1 Ff.2
  have Ec := extendsBy_trans Ef Fc.2
  rw [if_pos hset, (set_bleed_word_spec_dyn d c.2 o.bleed_word).2.2 hout]
  have hneg : (((-1 : Int), c.2) : Int × DynToolState σ).1 ≠ 0 := by simp
  by_cases h1 : f.1 ≠ 0
  · rw [if_pos h1]
    exact ⟨h1, Ef⟩
  · rw [if_neg h1]
    by_cases h2 : c.1 ≠ 0
    · rw [if_pos h2]
      exact ⟨h2, Ec⟩
    · rw [if_neg h2, if_pos hneg]
      exact ⟨hneg, Ec⟩

/-- `cleanup` clears the handle and calls `adf4382_remove` exactly when a
handle was held. -/
theorem cleanup_spec_dyn {σ : Type} (d : Adf4382Driver σ) (st : DynToolState σ) :
    (update_adf4382.cleanup d st).adf4382_dev = none
    ∧ (update_adf4382.cleanup d st).calls
        = st.calls ++ (match st.adf4382_dev with
                        | none => []
                        | some dev => [Adf4382Call.remove dev]) := by
  obtain h | ⟨dev, h⟩ := Option.eq_none_or_eq_some st.adf4382_dev
  · simp [update_adf4382.cleanup, h]
  · simp [update_adf4382.cleanup, h]

/-! ## Update tool (update_adf4382_static.c): what each function does to the globals -/

/-- `set_frequency` keeps the handle and adds at most one `adf4382_set_rfout` call. -/
theorem set_frequency_spec_static {σ : Type} (d : Adf4382Driver σ) (st : ToolState σ) (f : Nat) :
    (update_adf4382_static.set_frequency d st f).2.adf4382_dev = st.adf4382_dev
    ∧ ExtendsBy Adf4382Call.is_rfout st.calls (update_adf4382_static.set_frequency d st f).2.calls := by
  obtain h | ⟨dev, h⟩ := Option.eq_none_or_eq_some st.adf4382_dev
  · have e : update_adf4382_static.set_frequency d st f = (-1, st) := by
      simp [update_adf4382_static.set_frequency, h]
    rw [e]
    exact ⟨rfl, extendsBy_refl _ _⟩
  · have e : update_adf4382_static.set_frequency d st f
        = (if (d.set_rfout st.world dev f).1 ≠ 0 then -1 else 0,
           { st with calls := st.calls ++ [Adf4382Call.set_rfout dev f],
                     world := (d.set_rfout st.world dev f).2 }) := by
      simp [update_adf4382_static.set_frequency, h]
    rw [e]
    exact ⟨rfl, extendsBy_single _ _ _ rfl⟩

/-- `set_charge_pump_current` keeps the handle, adds at most one
`adf4382_set_cp_i` call, and refuses an out-of-range value with the globals
untouched. -/
theorem set_charge_pump_current_spec_static {σ : Type} (d : Adf4382Driver σ) (st : ToolState σ)
    (v : Int) :
    (update_adf4382_static.set_charge_pump_current d st v).2.adf4382_dev = st.adf4382_dev
    ∧ ExtendsBy Adf4382Call.is_rfout_or_cp st.calls
        (update_adf4382_static.set_charge_pump_current d st v).2.calls
    ∧ ((v < 0 ∨ 15 < v) → update_adf4382_static.set_charge_pump_current d st v = (-1, st)) := by
  obtain h | ⟨dev, h⟩ := Option.eq_none_or_eq_some st.adf4382_dev
  · have e : update_adf4382_static.set_charge_pump_current d st v = (-1, st) := by
      simp [update_adf4382_static.set_charge_pump_current, h]
    rw [e]
    exact ⟨rfl, extendsBy_refl _ _, fun _ => rfl⟩
  · by_cases hr : v < 0 ∨ v > 15
    · have e : update_adf4382_static.set_charge_pump_current d st v = (-1, st) := by
        simp [update_adf4382_static.set_charge_pump_current, h, hr]
      rw [e]
      exact ⟨rfl, extendsBy_refl _ _, fun _ => rfl⟩
    · have e : update_adf4382_static.set_charge_pump_current d st v
          = (if (d.set_cp_i st.world dev v).1 ≠ 0 then -1 else 0,
             { st with calls := st.calls ++ [Adf4382Call.set_cp_i dev v],
                       world := (d.set_cp_i st.world dev v).2 }) := by
        simp [update_adf4382_static.set_charge_pump_current, h, hr]
      rw [e]
      exact ⟨rfl, extendsBy_single _ _ _ rfl, fun hv => absurd hv hr⟩

/-- `set_bleed_word` keeps the handle, adds at most one `adf4382_set_bleed_word`
call, and refuses an out-of-range value with the globals untouched. -/
theorem set_bleed_word_spec_static {σ : Type} (d : Adf4382Driver σ) (st : ToolState σ) (v : Int) :
    (update_adf4382_static.set_bleed_word d st v).2.adf4382_dev = st.adf4382_dev
    ∧ ExtendsBy Adf4382Call.is_setter st.calls (update_adf4382_static.set_bleed_word d st v).2.calls
    ∧ ((v < 0 ∨ 8191 < v) → update_adf4382_static.set_bleed_word d st v = (-1, st)) := by
  obtain h | ⟨dev, h⟩ := Option.eq_none_or_eq_some st.adf4382_dev
  · have e : update_adf4382_static.set_bleed_word d st v = (-1, st) := by
      simp [update_adf4382_static.set_bleed_word, h]
    rw [e]
    exact ⟨rfl, extendsBy_refl _ _, fun _ => rfl⟩
  · by_cases hr : v < 0 ∨ v > 8191
    · have e : update_adf4382_static.set_bleed_word d st v = (-1, st) := by
        simp [update_adf4382_static.set_bleed_word, h, hr]
      rw [e]
      exact ⟨rfl, extendsBy_refl _ _, fun _ => rfl⟩
    · have e : update_adf4382_static.set_bleed_word d st v
          = (if (d.set_bleed_word st.world dev v).1 ≠ 0 then -1 else 0,
             { st with calls := st.calls ++ [Adf4382Call.set_bleed_word dev v],
                       world := (d.set_bleed_word st.world dev v).2 }) := by
        simp [update_adf4382_static.set_bleed_word, h, hr]
      rw [e]
      exact ⟨rfl, extendsBy_single _ _ _ rfl, fun hv => absurd hv hr⟩

/-- `set_phase_adjustment` keeps the handle and adds at most one
`adf4382_set_phase_adjust` call. -/
theorem set_phase_adjustment_spec_static {σ : Type} (d : Adf4382Driver σ) (st : ToolState σ)
    (v : Nat) :
    (update_adf4382_static.set_phase_adjustment d st v).2.adf4382_dev = st.adf4382_dev
    ∧ ExtendsBy Adf4382Call.is_setter st.calls (update_adf4382_static.set_phase_adjustment d st v).2.calls := by
  obtain h | ⟨dev, h⟩ := Option.eq_none_or_eq_some st.adf4382_dev
  · have e : update_adf4382_static.set_phase_adjustment d st v = (-1, st) := by
      simp [update_adf4382_static.set_phase_adjustment, h]
    rw [e]
    exact ⟨rfl, extendsBy_refl _ _⟩
  · have e : update_adf4382_static.set_phase_adjustment d st v
        = (if (d.set_phase_adjust st.world dev v).1 ≠ 0 then -1 else 0,
           { st with calls := st.calls ++ [Adf4382Call.set_phase_adjust dev v],
                     world := (d.set_phase_adjust st.world dev v).2 }) := by
      simp [update_adf4382_static.set_phase_adjustment, h]
    rw [e]
    exact ⟨rfl, extendsBy_single _ _ _ rfl⟩

/-- Each optional setter step of `apply_updates` keeps the handle and adds
setter calls only. -/
theorem update_steps_spec_static {σ : Type} (d : Adf4382Driver σ) (o : UpdateOptions)
    (s0 : ToolState σ) :
    ((if o.freq_set then update_adf4382_static.set_frequency d s0 o.freq_hz else (0, s0)).2.adf4382_dev
        = s0.adf4382_dev
      ∧ ExtendsBy Adf4382Call.is_rfout s0.calls
          (if o.freq_set then update_adf4382_static.set_frequency d s0 o.freq_hz else (0, s0)).2.calls)
    ∧ ((if o.cp_set then update_adf4382_static.set_charge_pump_current d s0 o.cp_i else (0, s0)).2.adf4382_dev
        = s0.adf4382_dev
      ∧ ExtendsBy Adf4382Call.is_rfout_or_cp s0.calls
          (if o.cp_set then update_adf4382_static.set_charge_pump_current d s0 o.cp_i else (0, s0)).2.calls)
    ∧ ((if o.bleed_set then update_adf4382_static.set_bleed_word d s0 o.bleed_word else (0, s0)).2.adf4382_dev
        = s0.adf4382_dev
      ∧ ExtendsBy Adf4382Call.is_setter s0.calls
          (if o.bleed_set then update_adf4382_static.set_bleed_word d s0 o.bleed_word else (0, s0)).2.calls)
    ∧ ((if o.phase_set then update_adf4382_static.set_phase_adjustment d s0 o.phase_ps else (0, s0)).2.adf4382_dev
        = s0.adf4382_dev
      ∧ ExtendsBy Adf4382Call.is_setter s0.calls
          (if o.phase_set then update_adf4382_static.set_phase_adjustment d s0 o.phase_ps
            else (0, s0)).2.calls) := by
  refine ⟨?_, ?_, ?_, ?_⟩
  · split_ifs
    · exact set_frequency_spec_static d s0 o.freq_hz
    · exact ⟨rfl, extendsBy_refl _ _⟩
  · split_ifs
    · exact ⟨(set_charge_pump_current_spec_static d s0 o.cp_i).1,
        (set_charge_pump_current_spec_static d s0 o.cp_i).2.1⟩
    · exact ⟨rfl, extendsBy_refl _ _⟩
  · split_ifs
    · exact ⟨(set_bleed_word_spec_static d s0 o.bleed_word).1,
        (set_bleed_word_spec_static d s0 o.bleed_word).2.1⟩
    · exact ⟨rfl, extendsBy_refl _ _⟩
  · split_ifs
    · exact set_phase_adjustment_spec_static d s0 o.phase_ps
    · exact ⟨rfl, extendsBy_refl _ _⟩

/-- `apply_updates` keeps the handle and adds setter calls only. -/
theorem apply_updates_spec_static {σ : Type} (d : Adf4382Driver σ) (st : ToolState σ)
    (o : UpdateOptions) :
    (update_adf4382_static.apply_updates d st o).2.adf4382_dev = st.adf4382_dev
    ∧ ExtendsBy Adf4382Call.is_setter st.calls (update_adf4382_static.apply_updates d st o).2.calls := by
  have m1 : ∀ c, Adf4382Call.is_rfout c = true → Adf4382Call.is_setter c = true := by
    intro c; cases c <;> simp [Adf4382Call.is_rfout, Adf4382Call.is_setter]
  have m2 : ∀ c, Adf4382Call.is_rfout_or_cp c = true → Adf4382Call.is_setter c = true := by
    intro c; cases c <;> simp [Adf4382Call.is_rfout_or_cp, Adf4382Call.is_setter]
  have Ff := (update_steps_spec_static d o st).1
  unfold update_adf4382_static.apply_updates
  dsimp only
  generalize (if o.freq_set = true then update_adf4382_static.set_frequency d st o.freq_hz else (0, st)) = f
    at Ff ⊢
  have Fc := (update_steps_spec_static d o f.2).2.1
  generalize (if o.cp_set = true then update_adf4382_static.set_charge_pump_current d f.2 o.cp_i else (0, f.2)) = c
    at Fc ⊢
  have Fb := (update_steps_spec_static d o c.2).2.2.1
  generalize (if o.bleed_set = true then update_adf4382_static.set_bleed_word d c.2 o.bleed_word else (0, c.2)) = b
    at Fb ⊢
  have Fp := (update_steps_spec_static d o b.2).2.2.2
  generalize (if o.phase_set = true then update_adf4382_static.set_phase_adjustment d b.2 o.phase_ps
    else (0, b.2)) = p at Fp ⊢
  have Ef := extendsBy_mono m1 Ff.2
  have Ec := extendsBy_trans Ef (extendsBy_mono m2 Fc.2)
  have Eb := extendsBy_trans Ec Fb.2
  have Ep := extendsBy_trans Eb Fp.2
  split_ifs
  · exact ⟨Ff.1, Ef⟩
  · exact ⟨Fc.1.trans Ff.1, Ec⟩
  · exact ⟨Fb.1.trans (Fc.1.trans Ff.1), Eb⟩
  · exact ⟨Fp.1.trans (Fb.1.trans (Fc.1.trans Ff.1)), Ep⟩

/-- With an out-of-range charge-pump value requested, `apply_updates` fails and
has called at most `adf4382_set_rfout`. -/
theorem apply_updates_cp_refused_static {σ : Type} (d : Adf4382Driver σ) (st : ToolState σ)
    (o : UpdateOptions) (hset : o.cp_set = true) (hout : o.cp_i < 0 ∨ 15 < o.cp_i) :
    (update_adf4382_static.apply_updates d st o).1 ≠ 0
    ∧ ExtendsBy Adf4382Call.is_rfout st.calls (update_adf4382_static.apply_updates d st o).2.calls := by
  have Ff := (update_steps_spec_static d o st).1
  unfold update_adf4382_static.apply_updates
  dsimp only
  generalize (if o.freq_set = true then update_adf4382_static.set_frequency d st o.freq_hz else (0, st)) = f
    at Ff ⊢
  rw [if_pos hset, (set_charge_pump_current_spec_static d f.2 o.cp_i).2.2 hout]
  have hneg : (((-1 : Int), f.2) : Int × ToolState σ).1 ≠ 0 := by simp
  by_cases h1 : f.1 ≠ 0
  · rw [if_pos h1]
    exact ⟨h1, Ff.2⟩
  · rw [if_neg h1, if_pos hneg]
    exact ⟨hneg, Ff.2⟩

/-- With an out-of-range bleed word requested, `apply_updates` fails and has
called at most `adf4382_set_rfout` and `adf4382_set_cp_i`. -/
theorem apply_updates_bleed_refused_static {σ : Type} (d : Adf4382Driver σ) (st : ToolState σ)
    (o : UpdateOptions) (hset : o.bleed_set = true)
    (hout : o.bleed_word < 0 ∨ 8191 < o.bleed_word) :
    (update_adf4382_static.apply_updates d st o).1 ≠ 0
    ∧ ExtendsBy Adf4382Call.is_rfout_or_cp st.calls (update_adf4382_static.apply_updates d st o).2.calls := by
  have m1 : ∀ c, Adf4382Call.is_rfout c = true → Adf4382Call.is_rfout_or_cp c = true := by
    intro c; cases c <;> simp [Adf4382Call.is_rfout, Adf4382Call.is_rfout_or_cp]
  have Ff := (update_steps_spec_static d o st).1
  unfold update_adf4382_static.apply_updates
  dsimp only
  generalize (if o.freq_set = true then update_adf4382_static.set_frequency d st o.freq_hz else (0, st)) = f
    at Ff ⊢
  have Fc := (update_steps_spec_static d o f.2).2.1
  generalize (if o.cp_set = true then update_adf4382_static.set_charge_pump_current d f.2 o.cp_i else (0, f.2)) = c
    at Fc ⊢
  have Ef := extendsBy_mono m1 Ff.2
  have Ec := extendsBy_trans Ef Fc.2
  rw [if_pos hset, (set_bleed_word_spec_static d c.2 o.bleed_word).2.2 hout]
  have hneg : (((-1 : Int), c.2) : Int × ToolState σ).1 ≠ 0 := by simp
  by_cases h1 : f.1 ≠ 0
  · rw [if_pos h1]
    exact ⟨h1, Ef⟩
  · rw [if_neg h1]
    by_cases h2 : c.1 ≠ 0
    · rw [if_pos h2]
      exact ⟨h2, Ec⟩
    · rw [if_neg h2, if_pos hneg]
      exact ⟨hneg, Ec⟩

/-- `cleanup` clears the handle and calls `adf4382_remove` exactly when a
handle was held. -/
theorem cleanup_spec_static {σ : Type} (d : Adf4382Driver σ) (st : ToolState σ) :
    (update_adf4382_static.cleanup d st).adf4382_dev = none
    ∧ (update_adf4382_static.cleanup d st).calls
        = st.calls ++ (match st.adf4382_dev with
                        | none => []
                        | some dev => [Adf4382Call.remove dev]) := by
  obtain h | ⟨dev, h⟩ := Option.eq_none_or_eq_some st.adf4382_dev
  · simp [update_adf4382_static.cleanup, h]
  · simp [update_adf4382_static.cleanup, h]

/-- The state in which update_adf4382.c calls `adf4382_init`: still the initial
world, no handle, no call made. -/
theorem load_library_state {σ : Type} (dlopen_ok symbols_ok : Bool) (w : σ) :
    (update_adf4382.load_adf4382_library dlopen_ok symbols_ok (update_adf4382.start w)).2.world
        = w
    ∧ (update_adf4382.load_adf4382_library dlopen_ok symbols_ok
        (update_adf4382.start w)).2.adf4382_dev = none
    ∧ (update_adf4382.load_adf4382_library dlopen_ok symbols_ok
        (update_adf4382.start w)).2.calls = [] := by
  unfold update_adf4382.load_adf4382_library update_adf4382.start
  split_ifs <;> exact ⟨rfl, rfl, rfl⟩


/-! ## Update tools: the driver calls of `main` -/

/-- Counting `adf4382_remove` in a call list of the shape "init, setters, one
remove if a handle is held": at most one, and one exactly when the
initialisation left a handle. -/
theorem remove_count_of_shape {σ : Type} (d : Adf4382Driver σ) (w : σ) (id : Nat)
    (l calls : List Adf4382Call) (hl : ∀ c ∈ l, Adf4382Call.is_setter c = true)
    (hshape : calls = [Adf4382Call.init id] ++ l
      ++ (match (d.init w none id).2.1 with
          | none => []
          | some dev => [Adf4382Call.remove dev])) :
    calls.countP Adf4382Call.is_remove ≤ 1
    ∧ (calls.countP Adf4382Call.is_remove = 1 ↔
        ∃ i, Adf4382Call.init i ∈ calls ∧ (d.init w none i).2.1 ≠ none) := by
  have hl0 : l.countP Adf4382Call.is_remove = 0 := by
    rw [List.countP_eq_zero]
    intro c hc
    have := hl c hc
    cases c <;> simp_all [Adf4382Call.is_setter, Adf4382Call.is_remove]
  have hinit : ∀ i, Adf4382Call.init i ∈ calls → i = id := by
    intro i hi
    rw [hshape] at hi
    rcases List.mem_append.mp hi with h1 | h1
    · rcases List.mem_append.mp h1 with h2 | h2
      · simpa using h2
      · have := hl _ h2
        simp [Adf4382Call.is_setter] at this
    · cases hh : (d.init w none id).2.1 <;> simp [hh] at h1
  have hmem : Adf4382Call.init id ∈ calls := by
    rw [hshape]; simp
  cases hh : (d.init w none id).2.1 with
  | none =>
      have hcount : calls.countP Adf4382Call.is_remove = 0 := by
        rw [hshape, hh]
        simp [List.countP_append, hl0, Adf4382Call.is_remove]
      refine ⟨by omega, ?_⟩
      constructor
      · intro h; omega
      · rintro ⟨i, hi, hne⟩
        rw [hinit i hi, hh] at hne
        exact absurd rfl hne
  | some dev =>
      have hcount : calls.countP Adf4382Call.is_remove = 1 := by
        rw [hshape, hh]
        simp [List.countP_append, hl0, Adf4382Call.is_remove]
      refine ⟨by omega, ?_⟩
      constructor
      · intro _
        exact ⟨id, hmem, by simp [hh]⟩
      · intro _; exact hcount

/-- The driver calls of `main` in update_adf4382.c: none at all, or
`adf4382_init`, then setter calls, then `adf4382_remove` if init left a handle. -/
theorem main_calls_shape_dyn {σ : Type} (L : Libc) (d : Adf4382Driver σ)
    (dlopen_ok symbols_ok : Bool) (args : List String) (w : σ) :
    (update_adf4382.main L d dlopen_ok symbols_ok args w).2.calls = []
    ∨ ∃ id l, (∀ c ∈ l, Adf4382Call.is_setter c = true)
        ∧ (update_adf4382.main L d dlopen_ok symbols_ok args w).2.calls
          = [Adf4382Call.init id] ++ l
            ++ (match (d.init w none id).2.1 with
                | none => []
                | some dev => [Adf4382Call.remove dev]) := by
  obtain ⟨hw, hd, hc⟩ := load_library_state dlopen_ok symbols_ok w
  unfold update_adf4382.main
  cases hp : parse_update_args L args UpdateOptions.start with
  | help => exact Or.inl rfl
  | unknown a => exact Or.inl rfl
  | run o =>
      dsimp only
      generalize update_adf4382.load_adf4382_library dlopen_ok symbols_ok
        (update_adf4382.start w) = ld at hw hd hc ⊢
      have hi_calls : (update_adf4382.init_adf4382 d ld.2 o.spi_device_id).2.calls
          = [Adf4382Call.init o.spi_device_id] := by
        simp [update_adf4382.init_adf4382, hc]
      have hi_dev : (update_adf4382.init_adf4382 d ld.2 o.spi_device_id).2.adf4382_dev
          = (d.init w none o.spi_device_id).2.1 := by
        simp [update_adf4382.init_adf4382, hw, hd]
      split_ifs
      · exact Or.inl rfl
      · exact Or.inl hc
      · refine Or.inr ⟨o.spi_device_id, [], by simp, ?_⟩
        rw [(cleanup_spec_dyn d _).2, hi_calls, hi_dev]
        simp
      all_goals
        refine Or.inr ?_
        obtain ⟨hdev, l, hl, hlp⟩ := apply_updates_spec_dyn d
          (update_adf4382.init_adf4382 d ld.2 o.spi_device_id).2 o
        refine ⟨o.spi_device_id, l, hlp, ?_⟩
        rw [(cleanup_spec_dyn d _).2, hl, hdev, hi_calls, hi_dev]

/-- The driver calls of `main` in update_adf4382_static.c: none at all, or
`adf4382_init`, then setter calls, then `adf4382_remove` if init left a handle. -/
theorem main_calls_shape_static {σ : Type} (L : Libc) (d : Adf4382Driver σ)
    (args : List String) (w : σ) :
    (update_adf4382_static.main L d args w).2.calls = []
    ∨ ∃ id l, (∀ c ∈ l, Adf4382Call.is_setter c = true)
        ∧ (update_adf4382_static.main L d args w).2.calls
          = [Adf4382Call.init id] ++ l
            ++ (match (d.init w none id).2.1 with
                | none => []
                | some dev => [Adf4382Call.remove dev]) := by
  unfold update_adf4382_static.main
  cases hp : parse_update_args L args UpdateOptions.start with
  | help => exact Or.inl rfl
  | unknown a => exact Or.inl rfl
  | run o =>
      dsimp only
      have hi_calls : (update_adf4382_static.init_adf4382 d (update_adf4382_static.start w)
          o.spi_device_id).2.calls = [Adf4382Call.init o.spi_device_id] := by
        simp [update_adf4382_static.init_adf4382, update_adf4382_static.start]
      have hi_dev : (update_adf4382_static.init_adf4382 d (update_adf4382_static.start w)
          o.spi_device_id).2.adf4382_dev = (d.init w none o.spi_device_id).2.1 := by
        simp [update_adf4382_static.init_adf4382, update_adf4382_static.start]
      split_ifs
      · exact Or.inl rfl
      · refine Or.inr ⟨o.spi_device_id, [], by simp, ?_⟩
        rw [(cleanup_spec_static d _).2, hi_calls, hi_dev]
        simp
      all_goals
        refine Or.inr ?_
        obtain ⟨hdev, l, hl, hlp⟩ := apply_updates_spec_static d
          (update_adf4382_static.init_adf4382 d (update_adf4382_static.start w)
            o.spi_device_id).2 o
        refine ⟨o.spi_device_id, l, hlp, ?_⟩
        rw [(cleanup_spec_static d _).2, hl, hdev, hi_calls, hi_dev]

/-- When the update sequence is bound to fail having made calls of class `p`
only, `main` (update_adf4382.c) returns 1 and its driver calls are `adf4382_init`, calls
of class `p` and `adf4382_remove`. -/
theorem main_of_failed_updates_dyn {σ : Type} (L : Libc) (d : Adf4382Driver σ)
    (dlopen_ok symbols_ok : Bool)
    (args : List String) (w : σ) (o : UpdateOptions)
    (hparse : parse_update_args L args UpdateOptions.start = ParseOutcome.run o)
    (hsome : o.cp_set = true ∨ o.bleed_set = true) (p : Adf4382Call → Bool)
    (H : ∀ st : DynToolState σ, (update_adf4382.apply_updates d st o).1 ≠ 0
      ∧ ExtendsBy p st.calls (update_adf4382.apply_updates d st o).2.calls) :
    (update_adf4382.main L d dlopen_ok symbols_ok args w).1 = 1
    ∧ ∀ c ∈ (update_adf4382.main L d dlopen_ok symbols_ok args w).2.calls,
        Adf4382Call.is_init c = true ∨ p c = true ∨ Adf4382Call.is_remove c = true := by
  have hflags : ¬ ((!o.freq_set && !o.cp_set && !o.bleed_set && !o.phase_set) = true) := by
    rcases hsome with h | h <;> simp [h]
  have hrem : ∀ (st : DynToolState σ) (c : Adf4382Call), c ∈ (update_adf4382.cleanup d st).calls →
      c ∈ st.calls ∨ Adf4382Call.is_remove c = true := by
    intro st c hc
    rw [(cleanup_spec_dyn d st).2] at hc
    rcases List.mem_append.mp hc with h1 | h1
    · exact Or.inl h1
    · cases hh : st.adf4382_dev <;> simp [hh] at h1
      exact Or.inr (by rw [h1]; rfl)
  have hinit : ∀ (st : DynToolState σ) (i : Nat) (c : Adf4382Call), st.calls = [] →
      c ∈ (update_adf4382.init_adf4382 d st i).2.calls → Adf4382Call.is_init c = true := by
    intro st i c h0 hc
    simp [update_adf4382.init_adf4382, h0] at hc
    rw [hc]; rfl
  unfold update_adf4382.main
  rw [hparse]
  dsimp only
  rw [if_neg hflags]
  obtain ⟨hw, hd, hstart⟩ := load_library_state dlopen_ok symbols_ok w
  generalize update_adf4382.load_adf4382_library dlopen_ok symbols_ok
    (update_adf4382.start w) = ld at hw hd hstart ⊢
  by_cases hl : ld.1 ≠ 0
  · rw [if_pos hl]
    refine ⟨rfl, ?_⟩
    intro c hcm
    rw [hstart] at hcm
    cases hcm
  rw [if_neg hl]
  by_cases hi : (update_adf4382.init_adf4382 d ld.2 o.spi_device_id).1 ≠ 0
  · rw [if_pos hi]
    refine ⟨rfl, ?_⟩
    intro c hc
    rcases hrem _ c hc with h1 | h1
    · exact Or.inl (hinit _ _ c hstart h1)
    · exact Or.inr (Or.inr h1)
  · rw [if_neg hi]
    obtain ⟨hne, hext⟩ := H (update_adf4382.init_adf4382 d ld.2 o.spi_device_id).2
    refine ⟨by rw [if_pos hne], ?_⟩
    intro c hc
    rcases hrem _ c hc with h1 | h1
    · rcases extendsBy_mem hext c h1 with h2 | h2
      · exact Or.inl (hinit _ _ c hstart h2)
      · exact Or.inr (Or.inl h2)
    · exact Or.inr (Or.inr h1)

/-- When the update sequence is bound to fail having made calls of class `p`
only, `main` (update_adf4382_static.c) returns 1 and its driver calls are `adf4382_init`, calls
of class `p` and `adf4382_remove`. -/
theorem main_of_failed_updates_static {σ : Type} (L : Libc) (d : Adf4382Driver σ)
    (args : List String) (w : σ) (o : UpdateOptions)
    (hparse : parse_update_args L args UpdateOptions.start = ParseOutcome.run o)
    (hsome : o.cp_set = true ∨ o.bleed_set = true) (p : Adf4382Call → Bool)
    (H : ∀ st : ToolState σ, (update_adf4382_static.apply_updates d st o).1 ≠ 0
      ∧ ExtendsBy p st.calls (update_adf4382_static.apply_updates d st o).2.calls) :
    (update_adf4382_static.main L d args w).1 = 1
    ∧ ∀ c ∈ (update_adf4382_static.main L d args w).2.calls,
        Adf4382Call.is_init c = true ∨ p c = true ∨ Adf4382Call.is_remove c = true := by
  have hflags : ¬ ((!o.freq_set && !o.cp_set && !o.bleed_set && !o.phase_set) = true) := by
    rcases hsome with h | h <;> simp [h]
  have hrem : ∀ (st : ToolState σ) (c : Adf4382Call), c ∈ (update_adf4382_static.cleanup d st).calls →
      c ∈ st.calls ∨ Adf4382Call.is_remove c = true := by
    intro st c hc
    rw [(cleanup_spec_static d st).2] at hc
    rcases List.mem_append.mp hc with h1 | h1
    · exact Or.inl h1
    · cases hh : st.adf4382_dev <;> simp [hh] at h1
      exact Or.inr (by rw [h1]; rfl)
  have hinit : ∀ (st : ToolState σ) (i : Nat) (c : Adf4382Call), st.calls = [] →
      c ∈ (update_adf4382_static.init_adf4382 d st i).2.calls → Adf4382Call.is_init c = true := by
    intro st i c h0 hc
    simp [update_adf4382_static.init_adf4382, h0] at hc
    rw [hc]; rfl
  unfold update_adf4382_static.main
  rw [hparse]
  dsimp only
  rw [if_neg hflags]
  have hstart : (update_adf4382_static.start w).calls = [] := rfl
  by_cases hi : (update_adf4382_static.init_adf4382 d (update_adf4382_static.start w) o.spi_device_id).1 ≠ 0
  · rw [if_pos hi]
    refine ⟨rfl, ?_⟩
    intro c hc
    rcases hrem _ c hc with h1 | h1
    · exact Or.inl (hinit _ _ c hstart h1)
    · exact Or.inr (Or.inr h1)
  · rw [if_neg hi]
    obtain ⟨hne, hext⟩ := H (update_adf4382_static.init_adf4382 d (update_adf4382_static.start w) o.spi_device_id).2
    refine ⟨by rw [if_pos hne], ?_⟩
    intro c hc
    rcases hrem _ c hc with h1 | h1
    · rcases extendsBy_mem hext c h1 with h2 | h2
      · exact Or.inl (hinit _ _ c hstart h2)
      · exact Or.inr (Or.inl h2)
    · exact Or.inr (Or.inr h1)

/-- C11 fails on the code: `--cp-i 16` (update_adf4382.c) and
`--freq 15000000000 --bleed 9000` (update_adf4382_static.c) make `main` return 1
only after `adf4382_init` has run; in the second case `adf4382_set_rfout` has
run as well. -/
theorem out_of_range_reaches_device :
    (update_adf4382.main decimal_libc willing_driver true true ["--cp-i", "16"] ()).1 = 1
    ∧ (update_adf4382.main decimal_libc willing_driver true true ["--cp-i", "16"] ()).2.calls
        = [Adf4382Call.init 0, Adf4382Call.remove 1]
    ∧ (update_adf4382_static.main decimal_libc willing_driver
        ["--freq", "15000000000", "--bleed", "9000"] ()).1 = 1
    ∧ (update_adf4382_static.main decimal_libc willing_driver
        ["--freq", "15000000000", "--bleed", "9000"] ()).2.calls
        = [Adf4382Call.init 0, Adf4382Call.set_rfout 1 15000000000, Adf4382Call.remove 1] := by
  refine ⟨?_, ?_, ?_, ?_⟩ <;> rfl

/-- C11 as amended: when the option loop ends with an out-of-range charge-pump
value (outside 0..15) or bleed word (outside 0..8191) in force, `main` of both
update tools returns 1 and the driver setter of that parameter and of every
later parameter is never called: with the charge-pump value out of range the
driver calls are `adf4382_init`, `adf4382_set_rfout` and `adf4382_remove` at
most, with the bleed word out of range `adf4382_set_cp_i` may occur too. -/
theorem out_of_range_stops_at_setter {σ : Type} (L : Libc) (d : Adf4382Driver σ)
    (dlopen_ok symbols_ok : Bool) (args : List String) (w : σ) (o : UpdateOptions)
    (hparse : parse_update_args L args UpdateOptions.start = ParseOutcome.run o)
    (hout : (o.cp_set = true ∧ (o.cp_i < 0 ∨ 15 < o.cp_i))
      ∨ (o.bleed_set = true ∧ (o.bleed_word < 0 ∨ 8191 < o.bleed_word))) :
    (update_adf4382.main L d dlopen_ok symbols_ok args w).1 = 1
    ∧ (update_adf4382_static.main L d args w).1 = 1
    ∧ (∀ c ∈ (update_adf4382.main L d dlopen_ok symbols_ok args w).2.calls,
        Adf4382Call.is_init c = true ∨ Adf4382Call.is_rfout_or_cp c = true
          ∨ Adf4382Call.is_remove c = true)
    ∧ (∀ c ∈ (update_adf4382_static.main L d args w).2.calls,
        Adf4382Call.is_init c = true ∨ Adf4382Call.is_rfout_or_cp c = true
          ∨ Adf4382Call.is_remove c = true)
    ∧ ((o.cp_set = true ∧ (o.cp_i < 0 ∨ 15 < o.cp_i)) →
        (∀ c ∈ (update_adf4382.main L d dlopen_ok symbols_ok args w).2.calls,
          Adf4382Call.is_init c = true ∨ Adf4382Call.is_rfout c = true
            ∨ Adf4382Call.is_remove c = true)
        ∧ (∀ c ∈ (update_adf4382_static.main L d args w).2.calls,
          Adf4382Call.is_init c = true ∨ Adf4382Call.is_rfout c = true
            ∨ Adf4382Call.is_remove c = true)) := by
  have m1 : ∀ c, Adf4382Call.is_rfout c = true → Adf4382Call.is_rfout_or_cp c = true := by
    intro c; cases c <;> simp [Adf4382Call.is_rfout, Adf4382Call.is_rfout_or_cp]
  have hcp : (o.cp_set = true ∧ (o.cp_i < 0 ∨ 15 < o.cp_i)) →
      ((update_adf4382.main L d dlopen_ok symbols_ok args w).1 = 1
        ∧ ∀ c ∈ (update_adf4382.main L d dlopen_ok symbols_ok args w).2.calls,
          Adf4382Call.is_init c = true ∨ Adf4382Call.is_rfout c = true
            ∨ Adf4382Call.is_remove c = true)
      ∧ ((update_adf4382_static.main L d args w).1 = 1
        ∧ ∀ c ∈ (update_adf4382_static.main L d args w).2.calls,
          Adf4382Call.is_init c = true ∨ Adf4382Call.is_rfout c = true
            ∨ Adf4382Call.is_remove c = true) := by
    intro h
    exact ⟨main_of_failed_updates_dyn L d dlopen_ok symbols_ok args w o hparse (Or.inl h.1)
        Adf4382Call.is_rfout (fun st => apply_updates_cp_refused_dyn d st o h.1 h.2),
      main_of_failed_updates_static L d args w o hparse (Or.inl h.1)
        Adf4382Call.is_rfout (fun st => apply_updates_cp_refused_static d st o h.1 h.2)⟩
  have hbl : (o.bleed_set = true ∧ (o.bleed_word < 0 ∨ 8191 < o.bleed_word)) →
      ((update_adf4382.main L d dlopen_ok symbols_ok args w).1 = 1
        ∧ ∀ c ∈ (update_adf4382.main L d dlopen_ok symbols_ok args w).2.calls,
          Adf4382Call.is_init c = true ∨ Adf4382Call.is_rfout_or_cp c = true
            ∨ Adf4382Call.is_remove c = true)
      ∧ ((update_adf4382_static.main L d args w).1 = 1
        ∧ ∀ c ∈ (update_adf4382_static.main L d args w).2.calls,
          Adf4382Call.is_init c = true ∨ Adf4382Call.is_rfout_or_cp c = true
            ∨ Adf4382Call.is_remove c = true) := by
    intro h
    exact ⟨main_of_failed_updates_dyn L d dlopen_ok symbols_ok args w o hparse (Or.inr h.1)
        Adf4382Call.is_rfout_or_cp (fun st => apply_updates_bleed_refused_dyn d st o h.1 h.2),
      main_of_failed_updates_static L d args w o hparse (Or.inr h.1)
        Adf4382Call.is_rfout_or_cp
        (fun st => apply_updates_bleed_refused_static d st o h.1 h.2)⟩
  have widen : ∀ (l : List Adf4382Call),
      (∀ c ∈ l, Adf4382Call.is_init c = true ∨ Adf4382Call.is_rfout c = true
        ∨ Adf4382Call.is_remove c = true) →
      ∀ c ∈ l, Adf4382Call.is_init c = true ∨ Adf4382Call.is_rfout_or_cp c = true
        ∨ Adf4382Call.is_remove c = true := by
    intro l hl c hc
    rcases hl c hc with h | h | h
    · exact Or.inl h
    · exact Or.inr (Or.inl (m1 c h))
    · exact Or.inr (Or.inr h)
  rcases hout with h | h
  · obtain ⟨⟨r1, c1⟩, ⟨r2, c2⟩⟩ := hcp h
    exact ⟨r1, r2, widen _ c1, widen _ c2, fun _ => ⟨c1, c2⟩⟩
  · obtain ⟨⟨r1, c1⟩, ⟨r2, c2⟩⟩ := hbl h
    exact ⟨r1, r2, c1, c2, fun h2 => ⟨(hcp h2).1.2, (hcp h2).2.2⟩⟩

/-- Instance of `out_of_range_stops_at_setter`: `--freq 15000000000 --cp-i 16`. -/
theorem out_of_range_stops_at_setter_witness :
    (update_adf4382.main decimal_libc willing_driver true true
        ["--freq", "15000000000", "--cp-i", "16"] ()).1 = 1
    ∧ (update_adf4382_static.main decimal_libc willing_driver
        ["--freq", "15000000000", "--cp-i", "16"] ()).1 = 1 :=
  ⟨(out_of_range_stops_at_setter decimal_libc willing_driver true true
      ["--freq", "15000000000", "--cp-i", "16"] ()
      { UpdateOptions.start with freq_hz := 15000000000, freq_set := true,
                                 cp_i := 16, cp_set := true }
      (by decide) (Or.inl ⟨rfl, Or.inr (by decide)⟩)).1,
   (out_of_range_stops_at_setter decimal_libc willing_driver true true
      ["--freq", "15000000000", "--cp-i", "16"] ()
      { UpdateOptions.start with freq_hz := 15000000000, freq_set := true,
                                 cp_i := 16, cp_set := true }
      (by decide) (Or.inl ⟨rfl, Or.inr (by decide)⟩)).2.1⟩

/-- C15 fails on the code: an `adf4382_init` that returns 0 without storing a
handle has succeeded, yet no `adf4382_remove` follows. On `--freq 1` both
tools call `adf4382_init` only (`set_frequency` finds no handle and fails) and
exit with 1; the driver never fails, so the assumption that a failed
`adf4382_init` leaves the handle null holds. -/
theorem init_success_without_remove :
    (handleless_driver.init () none 0).1 = 0
    ∧ (∀ (s : Unit) (h : Option Nat) (i : Nat),
        (handleless_driver.init s h i).1 ≠ 0 → (handleless_driver.init s h i).2.1 = none)
    ∧ (update_adf4382.main decimal_libc handleless_driver true true ["--freq", "1"] ()).2.calls
        = [Adf4382Call.init 0]
    ∧ (update_adf4382.main decimal_libc handleless_driver true true
        ["--freq", "1"] ()).2.calls.countP Adf4382Call.is_remove = 0
    ∧ (update_adf4382.main decimal_libc handleless_driver true true ["--freq", "1"] ()).1 = 1
    ∧ (update_adf4382_static.main decimal_libc handleless_driver ["--freq", "1"] ()).2.calls
        = [Adf4382Call.init 0]
    ∧ (update_adf4382_static.main decimal_libc handleless_driver
        ["--freq", "1"] ()).2.calls.countP Adf4382Call.is_remove = 0
    ∧ (update_adf4382_static.main decimal_libc handleless_driver ["--freq", "1"] ()).1 = 1 := by
  refine ⟨rfl, ?_, by decide, by decide, by decide, by decide, by decide, by decide⟩
  intro s h i hne
  exact absurd rfl hne

/-- C15 as amended: in both update tools `adf4382_remove` is called at most
once in every run of `main`, and exactly once if and only if `adf4382_init` was
called and left a handle in `adf4382_dev`; assuming that a failed
`adf4382_init`, called on the null handle as `main` calls it, leaves the handle
null, that is if and only if `adf4382_init` was called, returned 0 and stored a
handle; assuming also that an `adf4382_init` that returns 0 stores a handle,
that is if and only if `adf4382_init` was called and returned 0. `cleanup` is
idempotent for every driver: a second call leaves the globals, the driver calls
among them, as the first call left them. -/
theorem remove_called_at_most_once {σ : Type} (L : Libc) (d : Adf4382Driver σ)
    (dlopen_ok symbols_ok : Bool) (args : List String) (w : σ) :
    ((update_adf4382.main L d dlopen_ok symbols_ok args w).2.calls.countP
        Adf4382Call.is_remove ≤ 1
      ∧ ((update_adf4382.main L d dlopen_ok symbols_ok args w).2.calls.countP
          Adf4382Call.is_remove = 1 ↔
          ∃ i, Adf4382Call.init i
              ∈ (update_adf4382.main L d dlopen_ok symbols_ok args w).2.calls
            ∧ (d.init w none i).2.1 ≠ none))
    ∧ ((update_adf4382_static.main L d args w).2.calls.countP Adf4382Call.is_remove ≤ 1
      ∧ ((update_adf4382_static.main L d args w).2.calls.countP Adf4382Call.is_remove = 1 ↔
          ∃ i, Adf4382Call.init i ∈ (update_adf4382_static.main L d args w).2.calls
            ∧ (d.init w none i).2.1 ≠ none))
    ∧ ((∀ s i, (d.init s none i).1 ≠ 0 → (d.init s none i).2.1 = none) →
        ((update_adf4382.main L d dlopen_ok symbols_ok args w).2.calls.countP
            Adf4382Call.is_remove = 1 ↔
            ∃ i, Adf4382Call.init i
                ∈ (update_adf4382.main L d dlopen_ok symbols_ok args w).2.calls
              ∧ (d.init w none i).1 = 0 ∧ (d.init w none i).2.1 ≠ none)
        ∧ ((update_adf4382_static.main L d args w).2.calls.countP Adf4382Call.is_remove = 1 ↔
            ∃ i, Adf4382Call.init i ∈ (update_adf4382_static.main L d args w).2.calls
              ∧ (d.init w none i).1 = 0 ∧ (d.init w none i).2.1 ≠ none))
    ∧ ((∀ s i, (d.init s none i).1 ≠ 0 → (d.init s none i).2.1 = none) →
        (∀ s i, (d.init s none i).1 = 0 → (d.init s none i).2.1 ≠ none) →
        ((update_adf4382.main L d dlopen_ok symbols_ok args w).2.calls.countP
            Adf4382Call.is_remove = 1 ↔
            ∃ i, Adf4382Call.init i
                ∈ (update_adf4382.main L d dlopen_ok symbols_ok args w).2.calls
              ∧ (d.init w none i).1 = 0)
        ∧ ((update_adf4382_static.main L d args w).2.calls.countP Adf4382Call.is_remove = 1 ↔
            ∃ i, Adf4382Call.init i ∈ (update_adf4382_static.main L d args w).2.calls
              ∧ (d.init w none i).1 = 0))
    ∧ (∀ st : DynToolState σ,
        update_adf4382.cleanup d (update_adf4382.cleanup d st) = update_adf4382.cleanup d st)
    ∧ (∀ st : ToolState σ,
        update_adf4382_static.cleanup d (update_adf4382_static.cleanup d st)
          = update_adf4382_static.cleanup d st) := by
  have empty : ∀ calls : List Adf4382Call, calls = [] →
      calls.countP Adf4382Call.is_remove ≤ 1
      ∧ (calls.countP Adf4382Call.is_remove = 1 ↔
          ∃ i, Adf4382Call.init i ∈ calls ∧ (d.init w none i).2.1 ≠ none) := by
    intro calls h
    subst h
    simp
  have hdyn : (update_adf4382.main L d dlopen_ok symbols_ok args w).2.calls.countP
        Adf4382Call.is_remove ≤ 1
      ∧ ((update_adf4382.main L d dlopen_ok symbols_ok args w).2.calls.countP
          Adf4382Call.is_remove = 1 ↔
          ∃ i, Adf4382Call.init i
              ∈ (update_adf4382.main L d dlopen_ok symbols_ok args w).2.calls
            ∧ (d.init w none i).2.1 ≠ none) := by
    rcases main_calls_shape_dyn L d dlopen_ok symbols_ok args w with h | ⟨id, l, hl, hs⟩
    · exact empty _ h
    · exact remove_count_of_shape d w id l _ hl hs
  have hsta : (update_adf4382_static.main L d args w).2.calls.countP Adf4382Call.is_remove ≤ 1
      ∧ ((update_adf4382_static.main L d args w).2.calls.countP Adf4382Call.is_remove = 1 ↔
          ∃ i, Adf4382Call.init i ∈ (update_adf4382_static.main L d args w).2.calls
            ∧ (d.init w none i).2.1 ≠ none) := by
    rcases main_calls_shape_static L d args w with h | ⟨id, l, hl, hs⟩
    · exact empty _ h
    · exact remove_count_of_shape d w id l _ hl hs
  have hret : (∀ s i, (d.init s none i).1 ≠ 0 → (d.init s none i).2.1 = none) →
      ∀ calls : List Adf4382Call,
        (∃ i, Adf4382Call.init i ∈ calls ∧ (d.init w none i).2.1 ≠ none) ↔
        ∃ i, Adf4382Call.init i ∈ calls ∧ (d.init w none i).1 = 0
          ∧ (d.init w none i).2.1 ≠ none := by
    intro hfail calls
    constructor
    · rintro ⟨i, hi, hne⟩
      refine ⟨i, hi, ?_, hne⟩
      by_contra h0
      exact hne (hfail w i h0)
    · rintro ⟨i, hi, _, hne⟩
      exact ⟨i, hi, hne⟩
  have hret0 : (∀ s i, (d.init s none i).1 ≠ 0 → (d.init s none i).2.1 = none) →
      (∀ s i, (d.init s none i).1 = 0 → (d.init s none i).2.1 ≠ none) →
      ∀ calls : List Adf4382Call,
        (∃ i, Adf4382Call.init i ∈ calls ∧ (d.init w none i).2.1 ≠ none) ↔
        ∃ i, Adf4382Call.init i ∈ calls ∧ (d.init w none i).1 = 0 := by
    intro hfail hsucc calls
    constructor
    · rintro ⟨i, hi, hne⟩
      refine ⟨i, hi, ?_⟩
      by_contra h0
      exact hne (hfail w i h0)
    · rintro ⟨i, hi, h0⟩
      exact ⟨i, hi, hsucc w i h0⟩
  refine ⟨hdyn, hsta, ?_, ?_, ?_, ?_⟩
  · intro hfail
    exact ⟨hdyn.2.trans (hret hfail _), hsta.2.trans (hret hfail _)⟩
  · intro hfail hsucc
    exact ⟨hdyn.2.trans (hret0 hfail hsucc _), hsta.2.trans (hret0 hfail hsucc _)⟩
  · intro st
    obtain h | ⟨dev, h⟩ := Option.eq_none_or_eq_some st.adf4382_dev
    · simp [update_adf4382.cleanup, h]
    · simp [update_adf4382.cleanup, h]
  · intro st
    have h := (cleanup_spec_static d st).1
    generalize update_adf4382_static.cleanup d st = st1 at h ⊢
    simp [update_adf4382_static.cleanup, h]

/-- Instance of `remove_called_at_most_once`: a run against a driver whose init
fails and stores no handle (no `adf4382_remove`), and one against a driver
whose init succeeds and stores a handle (one `adf4382_remove`). -/
theorem remove_called_at_most_once_witness :
    (∀ (s : Unit) (i : Nat),
      (refusing_driver.init s none i).1 ≠ 0 → (refusing_driver.init s none i).2.1 = none)
    ∧ (update_adf4382.main decimal_libc refusing_driver true true
        ["--freq", "15000000000"] ()).2.calls.countP Adf4382Call.is_remove ≤ 1
    ∧ ((update_adf4382.main decimal_libc refusing_driver true true
          ["--freq", "15000000000"] ()).2.calls.countP Adf4382Call.is_remove = 1 ↔
        ∃ i, Adf4382Call.init i
            ∈ (update_adf4382.main decimal_libc refusing_driver true true
                ["--freq", "15000000000"] ()).2.calls
          ∧ (refusing_driver.init () none i).1 = 0
          ∧ (refusing_driver.init () none i).2.1 ≠ none)
    ∧ (update_adf4382_static.main decimal_libc willing_driver
        ["--freq", "15000000000"] ()).2.calls.countP Adf4382Call.is_remove = 1 :=
  ⟨fun _ _ _ => rfl,
   (remove_called_at_most_once decimal_libc refusing_driver true true
      ["--freq", "15000000000"] ()).1.1,
   ((remove_called_at_most_once decimal_libc refusing_driver true true
      ["--freq", "15000000000"] ()).2.2.1 (fun _ _ _ => rfl)).1,
   by decide⟩

/-! ## ADF4377_Test and ADF4382_Test -/

/-- The option loop of the test mains keeps the two chip-select fields equal. -/
theorem parse_spi_args_chip_select (L : Libc) (args : List String) (b0 b : SpiBlocks)
    (h0 : b0.extra_chip_select = b0.ip_chip_select)
    (hp : parse_spi_args L args b0 = some b) :
    b.extra_chip_select = b.ip_chip_select := by
  induction args, b0 using parse_spi_args.induct L with
  | case1 b1 =>
      simp [parse_spi_args] at hp
      rw [← hp]; exact h0
  | case2 a b1 hhelp =>
      simp [parse_spi_args, hhelp] at hp
  | case3 a b1 hhelp =>
      simp [parse_spi_args, hhelp] at hp
      rw [← hp]; exact h0
  | case4 v rest b1 ih =>
      simp only [parse_spi_args, if_true] at hp
      exact ih h0 hp
  | case5 v rest b1 hne ih =>
      simp only [parse_spi_args, hne, if_true, if_false] at hp
      exact ih rfl hp
  | case6 a v rest b1 ha hcs hhelp =>
      simp [parse_spi_args, ha, hcs, hhelp] at hp
  | case7 a v rest b1 ha hcs hhelp ih =>
      simp only [parse_spi_args, ha, hcs, hhelp, if_false] at hp
      exact ih h0 hp

/-- C12 (code bug): with a scratchpad read-back of 0x00 instead of 0xAA and
every driver call succeeding, `main` of ADF4382_Test sets `ret = -1` at the
comparison, then overwrites it: it returns 0 and prints the success banner. -/
theorem scratchpad_mismatch_lost :
    (ADF4382_Test.main decimal_libc absent_adf4382 [] ⟨0, 0, 0, 0⟩ ()).checked = some (-1)
    ∧ (ADF4382_Test.main decimal_libc absent_adf4382 [] ⟨0, 0, 0, 0⟩ ()).ret = 0
    ∧ (ADF4382_Test.main decimal_libc absent_adf4382 [] ⟨0, 0, 0, 0⟩ ()).verdict
        = some Verdict.success
    ∧ (ADF4382_Test.main decimal_libc absent_adf4382 [] ⟨0, 0, 0, 0⟩ ()).calls
        = [Adf4382TestCall.init ⟨0, 0, 0, 0⟩, Adf4382TestCall.spi_read 1 0x0A,
           Adf4382TestCall.spi_write 1 0x0A 0xAA, Adf4382TestCall.spi_read 1 0x0A,
           Adf4382TestCall.get_rfout 1, Adf4382TestCall.get_ref_clk 1,
           Adf4382TestCall.remove 1]
    ∧ (∀ (σ : Type) (L : Libc) (d : Adf4382TestDriver σ) (args : List String)
        (b0 : SpiBlocks) (w : σ),
        (ADF4382_Test.main L d args b0 w).verdict = some Verdict.success →
        (ADF4382_Test.main L d args b0 w).ret = 0) := by
  refine ⟨rfl, rfl, rfl, rfl, ?_⟩
  intro σ L d args b0 w
  simp only [ADF4382_Test.main]
  split
  · simp
  · split_ifs <;> simp_all

/-- C13 (code bug): with a REG001D read-back of 0x00 (MUXOUT field 0, not 0x8)
and every driver call succeeding, `main` of ADF4377_Test sets `ret = -1` at the
comparison, then overwrites it with the result of `adf4377_remove`: it returns
0 and prints the success banner. -/
theorem muxout_mismatch_lost :
    (ADF4377_Test.main decimal_libc absent_adf4377 [] ⟨0, 0, 0, 0⟩ ()).checked = some (-1)
    ∧ (ADF4377_Test.main decimal_libc absent_adf4377 [] ⟨0, 0, 0, 0⟩ ()).ret = 0
    ∧ (ADF4377_Test.main decimal_libc absent_adf4377 [] ⟨0, 0, 0, 0⟩ ()).verdict
        = some Verdict.success
    ∧ (ADF4377_Test.main decimal_libc absent_adf4377 [] ⟨0, 0, 0, 0⟩ ()).calls
        = [Adf4377Call.init ⟨0, 0, 0, 0⟩, Adf4377Call.spi_read 1 0x1D,
           Adf4377Call.spi_update_bit 1 0x1D 0xF0 0x80, Adf4377Call.spi_read 1 0x1D,
           Adf4377Call.remove 1]
    ∧ (∀ (σ : Type) (L : Libc) (d : Adf4377Driver σ) (args : List String)
        (b0 : SpiBlocks) (w : σ),
        (ADF4377_Test.main L d args b0 w).verdict = some Verdict.success →
        (ADF4377_Test.main L d args b0 w).ret = 0) := by
  refine ⟨rfl, rfl, rfl, rfl, ?_⟩
  intro σ L d args b0 w
  simp only [ADF4377_Test.main]
  split
  · simp
  · split_ifs <;> simp_all

/-- C20 (code bug): `--spi-device 1` changes the device id of the extra block
only, so ADF4377_Test and ADF4382_Test hand `adf43xx_init` blocks that disagree
on `device_id` (1 in `adf43xx_spi_extra`, 0 in `adf43xx_spi_ip`); the chip
selects do agree after every option loop, and `adf4377_test_init` stores the
endpoint in both blocks. -/
theorem spi_device_option_splits_blocks :
    (ADF4377_Test.main decimal_libc absent_adf4377 ["--spi-device", "1"]
        ⟨0, 0, 0, 0⟩ ()).blocks.extra_device_id = 1
    ∧ (ADF4377_Test.main decimal_libc absent_adf4377 ["--spi-device", "1"]
        ⟨0, 0, 0, 0⟩ ()).blocks.ip_device_id = 0
    ∧ (ADF4377_Test.main decimal_libc absent_adf4377 ["--spi-device", "1"]
        ⟨0, 0, 0, 0⟩ ()).calls.head? = some (Adf4377Call.init ⟨1, 0, 0, 0⟩)
    ∧ (ADF4382_Test.main decimal_libc absent_adf4382 ["--spi-device", "1"]
        ⟨0, 0, 0, 0⟩ ()).blocks.extra_device_id = 1
    ∧ (ADF4382_Test.main decimal_libc absent_adf4382 ["--spi-device", "1"]
        ⟨0, 0, 0, 0⟩ ()).blocks.ip_device_id = 0
    ∧ (ADF4382_Test.main decimal_libc absent_adf4382 ["--spi-device", "1"]
        ⟨0, 0, 0, 0⟩ ()).calls.head? = some (Adf4382TestCall.init ⟨1, 0, 0, 0⟩)
    ∧ (∀ (L : Libc) (args : List String) (b0 b : SpiBlocks),
        b0.extra_chip_select = b0.ip_chip_select → parse_spi_args L args b0 = some b →
        b.extra_chip_select = b.ip_chip_select)
    ∧ (∀ (σ : Type) (d : Adf4377Driver σ) (st : ApiState σ) (spi_device spi_cs : Int),
        (adf4377_test_init d st spi_device spi_cs).2.blocks.extra_device_id
          = (adf4377_test_init d st spi_device spi_cs).2.blocks.ip_device_id
        ∧ (adf4377_test_init d st spi_device spi_cs).2.blocks.extra_chip_select
          = (adf4377_test_init d st spi_device spi_cs).2.blocks.ip_chip_select) := by
  refine ⟨rfl, rfl, rfl, rfl, rfl, rfl, parse_spi_args_chip_select, ?_⟩
  intro σ d st spi_device spi_cs
  exact ⟨rfl, rfl⟩

/-! ## ADF4377 vendor-ID examples -/

/-- The vendor ID assembled from two bytes is 0x0456 exactly for the bytes
0x04 and 0x56. -/
theorem vendor_id_of_eq_0x0456 (msb lsb : Nat) (hm : msb < 256) (hl : lsb < 256) :
    vendor_id_of msb lsb = 0x0456 ↔ msb = 0x04 ∧ lsb = 0x56 := by
  have key : vendor_id_of msb lsb = msb * 256 + lsb := by
    unfold vendor_id_of
    rw [Nat.mod_eq_of_lt hm, Nat.mod_eq_of_lt hl, Nat.shiftLeft_eq]
    have h := Nat.mul_add_lt_is_or (i := 8) (b := lsb) (by simpa using hl) msb
    have e : msb * 2 ^ 8 = 2 ^ 8 * msb := Nat.mul_comm _ _
    rw [e, ← h]
    norm_num
    omega
  rw [key]
  omega

/-- What vendor_id_example.c `example_main` returns: 0 exactly when init and
both reads return 0 and the combined ID equals the constant it is compared
with. -/
theorem vendor_id_example_returns_zero_iff {σ : Type} (d : Adf4377Driver σ) (K : Nat)
    (b : SpiBlocks) (w : σ) :
    (vendor_id_example.example_main d K b w).1 = 0 ↔
      (d.init w none b).1 = 0
      ∧ (d.spi_read (d.init w none b).2.2 ((d.init w none b).2.1.getD 0) 0x0C).1 = 0
      ∧ (d.spi_read
          (d.spi_read (d.init w none b).2.2 ((d.init w none b).2.1.getD 0) 0x0C).2.2
          ((d.init w none b).2.1.getD 0) 0x0D).1 = 0
      ∧ vendor_id_of
          ((d.spi_read
            (d.spi_read (d.init w none b).2.2 ((d.init w none b).2.1.getD 0) 0x0C).2.2
            ((d.init w none b).2.1.getD 0) 0x0D).2.1.getD 0)
          ((d.spi_read (d.init w none b).2.2 ((d.init w none b).2.1.getD 0)
            0x0C).2.1.getD 0) = K := by
  simp only [vendor_id_example.example_main]
  split_ifs <;> simp_all

/-- What minimal_vendor_id_test.c `example_main` returns: 0 exactly when the
allocation succeeds, SPI init does not return a negative code, both reads
return 0 and the combined ID equals 0x0456. -/
theorem minimal_vendor_id_test_returns_zero_iff {σ : Type} (P : Adf4382Platform σ) (s : σ) :
    (minimal_vendor_id_test.example_main P s).1 = 0 ↔
      (P.calloc s).1 = true
      ∧ 0 ≤ (P.spi_init (P.calloc s).2).1
      ∧ (P.spi_read (P.spi_init (P.calloc s).2).2 0x0C).1 = 0
      ∧ (P.spi_read (P.spi_read (P.spi_init (P.calloc s).2).2 0x0C).2.2 0x0D).1 = 0
      ∧ vendor_id_of
          (P.spi_read (P.spi_read (P.spi_init (P.calloc s).2).2 0x0C).2.2 0x0D).2.1
          (P.spi_read (P.spi_init (P.calloc s).2).2 0x0C).2.1 = 0x0456 := by
  simp only [minimal_vendor_id_test.example_main]
  split_ifs <;> simp_all [ENOMEM]
  omega

/-- C14 (code bug): vendor_id_example.c compares the combined 16-bit ID with the
one-byte constant `ADF4377_VENDOR_ID_LSB`. A genuine chip (0x0C reads 0x56,
0x0D reads 0x04, ID 0x0456) is failed with -1, for the header value 0x56 and
for every other one-byte value; a device whose ID is 0x0056 is passed with 0. -/
theorem vendor_id_compared_with_lsb :
    (vendor_id_example.example_main genuine_adf4377 ADF4377_VENDOR_ID_LSB
        ⟨0, 0, 0, 0⟩ ()).1 = -1
    ∧ (∀ K, K < 256 →
        (vendor_id_example.example_main genuine_adf4377 K ⟨0, 0, 0, 0⟩ ()).1 = -1)
    ∧ (vendor_id_example.example_main foreign_adf4377 ADF4377_VENDOR_ID_LSB
        ⟨0, 0, 0, 0⟩ ()).1 = 0
    ∧ vendor_id_of 0x04 0x56 = 0x0456
    ∧ vendor_id_of 0x00 0x56 = 0x0056
    ∧ (minimal_vendor_id_test.example_main
        { calloc := fun s => (true, s), spi_init := fun s => (0, s),
          spi_write := fun s _ _ => (0, s),
          spi_read := fun s reg => (0, if reg = 0x0C then 0x56 else 0x04, s),
          udelay := fun s _ => s, spi_remove := fun s => s, free := fun s => s } ()).1 = 0 := by
  refine ⟨by decide, ?_, by decide, by decide, by decide, by decide⟩
  intro K hK
  have hid : vendor_id_of 0x04 0x56 = 0x0456 := by decide
  have hne : ¬ (vendor_id_of 0x04 0x56 = K) := by rw [hid]; omega
  simp only [vendor_id_example.example_main, genuine_adf4377]
  simp [hne]

/-! ## basic_example.c: release of resources and order of bus operations -/

/-- A run of configuration writes records write events only. -/
theorem write_sequence_events {σ : Type} (P : Adf4382Platform σ) (ws : List (Nat × Nat))
    (s : σ) : ∀ e ∈ (write_sequence P ws s).2.1, ∃ r v, e = BusEvent.write r v := by
  induction ws generalizing s with
  | nil => intro e he; simp [write_sequence] at he
  | cons w rest ih =>
      obtain ⟨reg, val⟩ := w
      intro e he
      simp only [write_sequence] at he
      by_cases h0 : (P.spi_write s reg val).1 = 0
      · simp only [h0, ne_eq, not_true_eq_false, if_false] at he
        rcases List.mem_cons.mp he with h1 | h1
        · exact ⟨reg, val, h1⟩
        · exact ih _ e h1
      · simp only [ne_eq, h0, not_false_eq_true, if_true] at he
        simp at he
        exact ⟨reg, val, he⟩

/-- A run of configuration writes releases nothing. -/
theorem write_sequence_counts {σ : Type} (P : Adf4382Platform σ) (ws : List (Nat × Nat))
    (s : σ) :
    (write_sequence P ws s).2.1.count BusEvent.spi_remove = 0
    ∧ (write_sequence P ws s).2.1.count BusEvent.free = 0 := by
  constructor
  · rw [List.count_eq_zero]
    intro h
    obtain ⟨r, v, e⟩ := write_sequence_events P ws s _ h
    cases e
  · rw [List.count_eq_zero]
    intro h
    obtain ⟨r, v, e⟩ := write_sequence_events P ws s _ h
    cases e

/-- Shape of the event list of example_main once SPI init has succeeded: the
allocation, the SPI init, bus operations, then the release of the SPI
descriptor followed by the release of the device structure. -/
theorem example_main_trace_shape {σ : Type} (H : Adf4382Header) (P : Adf4382Platform σ)
    (spi_3wire_en cmos_3v3 : Bool) (s : σ)
    (halloc : (P.calloc s).1 = true) (hinit : (P.spi_init (P.calloc s).2).1 = 0) :
    ∃ mid, (example_main H P spi_3wire_en cmos_3v3 s).2.1
        = [BusEvent.calloc, BusEvent.spi_init] ++ mid ++ [BusEvent.spi_remove, BusEvent.free]
      ∧ mid.count BusEvent.spi_remove = 0 ∧ mid.count BusEvent.free = 0 := by
  have hc := write_sequence_counts P (config_writes H spi_3wire_en cmos_3v3)
    (P.udelay (P.spi_write (P.spi_init (P.calloc s).2).2 0x00 H.RESET_CMD).2 H.POR_DELAY_US)
  simp only [example_main]
  rw [if_neg (by simp [halloc]), if_neg (by simp [hinit])]
  split_ifs
  · exact ⟨[BusEvent.write 0x00 H.RESET_CMD], by simp [error_spi], by simp, by simp⟩
  · refine ⟨[BusEvent.write 0x00 H.RESET_CMD, BusEvent.udelay H.POR_DELAY_US]
      ++ (write_sequence P (config_writes H spi_3wire_en cmos_3v3)
          (P.udelay (P.spi_write (P.spi_init (P.calloc s).2).2 0x00 H.RESET_CMD).2
            H.POR_DELAY_US)).2.1, by simp [error_spi], ?_, ?_⟩
    · rw [List.count_append, hc.1]; simp
    · rw [List.count_append, hc.2]; simp
  all_goals
    refine ⟨[BusEvent.write 0x00 H.RESET_CMD, BusEvent.udelay H.POR_DELAY_US]
      ++ (write_sequence P (config_writes H spi_3wire_en cmos_3v3)
          (P.udelay (P.spi_write (P.spi_init (P.calloc s).2).2 0x00 H.RESET_CMD).2
            H.POR_DELAY_US)).2.1 ++ [BusEvent.read 0x00A], by simp [error_spi], ?_, ?_⟩
    · rw [List.count_append, List.count_append, hc.1]; simp
    · rw [List.count_append, List.count_append, hc.2]; simp

/-- C16: in example_main of basic_example.c, when SPI init succeeded the SPI
descriptor is released exactly once, immediately before the device structure
is freed, which happens exactly once and last; when the allocation succeeded
but SPI init failed the device structure is freed exactly once and the SPI
descriptor is not released; when the allocation failed nothing is released. -/
theorem resources_released_once {σ : Type} (H : Adf4382Header) (P : Adf4382Platform σ)
    (spi_3wire_en cmos_3v3 : Bool) (s : σ) :
    ((P.calloc s).1 = false →
        (example_main H P spi_3wire_en cmos_3v3 s).2.1 = [BusEvent.calloc])
    ∧ ((P.calloc s).1 = true → (P.spi_init (P.calloc s).2).1 ≠ 0 →
        (example_main H P spi_3wire_en cmos_3v3 s).2.1
          = [BusEvent.calloc, BusEvent.spi_init, BusEvent.free])
    ∧ ((P.calloc s).1 = true → (P.spi_init (P.calloc s).2).1 = 0 →
        (∃ before, (example_main H P spi_3wire_en cmos_3v3 s).2.1
            = before ++ [BusEvent.spi_remove, BusEvent.free]
          ∧ before.count BusEvent.spi_remove = 0 ∧ before.count BusEvent.free = 0)
        ∧ (example_main H P spi_3wire_en cmos_3v3 s).2.1.count BusEvent.spi_remove = 1
        ∧ (example_main H P spi_3wire_en cmos_3v3 s).2.1.count BusEvent.free = 1)
    ∧ ((P.calloc s).1 = false →
        (example_main H P spi_3wire_en cmos_3v3 s).2.1.count BusEvent.spi_remove = 0
        ∧ (example_main H P spi_3wire_en cmos_3v3 s).2.1.count BusEvent.free = 0)
    ∧ ((P.calloc s).1 = true → (P.spi_init (P.calloc s).2).1 ≠ 0 →
        (example_main H P spi_3wire_en cmos_3v3 s).2.1.count BusEvent.spi_remove = 0
        ∧ (example_main H P spi_3wire_en cmos_3v3 s).2.1.count BusEvent.free = 1) := by
  have hfail : (P.calloc s).1 = false →
      (example_main H P spi_3wire_en cmos_3v3 s).2.1 = [BusEvent.calloc] := by
    intro h
    simp [example_main, h]
  have hinitfail : (P.calloc s).1 = true → (P.spi_init (P.calloc s).2).1 ≠ 0 →
      (example_main H P spi_3wire_en cmos_3v3 s).2.1
        = [BusEvent.calloc, BusEvent.spi_init, BusEvent.free] := by
    intro h1 h2
    simp [example_main, h1, h2, error_dev]
  refine ⟨hfail, hinitfail, ?_, ?_, ?_⟩
  · intro h1 h2
    obtain ⟨mid, hshape, hm1, hm2⟩ :=
      example_main_trace_shape H P spi_3wire_en cmos_3v3 s h1 h2
    refine ⟨⟨[BusEvent.calloc, BusEvent.spi_init] ++ mid, hshape, ?_, ?_⟩, ?_, ?_⟩
    · rw [List.count_append, hm1]; decide
    · rw [List.count_append, hm2]; decide
    · rw [hshape, List.count_append, List.count_append, hm1]; decide
    · rw [hshape, List.count_append, List.count_append, hm2]; decide
  · intro h
    rw [hfail h]
    exact ⟨by decide, by decide⟩
  · intro h1 h2
    rw [hinitfail h1 h2]
    exact ⟨by decide, by decide⟩

/-- Stop-at-first-failure issues the operations of the script in order, from
the first one on. -/
theorem run_until_failure_prefix {σ : Type} (P : Adf4382Platform σ) (script : List BusEvent)
    (s : σ) : (run_until_failure P script s).map Prod.fst <+: script := by
  induction script generalizing s with
  | nil => simp [run_until_failure]
  | cons e rest ih =>
      simp only [run_until_failure]
      split_ifs
      · simp
      · simpa using ih (bus_step P s e).2

/-- Every operation issued before another issued operation is the script's
operation at that place and returned 0. -/
theorem run_until_failure_before {σ : Type} (P : Adf4382Platform σ) (script : List BusEvent)
    (s : σ) (k : Nat) (hk : k < (run_until_failure P script s).length) :
    (run_until_failure P script s).take k = (script.take k).map (fun e => (e, (0 : Int))) := by
  induction script generalizing s k with
  | nil => simp [run_until_failure] at hk
  | cons e rest ih =>
      simp only [run_until_failure] at hk ⊢
      split_ifs at hk ⊢ with h
      · have hk0 : k = 0 := by simpa using hk
        subst hk0
        simp
      · cases k with
        | zero => simp
        | succ n =>
            have hn : n < (run_until_failure P rest (bus_step P s e).2).length := by
              simpa using hk
            simp [ih (bus_step P s e).2 n hn]

/-- Stop-at-first-failure ends early only on an operation that returned
non-zero. -/
theorem run_until_failure_stops {σ : Type} (P : Adf4382Platform σ) (script : List BusEvent)
    (s : σ) (hlen : (run_until_failure P script s).length < script.length) :
    ∃ e c, (run_until_failure P script s).getLast? = some (e, c) ∧ c ≠ 0 := by
  induction script generalizing s with
  | nil => simp at hlen
  | cons e rest ih =>
      simp only [run_until_failure] at hlen ⊢
      split_ifs at hlen ⊢ with h
      · exact ⟨e, _, by simp, h⟩
      · have hl : (run_until_failure P rest (bus_step P s e).2).length < rest.length := by
          simpa using hlen
        obtain ⟨e1, c1, h1, h2⟩ := ih (bus_step P s e).2 hl
        refine ⟨e1, c1, ?_, h2⟩
        rw [List.getLast?_cons, h1]
        rfl

/-- The first operation of a script is always issued. -/
theorem run_until_failure_head {σ : Type} (P : Adf4382Platform σ) (e : BusEvent)
    (rest : List BusEvent) (s : σ) :
    ((run_until_failure P (e :: rest) s).map Prod.fst).head? = some e := by
  simp only [run_until_failure]
  split_ifs <;> simp

/-- One step of a run of configuration writes. -/
theorem write_sequence_cons {σ : Type} (P : Adf4382Platform σ) (reg val : Nat)
    (more : List (Nat × Nat)) (s : σ) :
    write_sequence P ((reg, val) :: more) s
      = if (P.spi_write s reg val).1 ≠ 0 then
          ((P.spi_write s reg val).1, [BusEvent.write reg val], (P.spi_write s reg val).2)
        else
          ((write_sequence P more (P.spi_write s reg val).2).1,
           BusEvent.write reg val :: (write_sequence P more (P.spi_write s reg val).2).2.1,
           (write_sequence P more (P.spi_write s reg val).2).2.2) := by
  simp only [write_sequence]

/-- The configuration writes of example_main behave as stop-at-first-failure
on the corresponding part of the script. -/
theorem write_sequence_run {σ : Type} (P : Adf4382Platform σ) (ws : List (Nat × Nat))
    (rest : List BusEvent) (s : σ) :
    (run_until_failure P (ws.map (fun p => BusEvent.write p.1 p.2) ++ rest) s).map Prod.fst
      = if (write_sequence P ws s).1 ≠ 0 then (write_sequence P ws s).2.1
        else (write_sequence P ws s).2.1
          ++ (run_until_failure P rest (write_sequence P ws s).2.2).map Prod.fst := by
  induction ws generalizing s with
  | nil => simp [write_sequence]
  | cons w more ih =>
      obtain ⟨reg, val⟩ := w
      have hih := ih (P.spi_write s reg val).2
      rw [List.map_cons, List.cons_append]
      by_cases h0 : (P.spi_write s reg val).1 = 0
      · have hstep : ¬ (bus_step P s (BusEvent.write reg val)).1 ≠ 0 := by
          simpa [bus_step] using h0
        have hws : write_sequence P ((reg, val) :: more) s
            = ((write_sequence P more (P.spi_write s reg val).2).1,
               BusEvent.write reg val :: (write_sequence P more (P.spi_write s reg val).2).2.1,
               (write_sequence P more (P.spi_write s reg val).2).2.2) := by
          rw [write_sequence_cons, if_neg (by simpa using h0)]
        have hrun : run_until_failure P
            (BusEvent.write reg val :: (more.map (fun p => BusEvent.write p.1 p.2) ++ rest)) s
            = (BusEvent.write reg val, 0) :: run_until_failure P
                (more.map (fun p => BusEvent.write p.1 p.2) ++ rest)
                (P.spi_write s reg val).2 := by
          simp only [run_until_failure]
          rw [if_neg hstep]
          rfl
        rw [hrun, hws, List.map_cons, hih]
        by_cases h1 : (write_sequence P more (P.spi_write s reg val).2).1 = 0
        · simp [h1]
        · simp [h1]
      · have hstep : (bus_step P s (BusEvent.write reg val)).1 ≠ 0 := by
          simpa [bus_step] using h0
        have hws : write_sequence P ((reg, val) :: more) s
            = ((P.spi_write s reg val).1, [BusEvent.write reg val],
               (P.spi_write s reg val).2) := by
          rw [write_sequence_cons, if_pos h0]
        have hrun : run_until_failure P
            (BusEvent.write reg val :: (more.map (fun p => BusEvent.write p.1 p.2) ++ rest)) s
            = [(BusEvent.write reg val, (P.spi_write s reg val).1)] := by
          simp only [run_until_failure]
          rw [if_pos hstep]
          rfl
        rw [hrun, hws]
        simp [h0]

/-- The script of example_main, operation by operation. -/
theorem bus_script_layout (H : Adf4382Header) (spi_3wire_en cmos_3v3 : Bool) :
    bus_script H spi_3wire_en cmos_3v3
      = ([BusEvent.write 0x00 H.RESET_CMD, BusEvent.udelay H.POR_DELAY_US,
          BusEvent.write 0x00 (H.SPI_3W_CFG (!spi_3wire_en)),
          BusEvent.write 0x3D (H.CMOS_OV cmos_3v3)]
          ++ H.reg_defaults.map (fun p => BusEvent.write p.1 p.2)
          ++ [BusEvent.write 0x02E 0x8])
        ++ [BusEvent.write 0x00A H.SPI_SCRATCHPAD_TEST, BusEvent.read 0x00A] := by
  simp [bus_script, config_writes]

/-- The event list of example_main once SPI init has succeeded: the bus part
is stop-at-first-failure over the script. -/
theorem example_main_runs_script {σ : Type} (H : Adf4382Header) (P : Adf4382Platform σ)
    (spi_3wire_en cmos_3v3 : Bool) (s : σ)
    (halloc : (P.calloc s).1 = true) (hinit : (P.spi_init (P.calloc s).2).1 = 0) :
    (example_main H P spi_3wire_en cmos_3v3 s).2.1
      = [BusEvent.calloc, BusEvent.spi_init]
        ++ (run_until_failure P (bus_script H spi_3wire_en cmos_3v3)
            (P.spi_init (P.calloc s).2).2).map Prod.fst
        ++ [BusEvent.spi_remove, BusEvent.free] := by
  have hscript : bus_script H spi_3wire_en cmos_3v3
      = BusEvent.write 0x00 H.RESET_CMD :: BusEvent.udelay H.POR_DELAY_US
        :: ((config_writes H spi_3wire_en cmos_3v3).map (fun p => BusEvent.write p.1 p.2)
            ++ [BusEvent.read 0x00A]) := by
    simp [bus_script]
  rw [hscript]
  simp only [example_main]
  rw [if_neg (by simp [halloc]), if_neg (by simp [hinit])]
  by_cases hr : (P.spi_write (P.spi_init (P.calloc s).2).2 0x00 H.RESET_CMD).1 = 0
  · have hrun : run_until_failure P
        (BusEvent.write 0x00 H.RESET_CMD :: BusEvent.udelay H.POR_DELAY_US
          :: ((config_writes H spi_3wire_en cmos_3v3).map (fun p => BusEvent.write p.1 p.2)
              ++ [BusEvent.read 0x00A])) (P.spi_init (P.calloc s).2).2
        = (BusEvent.write 0x00 H.RESET_CMD, 0) :: (BusEvent.udelay H.POR_DELAY_US, 0)
          :: run_until_failure P
              ((config_writes H spi_3wire_en cmos_3v3).map (fun p => BusEvent.write p.1 p.2)
                ++ [BusEvent.read 0x00A])
              (P.udelay (P.spi_write (P.spi_init (P.calloc s).2).2 0x00 H.RESET_CMD).2
                H.POR_DELAY_US) := by
      simp [run_until_failure, bus_step, hr]
    rw [hrun, List.map_cons, List.map_cons, write_sequence_run, if_neg (by simpa using hr)]
    have hread : ∀ s0 : σ,
        (run_until_failure P [BusEvent.read 0x00A] s0).map Prod.fst = [BusEvent.read 0x00A] := by
      intro s0
      simp only [run_until_failure]
      split_ifs <;> simp
    rw [hread]
    split_ifs <;> simp [error_spi]
  · have hrun : run_until_failure P
        (BusEvent.write 0x00 H.RESET_CMD :: BusEvent.udelay H.POR_DELAY_US
          :: ((config_writes H spi_3wire_en cmos_3v3).map (fun p => BusEvent.write p.1 p.2)
              ++ [BusEvent.read 0x00A])) (P.spi_init (P.calloc s).2).2
        = [(BusEvent.write 0x00 H.RESET_CMD,
            (P.spi_write (P.spi_init (P.calloc s).2).2 0x00 H.RESET_CMD).1)] := by
      simp [run_until_failure, bus_step, hr]
    rw [hrun, if_pos hr]
    simp [error_spi]

/-- C17: in example_main of basic_example.c the bus operations follow one fixed
script - reset write to 0x00, power-on delay, wire-mode write, CMOS write to
0x3D, every entry of `adf4382_reg_defaults` in array order, the MUXOUT write,
the scratchpad write and the scratchpad read-back of 0x00A - and stop at the
first failure: none is issued unless allocation and SPI init succeeded; the
operations issued are an initial part of the script beginning with the reset
write; every operation issued before another one returned 0, so the
scratchpad write is issued only after all the writes before it succeeded; and
the sequence ends early only on an operation that failed. -/
theorem bus_operations_in_order {σ : Type} (H : Adf4382Header) (P : Adf4382Platform σ)
    (spi_3wire_en cmos_3v3 : Bool) (s : σ) :
    ((P.calloc s).1 = false →
        (example_main H P spi_3wire_en cmos_3v3 s).2.1 = [BusEvent.calloc])
    ∧ ((P.calloc s).1 = true → (P.spi_init (P.calloc s).2).1 ≠ 0 →
        (example_main H P spi_3wire_en cmos_3v3 s).2.1
          = [BusEvent.calloc, BusEvent.spi_init, BusEvent.free])
    ∧ ((P.calloc s).1 = true → (P.spi_init (P.calloc s).2).1 = 0 →
        (example_main H P spi_3wire_en cmos_3v3 s).2.1
          = [BusEvent.calloc, BusEvent.spi_init]
            ++ (run_until_failure P (bus_script H spi_3wire_en cmos_3v3)
                (P.spi_init (P.calloc s).2).2).map Prod.fst
            ++ [BusEvent.spi_remove, BusEvent.free])
    ∧ bus_script H spi_3wire_en cmos_3v3
        = ([BusEvent.write 0x00 H.RESET_CMD, BusEvent.udelay H.POR_DELAY_US,
            BusEvent.write 0x00 (H.SPI_3W_CFG (!spi_3wire_en)),
            BusEvent.write 0x3D (H.CMOS_OV cmos_3v3)]
            ++ H.reg_defaults.map (fun p => BusEvent.write p.1 p.2)
            ++ [BusEvent.write 0x02E 0x8])
          ++ [BusEvent.write 0x00A H.SPI_SCRATCHPAD_TEST, BusEvent.read 0x00A]
    ∧ (∀ s0 : σ,
        (run_until_failure P (bus_script H spi_3wire_en cmos_3v3) s0).map Prod.fst
          <+: bus_script H spi_3wire_en cmos_3v3)
    ∧ (∀ s0 : σ,
        ((run_until_failure P (bus_script H spi_3wire_en cmos_3v3) s0).map Prod.fst).head?
          = some (BusEvent.write 0x00 H.RESET_CMD))
    ∧ (∀ (s0 : σ) (k : Nat),
        k < (run_until_failure P (bus_script H spi_3wire_en cmos_3v3) s0).length →
        (run_until_failure P (bus_script H spi_3wire_en cmos_3v3) s0).take k
          = ((bus_script H spi_3wire_en cmos_3v3).take k).map (fun e => (e, (0 : Int))))
    ∧ (∀ s0 : σ,
        5 + H.reg_defaults.length
          < (run_until_failure P (bus_script H spi_3wire_en cmos_3v3) s0).length →
        (run_until_failure P (bus_script H spi_3wire_en cmos_3v3) s0).take
            (5 + H.reg_defaults.length)
          = ([BusEvent.write 0x00 H.RESET_CMD, BusEvent.udelay H.POR_DELAY_US,
              BusEvent.write 0x00 (H.SPI_3W_CFG (!spi_3wire_en)),
              BusEvent.write 0x3D (H.CMOS_OV cmos_3v3)]
              ++ H.reg_defaults.map (fun p => BusEvent.write p.1 p.2)
              ++ [BusEvent.write 0x02E 0x8]).map (fun e => (e, (0 : Int))))
    ∧ (∀ s0 : σ,
        (run_until_failure P (bus_script H spi_3wire_en cmos_3v3) s0).length
          < (bus_script H spi_3wire_en cmos_3v3).length →
        ∃ e c, (run_until_failure P (bus_script H spi_3wire_en cmos_3v3) s0).getLast?
            = some (e, c) ∧ c ≠ 0) := by
  refine ⟨?_, ?_, example_main_runs_script H P spi_3wire_en cmos_3v3 s,
    bus_script_layout H spi_3wire_en cmos_3v3,
    fun s0 => run_until_failure_prefix P _ s0, ?_,
    fun s0 k hk => run_until_failure_before P _ s0 k hk, ?_,
    fun s0 h => run_until_failure_stops P _ s0 h⟩
  · intro h
    simp [example_main, h]
  · intro h1 h2
    simp [example_main, h1, h2, error_dev]
  · intro s0
    rw [bus_script_layout]
    exact run_until_failure_head P _ _ s0
  · intro s0 hk
    rw [run_until_failure_before P _ s0 _ hk, bus_script_layout]
    congr 1
    apply List.take_left'
    simp
    omega

/-! ## spi_mode_test.c, spi_diagnostic.c, test_connections.c -/

/-- A failed run of `test_spi_mode` returns -1 and a completed one returns 1
or 0 according to the final response. -/
theorem test_spi_mode_result {σ : Type} (transfer : σ → List Nat → Option (List Nat) × σ)
    (c : SpidevSetup) (s : σ) :
    (test_spi_mode transfer c s).1 = -1 ∨ (test_spi_mode transfer c s).1 = 0
      ∨ (test_spi_mode transfer c s).1 = 1 := by
  simp only [test_spi_mode]
  split_ifs <;> simp

/-- C18 (code bug): when `/dev/spidev0.0` cannot be opened in any of the four
modes, every `test_spi_mode` returns -1, no frame is sent, and `main` of
spi_mode_test.c still sets `found_response` (prints "SUCCESS"), because it
tests the result for being non-zero; on a bus that answers all zero in every
mode it does not. -/
theorem failed_mode_counts_as_response :
    (test_spi_mode silent_bus no_spidev ()).1 = -1
    ∧ (spi_mode_test.main silent_bus no_spidev no_spidev no_spidev no_spidev ()).2.1 = true
    ∧ (spi_mode_test.main silent_bus no_spidev no_spidev no_spidev no_spidev ()).2.2.1 = []
    ∧ (spi_mode_test.main silent_bus spidev_ready spidev_ready spidev_ready
        spidev_ready ()).2.1 = false
    ∧ (spi_mode_test.main silent_bus spidev_ready no_spidev spidev_ready
        spidev_ready ()).2.1 = true := by
  refine ⟨?_, ?_, ?_, ?_, ?_⟩ <;> decide

/-- C19 (code bug): the frame spi_diagnostic.c and test_connections.c send as
"reset command" is 00 81 00, which in the 3-byte protocol is the write of 0x00
to register 0x0081, not the reset frame 00 00 81 of the other tests; and the
frame they send to "read register 0x00" is 00 00 00, the write of 0x00 to
register 0x0000 with the read flag clear, not 80 00 00. -/
theorem diagnostic_frames_off_protocol :
    spi_diagnostic_frames.get? 1 = some [0x00, 0x81, 0x00]
    ∧ test_connections_frames.get? 6 = some [0x00, 0x81, 0x00]
    ∧ [0x00, 0x81, 0x00] ≠ write_frame 0x0000 0x81
    ∧ write_frame 0x0000 0x81 = [0x00, 0x00, 0x81]
    ∧ vendor_id_test_frames.head? = some (write_frame 0x0000 0x81)
    ∧ [0x00, 0x81, 0x00] = write_frame 0x0081 0x00
    ∧ decode_frame [0x00, 0x81, 0x00]
        = some { read_bit := false, address := 0x0081, data := 0x00 }
    ∧ spi_diagnostic_frames.get? 2 = some [0x00, 0x00, 0x00]
    ∧ test_connections_frames.get? 7 = some [0x00, 0x00, 0x00]
    ∧ [0x00, 0x00, 0x00] ≠ read_frame 0x0000
    ∧ read_frame 0x0000 = [0x80, 0x00, 0x00]
    ∧ decode_frame [0x00, 0x00, 0x00]
        = some { read_bit := false, address := 0x0000, data := 0x00 }
    ∧ (spi_diagnostic_main silent_bus spidev_ready ()).2.1 = spi_diagnostic_frames
    ∧ (test_connections_main silent_bus true ()).2.1 = test_connections_frames := by
  refine ⟨?_, ?_, ?_, ?_, ?_, ?_, ?_, ?_, ?_, ?_, ?_, ?_, ?_, ?_⟩ <;> decide

/-! ## The wire-mode write -/

/-- C21 (code bug): the programs that announce "Configuring SPI to 4-wire mode"
do not write the same value to register 0x0000. skip_scratchpad_test.c sends
00 00 18, the write frame of the value basic_example.c writes (the first
configuration write is `ADF4382_SPI_3W_CFG(true)` to register 0x00 when
`spi_3wire_en` is false, 0x18 with both SDO-active bits set); vendor_id_test.c
sends 00 00 08, which sets one of the two bits only, and spi_mode_test.c sends
00 00 00, which sets neither. The three frames are pairwise different. -/
theorem wire_mode_frames_differ :
    vendor_id_test_frames[2]? = some vendor_id_test_wire_mode
    ∧ skip_scratchpad_test_frames[2]? = some skip_scratchpad_test_wire_mode
    ∧ test_spi_mode_frames[1]? = some test_spi_mode_wire_mode
    ∧ (∀ (H : Adf4382Header) (cmos_3v3 : Bool),
        (config_writes H false cmos_3v3).head? = some (0x00, H.SPI_3W_CFG true))
    ∧ (∀ H : Adf4382Header, H.SPI_3W_CFG true = 0x18 →
        write_frame 0x00 (H.SPI_3W_CFG true) = skip_scratchpad_test_wire_mode
        ∧ write_frame 0x00 (H.SPI_3W_CFG true) ≠ vendor_id_test_wire_mode
        ∧ write_frame 0x00 (H.SPI_3W_CFG true) ≠ test_spi_mode_wire_mode)
    ∧ vendor_id_test_wire_mode ≠ skip_scratchpad_test_wire_mode
    ∧ test_spi_mode_wire_mode ≠ skip_scratchpad_test_wire_mode
    ∧ vendor_id_test_wire_mode ≠ test_spi_mode_wire_mode
    ∧ decode_frame vendor_id_test_wire_mode
        = some { read_bit := false, address := 0x0000, data := 0x08 }
    ∧ decode_frame skip_scratchpad_test_wire_mode
        = some { read_bit := false, address := 0x0000, data := 0x18 }
    ∧ decode_frame test_spi_mode_wire_mode
        = some { read_bit := false, address := 0x0000, data := 0x00 }
    ∧ 0x08 &&& 0x18 = 0x08 ∧ 0x00 &&& 0x18 = 0x00 := by
  refine ⟨by decide, by decide, by decide, ?_, ?_, by decide, by decide, by decide,
    by decide, by decide, by decide, by decide, by decide⟩
  · intro H cmos_3v3
    simp [config_writes]
  · intro H h
    rw [h]
    refine ⟨by decide, by decide, by decide⟩

/-! ## Update tools: the option loop on option/value pairs -/

/-- The option loop consumes a run of value-taking options with their values
pair by pair, recording each, and goes on with what follows. -/
theorem parse_update_args_pairs (L : Libc) (ps : List (String × String))
    (hps : ∀ p ∈ ps, p.1 ∈ value_options) (tail : List String) (o : UpdateOptions) :
    parse_update_args L (pairs_args ps ++ tail) o
      = parse_update_args L tail (ps.foldl (record_option L) o) := by
  induction ps generalizing o with
  | nil => rfl
  | cons p ps ih =>
      have hp := hps p (List.mem_cons_self _ _)
      have hrest : ∀ q ∈ ps, q.1 ∈ value_options :=
        fun q hq => hps q (List.mem_cons_of_mem _ hq)
      simp only [pairs_args, List.cons_append, List.foldl_cons]
      rw [← ih hrest]
      simp only [value_options, List.mem_cons, List.mem_singleton, List.not_mem_nil,
        or_false] at hp
      rcases hp with h | h | h | h | h <;> simp [parse_update_args, record_option, h]

/-- A run of `--spi-device` options requests no update. -/
theorem foldl_spi_device_only (L : Libc) (ps : List (String × String))
    (hps : ∀ p ∈ ps, p.1 = "--spi-device") (o : UpdateOptions) :
    (ps.foldl (record_option L) o).freq_set = o.freq_set
    ∧ (ps.foldl (record_option L) o).cp_set = o.cp_set
    ∧ (ps.foldl (record_option L) o).bleed_set = o.bleed_set
    ∧ (ps.foldl (record_option L) o).phase_set = o.phase_set := by
  induction ps generalizing o with
  | nil => exact ⟨rfl, rfl, rfl, rfl⟩
  | cons p ps ih =>
      have hp := hps p (List.mem_cons_self _ _)
      have hrest : ∀ q ∈ ps, q.1 = "--spi-device" :=
        fun q hq => hps q (List.mem_cons_of_mem _ hq)
      simp only [List.foldl_cons]
      have e := ih hrest (record_option L o p)
      simpa [record_option, hp] using e

/-- What the `main` functions of both update tools do when the option loop
ends in `return 1` or `return 0`, or requests no update: they return without
touching the globals. -/
theorem main_early_exit {σ : Type} (L : Libc) (d : Adf4382Driver σ)
    (dlopen_ok symbols_ok : Bool) (args : List String) (w : σ) :
    ((∃ a, parse_update_args L args UpdateOptions.start = ParseOutcome.unknown a) →
      update_adf4382.main L d dlopen_ok symbols_ok args w = (1, update_adf4382.start w)
      ∧ update_adf4382_static.main L d args w = (1, update_adf4382_static.start w))
    ∧ (parse_update_args L args UpdateOptions.start = ParseOutcome.help →
      update_adf4382.main L d dlopen_ok symbols_ok args w = (0, update_adf4382.start w)
      ∧ update_adf4382_static.main L d args w = (0, update_adf4382_static.start w))
    ∧ (∀ o, parse_update_args L args UpdateOptions.start = ParseOutcome.run o →
      o.freq_set = false → o.cp_set = false → o.bleed_set = false → o.phase_set = false →
      update_adf4382.main L d dlopen_ok symbols_ok args w = (1, update_adf4382.start w)
      ∧ update_adf4382_static.main L d args w = (1, update_adf4382_static.start w)) := by
  refine ⟨?_, ?_, ?_⟩
  · rintro ⟨a, h⟩
    simp [update_adf4382.main, update_adf4382_static.main, h]
  · intro h
    simp [update_adf4382.main, update_adf4382_static.main, h]
  · intro o h h1 h2 h3 h4
    simp [update_adf4382.main, update_adf4382_static.main, h, h1, h2, h3, h4]

/-- Every command line is a run of value-taking options with their values,
followed by nothing, by an argument that is no value-taking option, or by one
last value-taking option without a value. -/
theorem command_line_shape (args : List String) :
    ∃ ps : List (String × String), (∀ p ∈ ps, p.1 ∈ value_options)
      ∧ (args = pairs_args ps
        ∨ (∃ (x : String) (rest : List String), x ∉ value_options
            ∧ args = pairs_args ps ++ x :: rest)
        ∨ (∃ x : String, x ∈ value_options ∧ args = pairs_args ps ++ [x])) := by
  have key : ∀ (n : Nat) (args : List String), args.length ≤ n →
      ∃ ps : List (String × String), (∀ p ∈ ps, p.1 ∈ value_options)
        ∧ (args = pairs_args ps
          ∨ (∃ (x : String) (rest : List String), x ∉ value_options
              ∧ args = pairs_args ps ++ x :: rest)
          ∨ (∃ x : String, x ∈ value_options ∧ args = pairs_args ps ++ [x])) := by
    intro n
    induction n with
    | zero =>
        intro args h
        have h0 : args = [] := List.length_eq_zero.mp (Nat.le_zero.mp h)
        exact ⟨[], by simp, Or.inl (by rw [h0]; rfl)⟩
    | succ n ih =>
        intro args h
        cases args with
        | nil => exact ⟨[], by simp, Or.inl rfl⟩
        | cons a t =>
            by_cases ha : a ∈ value_options
            · cases t with
              | nil => exact ⟨[], by simp, Or.inr (Or.inr ⟨a, ha, rfl⟩)⟩
              | cons v r =>
                  have hr : r.length ≤ n := by
                    simp only [List.length_cons] at h
                    omega
                  obtain ⟨ps, hps, hshape⟩ := ih r hr
                  refine ⟨(a, v) :: ps, ?_, ?_⟩
                  · intro p hp
                    rcases List.mem_cons.mp hp with h1 | h1
                    · rw [h1]; exact ha
                    · exact hps p h1
                  · rcases hshape with h1 | ⟨x, rest, hx, h1⟩ | ⟨x, hx, h1⟩
                    · exact Or.inl (by rw [h1]; rfl)
                    · exact Or.inr (Or.inl ⟨x, rest, hx, by rw [h1]; rfl⟩)
                    · exact Or.inr (Or.inr ⟨x, hx, by rw [h1]; rfl⟩)
            · exact ⟨[], by simp, Or.inr (Or.inl ⟨a, t, ha, rfl⟩)⟩
  exact key args.length args (le_refl _)

/-- C22 fails on the code: an argument that follows a value-taking option is
taken as that option's value, whatever it is. On `--freq --bogus` the
unrecognised `--bogus`, on `--freq --cp-i` the valueless `--cp-i` and on
`--cp-i --help` the `--help` are values: both tools initialise the device, call
the setter with 0, remove the device and return 0. -/
theorem value_position_swallows_options :
    (update_adf4382.main decimal_libc willing_driver true true ["--freq", "--bogus"] ()).1 = 0
    ∧ (update_adf4382.main decimal_libc willing_driver true true
        ["--freq", "--bogus"] ()).2.calls
        = [Adf4382Call.init 0, Adf4382Call.set_rfout 1 0, Adf4382Call.remove 1]
    ∧ (update_adf4382.main decimal_libc willing_driver true true ["--freq", "--cp-i"] ()).1 = 0
    ∧ (update_adf4382.main decimal_libc willing_driver true true
        ["--freq", "--cp-i"] ()).2.calls
        = [Adf4382Call.init 0, Adf4382Call.set_rfout 1 0, Adf4382Call.remove 1]
    ∧ (update_adf4382.main decimal_libc willing_driver true true ["--cp-i", "--help"] ()).1 = 0
    ∧ (update_adf4382.main decimal_libc willing_driver true true
        ["--cp-i", "--help"] ()).2.calls
        = [Adf4382Call.init 0, Adf4382Call.set_cp_i 1 0, Adf4382Call.remove 1]
    ∧ (update_adf4382_static.main decimal_libc willing_driver ["--freq", "--bogus"] ()).1 = 0
    ∧ (update_adf4382_static.main decimal_libc willing_driver ["--freq", "--bogus"] ()).2.calls
        = [Adf4382Call.init 0, Adf4382Call.set_rfout 1 0, Adf4382Call.remove 1]
    ∧ (update_adf4382_static.main decimal_libc willing_driver ["--freq", "--cp-i"] ()).1 = 0
    ∧ (update_adf4382_static.main decimal_libc willing_driver ["--freq", "--cp-i"] ()).2.calls
        = [Adf4382Call.init 0, Adf4382Call.set_rfout 1 0, Adf4382Call.remove 1]
    ∧ (update_adf4382_static.main decimal_libc willing_driver ["--cp-i", "--help"] ()).1 = 0
    ∧ (update_adf4382_static.main decimal_libc willing_driver ["--cp-i", "--help"] ()).2.calls
        = [Adf4382Call.init 0, Adf4382Call.set_cp_i 1 0, Adf4382Call.remove 1] := by
  refine ⟨?_, ?_, ?_, ?_, ?_, ?_, ?_, ?_, ?_, ?_, ?_, ?_⟩ <;> decide

/-- C22 as amended: the option loop reads the command line from the left, and
an argument that follows a value-taking option (`--spi-device`, `--freq`,
`--cp-i`, `--bleed`, `--phase`) is that option's value, whatever it is. After
any run `ps` of value-taking options with their values, both update tools
return before the library is loaded, the device initialised or any driver call
made (the globals are those of program start: no library handle, no device
handle, no driver call, the outside world as it was): with 1 when the command
line ends there and names no parameter to update (it is empty or holds
`--spi-device` options only), when the next argument is no recognised option,
and when the next argument is a value-taking option that ends the command
line; with 0 when the next argument is `--help` or `-h`. Every command line has
one of these shapes: a run of value-taking options with their values, followed
by nothing, by an argument that is no value-taking option, or by one last
value-taking option. -/
theorem early_exit_without_driver_call {σ : Type} (L : Libc) (d : Adf4382Driver σ)
    (dlopen_ok symbols_ok : Bool) (w : σ) (ps : List (String × String))
    (hps : ∀ p ∈ ps, p.1 ∈ value_options) :
    ((∀ p ∈ ps, p.1 = "--spi-device") →
      update_adf4382.main L d dlopen_ok symbols_ok (pairs_args ps) w
        = (1, update_adf4382.start w)
      ∧ update_adf4382_static.main L d (pairs_args ps) w = (1, update_adf4382_static.start w))
    ∧ (∀ (x : String) (rest : List String), x ∉ value_options → x ≠ "--help" → x ≠ "-h" →
      update_adf4382.main L d dlopen_ok symbols_ok (pairs_args ps ++ x :: rest) w
        = (1, update_adf4382.start w)
      ∧ update_adf4382_static.main L d (pairs_args ps ++ x :: rest) w
        = (1, update_adf4382_static.start w))
    ∧ (∀ x : String, x ∈ value_options →
      update_adf4382.main L d dlopen_ok symbols_ok (pairs_args ps ++ [x]) w
        = (1, update_adf4382.start w)
      ∧ update_adf4382_static.main L d (pairs_args ps ++ [x]) w
        = (1, update_adf4382_static.start w))
    ∧ (∀ (x : String) (rest : List String), x = "--help" ∨ x = "-h" →
      update_adf4382.main L d dlopen_ok symbols_ok (pairs_args ps ++ x :: rest) w
        = (0, update_adf4382.start w)
      ∧ update_adf4382_static.main L d (pairs_args ps ++ x :: rest) w
        = (0, update_adf4382_static.start w))
    ∧ (update_adf4382.start w).lib_handle = false
    ∧ (update_adf4382.start w).adf4382_dev = none
    ∧ (update_adf4382.start w).calls = []
    ∧ (update_adf4382.start w).world = w
    ∧ (update_adf4382_static.start w).adf4382_dev = none
    ∧ (update_adf4382_static.start w).calls = []
    ∧ (update_adf4382_static.start w).world = w
    ∧ (∀ args : List String,
        ∃ qs : List (String × String), (∀ p ∈ qs, p.1 ∈ value_options)
          ∧ (args = pairs_args qs
            ∨ (∃ (x : String) (rest : List String), x ∉ value_options
                ∧ args = pairs_args qs ++ x :: rest)
            ∨ (∃ x : String, x ∈ value_options ∧ args = pairs_args qs ++ [x]))) := by
  refine ⟨?_, ?_, ?_, ?_, rfl, rfl, rfl, rfl, rfl, rfl, rfl, command_line_shape⟩
  · intro hspi
    have hp := parse_update_args_pairs L ps hps [] UpdateOptions.start
    rw [List.append_nil] at hp
    obtain ⟨f1, f2, f3, f4⟩ := foldl_spi_device_only L ps hspi UpdateOptions.start
    exact (main_early_exit L d dlopen_ok symbols_ok (pairs_args ps) w).2.2 _ hp f1 f2 f3 f4
  · intro x rest hx h1 h2
    simp only [value_options, List.mem_cons, List.mem_singleton, List.not_mem_nil,
      or_false, not_or] at hx
    obtain ⟨n1, n2, n3, n4, n5⟩ := hx
    apply (main_early_exit L d dlopen_ok symbols_ok _ w).1
    refine ⟨x, ?_⟩
    rw [parse_update_args_pairs L ps hps]
    cases rest with
    | nil => simp [parse_update_args, h1, h2]
    | cons v r => simp [parse_update_args, n1, n2, n3, n4, n5, h1, h2]
  · intro x hx
    apply (main_early_exit L d dlopen_ok symbols_ok _ w).1
    refine ⟨x, ?_⟩
    rw [parse_update_args_pairs L ps hps]
    simp only [value_options, List.mem_cons, List.mem_singleton, List.not_mem_nil,
      or_false] at hx
    rcases hx with h | h | h | h | h <;> simp [parse_update_args, h]
  · intro x rest hx
    apply (main_early_exit L d dlopen_ok symbols_ok _ w).2.1
    rw [parse_update_args_pairs L ps hps]
    cases rest with
    | nil => rcases hx with h | h <;> simp [parse_update_args, h]
    | cons v r => rcases hx with h | h <;> simp [parse_update_args, h]

/-- Instance of `early_exit_without_driver_call`: `--spi-device 1 --cp-i` ends
with a value-taking option without a value, and `--spi-device 1 -h` asks for
help. -/
theorem early_exit_without_driver_call_witness :
    (∀ p ∈ [("--spi-device", "1")], p.1 ∈ value_options)
    ∧ update_adf4382.main decimal_libc willing_driver true true ["--spi-device", "1", "--cp-i"] ()
        = (1, update_adf4382.start ())
    ∧ update_adf4382_static.main decimal_libc willing_driver ["--spi-device", "1", "-h"] ()
        = (0, update_adf4382_static.start ()) :=
  ⟨by decide,
   ((early_exit_without_driver_call decimal_libc willing_driver true true ()
      [("--spi-device", "1")] (by decide)).2.2.1 "--cp-i" (by decide)).1,
   ((early_exit_without_driver_call decimal_libc willing_driver true true ()
      [("--spi-device", "1")] (by decide)).2.2.2.1 "-h" [] (Or.inr rfl)).2⟩

/-! ## Update tools: what a command line requests -/

/-- The value given last, after one more pair. -/
theorem last_value_append (ps : List (String × String)) (p : String × String) (name : String) :
    last_value (ps ++ [p]) name = if p.1 = name then some p.2 else last_value ps name := by
  unfold last_value
  rw [List.reverse_append]
  simp only [List.reverse_cons, List.reverse_nil, List.nil_append, List.singleton_append,
    List.find?_cons]
  by_cases h : p.1 = name
  · simp [h]
  · simp [h]

/-- An option that occurs has a last value. -/
theorem last_value_isSome (ps : List (String × String)) (p : String × String) (hp : p ∈ ps) :
    (last_value ps p.1).isSome = true := by
  unfold last_value
  have h : (List.find? (fun q => decide (q.1 = p.1)) ps.reverse).isSome = true := by
    rw [List.find?_isSome]
    exact ⟨p, List.mem_reverse.mpr hp, by simp⟩
  cases hf : List.find? (fun q => decide (q.1 = p.1)) ps.reverse with
  | none => rw [hf] at h; simp at h
  | some x => simp

/-- The option loop records, for each option, the value given last: running it
over option/value pairs from the initial values gives what the command line
requests option by option. -/
theorem foldl_record_option (L : Libc) (ps : List (String × String))
    (hps : ∀ p ∈ ps, p.1 ∈ value_options) :
    ps.foldl (record_option L) UpdateOptions.start = requested_options L ps := by
  induction ps using List.reverseRecOn with
  | nil => rfl
  | append_singleton ps p ih =>
      have hp := hps p (by simp)
      have hrest : ∀ q ∈ ps, q.1 ∈ value_options := fun q hq => hps q (by simp [hq])
      rw [List.foldl_append, List.foldl_cons, List.foldl_nil, ih hrest]
      simp only [value_options, List.mem_cons, List.mem_singleton, List.not_mem_nil,
        or_false] at hp
      rcases hp with h | h | h | h | h <;>
        simp [record_option, requested_options, last_value_append, h]

/-- The option loop on a command line of option/value pairs ends with all
arguments consumed and the requested options recorded. -/
theorem parse_update_args_requested (L : Libc) (ps : List (String × String))
    (hps : ∀ p ∈ ps, p.1 ∈ value_options) :
    parse_update_args L (pairs_args ps) UpdateOptions.start
      = ParseOutcome.run (requested_options L ps) := by
  have h := parse_update_args_pairs L ps hps [] UpdateOptions.start
  rw [List.append_nil, foldl_record_option L ps hps] at h
  exact h

/-- A command line that names a parameter requests an update. -/
theorem requested_some (L : Libc) (ps : List (String × String))
    (hps : ∀ p ∈ ps, p.1 ∈ value_options) (hreq : ∃ p ∈ ps, p.1 ≠ "--spi-device") :
    ((requested_options L ps).freq_set = true ∨ (requested_options L ps).cp_set = true
      ∨ (requested_options L ps).bleed_set = true
      ∨ (requested_options L ps).phase_set = true) := by
  obtain ⟨p, hp, hne⟩ := hreq
  have hv := hps p hp
  have hs := last_value_isSome ps p hp
  simp only [value_options, List.mem_cons, List.mem_singleton, List.not_mem_nil,
    or_false] at hv
  rcases hv with h | h | h | h | h
  · exact absurd h hne
  · left; rw [h] at hs; exact hs
  · right; left; rw [h] at hs; exact hs
  · right; right; left; rw [h] at hs; exact hs
  · right; right; right; rw [h] at hs; exact hs

/-! ## Update tools: the updates against the reference behaviour -/

/-- A result whose code is 0 is the pair of 0 and its state. -/
theorem result_eta {α : Type} (r : Int × α) : (if r.1 = 0 then (0, r.2) else r) = r := by
  split_ifs with h
  · exact Prod.ext h.symm rfl
  · rfl

/-- The "Apply parameter updates" part of update_adf4382.c serves the requested
updates in the fixed order and stops at the first failure. -/
theorem apply_updates_reference_dyn {σ : Type} (d : Adf4382Driver σ) (st : DynToolState σ)
    (o : UpdateOptions) :
    update_adf4382.apply_updates d st o
      = update_adf4382.apply_until_failure d st (requested_updates o) := by
  unfold update_adf4382.apply_updates requested_updates
  cases o.freq_set <;> cases o.cp_set <;> cases o.bleed_set <;> cases o.phase_set <;>
    simp [update_adf4382.apply_until_failure, update_adf4382.apply_update, result_eta]

/-- The "Apply parameter updates" part of update_adf4382_static.c serves the
requested updates in the fixed order and stops at the first failure. -/
theorem apply_updates_reference_static {σ : Type} (d : Adf4382Driver σ) (st : ToolState σ)
    (o : UpdateOptions) :
    update_adf4382_static.apply_updates d st o
      = update_adf4382_static.apply_until_failure d st (requested_updates o) := by
  unfold update_adf4382_static.apply_updates requested_updates
  cases o.freq_set <;> cases o.cp_set <;> cases o.bleed_set <;> cases o.phase_set <;>
    simp [update_adf4382_static.apply_until_failure, update_adf4382_static.apply_update, result_eta]

/-- Serving a list of requests in two parts (update_adf4382.c): the second part is served
only when the first ended without a failure. -/
theorem apply_until_failure_append_dyn {σ : Type} (d : Adf4382Driver σ)
    (pre us : List UpdateRequest) (st : DynToolState σ) :
    update_adf4382.apply_until_failure d st (pre ++ us)
      = if (update_adf4382.apply_until_failure d st pre).1 ≠ 0 then
          update_adf4382.apply_until_failure d st pre
        else update_adf4382.apply_until_failure d (update_adf4382.apply_until_failure d st pre).2 us := by
  induction pre generalizing st with
  | nil => simp [update_adf4382.apply_until_failure]
  | cons u pre ih =>
      simp only [List.cons_append, update_adf4382.apply_until_failure]
      by_cases h : (update_adf4382.apply_update d st u).1 ≠ 0
      · simp only [if_pos h]
      · simp only [if_neg h]
        exact ih _

/-- The first request that fails ends the sequence (update_adf4382.c): the result is the
result of its setter, and no later request is served. -/
theorem apply_until_failure_stops_dyn {σ : Type} (d : Adf4382Driver σ)
    (pre post : List UpdateRequest) (u : UpdateRequest) (st : DynToolState σ)
    (hpre : (update_adf4382.apply_until_failure d st pre).1 = 0)
    (hu : (update_adf4382.apply_update d (update_adf4382.apply_until_failure d st pre).2 u).1 ≠ 0) :
    update_adf4382.apply_until_failure d st (pre ++ u :: post)
      = update_adf4382.apply_update d (update_adf4382.apply_until_failure d st pre).2 u := by
  rw [apply_until_failure_append_dyn]
  have h0 : ¬ (update_adf4382.apply_until_failure d st pre).1 ≠ 0 := by simp [hpre]
  rw [if_neg h0]
  simp only [update_adf4382.apply_until_failure]
  rw [if_pos hu]

/-- The sequence ends with 0 exactly when every request, served in the state
its predecessors left, succeeded (update_adf4382.c). -/
theorem apply_until_failure_zero_iff_dyn {σ : Type} (d : Adf4382Driver σ)
    (us : List UpdateRequest) (st : DynToolState σ) :
    (update_adf4382.apply_until_failure d st us).1 = 0 ↔
      ∀ (pre post : List UpdateRequest) (u : UpdateRequest), us = pre ++ u :: post →
        (update_adf4382.apply_update d (update_adf4382.apply_until_failure d st pre).2 u).1 = 0 := by
  constructor
  · intro h pre post u hus
    subst hus
    rw [apply_until_failure_append_dyn] at h
    by_cases hp : (update_adf4382.apply_until_failure d st pre).1 ≠ 0
    · rw [if_pos hp] at h
      exact absurd h hp
    · rw [if_neg hp] at h
      simp only [update_adf4382.apply_until_failure] at h
      by_cases hu : (update_adf4382.apply_update d (update_adf4382.apply_until_failure d st pre).2 u).1 ≠ 0
      · rw [if_pos hu] at h
        exact absurd h hu
      · simpa using hu
  · intro h
    induction us using List.reverseRecOn with
    | nil => rfl
    | append_singleton us u ih =>
        have hpre : (update_adf4382.apply_until_failure d st us).1 = 0 := by
          apply ih
          intro pre post u2 hus
          exact h pre (post ++ [u]) u2 (by rw [hus]; simp)
        have hu := h us [] u rfl
        rw [apply_until_failure_append_dyn]
        have h0 : ¬ (update_adf4382.apply_until_failure d st us).1 ≠ 0 := by simp [hpre]
        rw [if_neg h0]
        simp only [update_adf4382.apply_until_failure]
        have h1 : ¬ (update_adf4382.apply_update d (update_adf4382.apply_until_failure d st us).2 u).1 ≠ 0 := by
          simp [hu]
        rw [if_neg h1]

/-- Serving a list of requests in two parts (update_adf4382_static.c): the second part is served
only when the first ended without a failure. -/
theorem apply_until_failure_append_static {σ : Type} (d : Adf4382Driver σ)
    (pre us : List UpdateRequest) (st : ToolState σ) :
    update_adf4382_static.apply_until_failure d st (pre ++ us)
      = if (update_adf4382_static.apply_until_failure d st pre).1 ≠ 0 then
          update_adf4382_static.apply_until_failure d st pre
        else update_adf4382_static.apply_until_failure d (update_adf4382_static.apply_until_failure d st pre).2 us := by
  induction pre generalizing st with
  | nil => simp [update_adf4382_static.apply_until_failure]
  | cons u pre ih =>
      simp only [List.cons_append, update_adf4382_static.apply_until_failure]
      by_cases h : (update_adf4382_static.apply_update d st u).1 ≠ 0
      · simp only [if_pos h]
      · simp only [if_neg h]
        exact ih _

/-- The first request that fails ends the sequence (update_adf4382_static.c): the result is the
result of its setter, and no later request is served. -/
theorem apply_until_failure_stops_static {σ : Type} (d : Adf4382Driver σ)
    (pre post : List UpdateRequest) (u : UpdateRequest) (st : ToolState σ)
    (hpre : (update_adf4382_static.apply_until_failure d st pre).1 = 0)
    (hu : (update_adf4382_static.apply_update d (update_adf4382_static.apply_until_failure d st pre).2 u).1 ≠ 0) :
    update_adf4382_static.apply_until_failure d st (pre ++ u :: post)
      = update_adf4382_static.apply_update d (update_adf4382_static.apply_until_failure d st pre).2 u := by
  rw [apply_until_failure_append_static]
  have h0 : ¬ (update_adf4382_static.apply_until_failure d st pre).1 ≠ 0 := by simp [hpre]
  rw [if_neg h0]
  simp only [update_adf4382_static.apply_until_failure]
  rw [if_pos hu]

/-- The sequence ends with 0 exactly when every request, served in the state
its predecessors left, succeeded (update_adf4382_static.c). -/
theorem apply_until_failure_zero_iff_static {σ : Type} (d : Adf4382Driver σ)
    (us : List UpdateRequest) (st : ToolState σ) :
    (update_adf4382_static.apply_until_failure d st us).1 = 0 ↔
      ∀ (pre post : List UpdateRequest) (u : UpdateRequest), us = pre ++ u :: post →
        (update_adf4382_static.apply_update d (update_adf4382_static.apply_until_failure d st pre).2 u).1 = 0 := by
  constructor
  · intro h pre post u hus
    subst hus
    rw [apply_until_failure_append_static] at h
    by_cases hp : (update_adf4382_static.apply_until_failure d st pre).1 ≠ 0
    · rw [if_pos hp] at h
      exact absurd h hp
    · rw [if_neg hp] at h
      simp only [update_adf4382_static.apply_until_failure] at h
      by_cases hu : (update_adf4382_static.apply_update d (update_adf4382_static.apply_until_failure d st pre).2 u).1 ≠ 0
      · rw [if_pos hu] at h
        exact absurd h hu
      · simpa using hu
  · intro h
    induction us using List.reverseRecOn with
    | nil => rfl
    | append_singleton us u ih =>
        have hpre : (update_adf4382_static.apply_until_failure d st us).1 = 0 := by
          apply ih
          intro pre post u2 hus
          exact h pre (post ++ [u]) u2 (by rw [hus]; simp)
        have hu := h us [] u rfl
        rw [apply_until_failure_append_static]
        have h0 : ¬ (update_adf4382_static.apply_until_failure d st us).1 ≠ 0 := by simp [hpre]
        rw [if_neg h0]
        simp only [update_adf4382_static.apply_until_failure]
        have h1 : ¬ (update_adf4382_static.apply_update d (update_adf4382_static.apply_until_failure d st us).2 u).1 ≠ 0 := by
          simp [hu]
        rw [if_neg h1]

/-! ## Update tools: the result of `main` on a command line that requests updates -/

/-- The requested updates come in the fixed order, each kind at most once. -/
theorem requested_updates_ordered (o : UpdateOptions) :
    (requested_updates o).Pairwise (fun a b => a.rank < b.rank) := by
  unfold requested_updates
  cases o.freq_set <;> cases o.cp_set <;> cases o.bleed_set <;> cases o.phase_set <;>
    simp [UpdateRequest.rank]

/-- What the command line requests depends on the last value of each option
only. -/
theorem requested_options_congr (L : Libc) (ps ps2 : List (String × String))
    (h : ∀ name ∈ value_options, last_value ps2 name = last_value ps name) :
    requested_options L ps2 = requested_options L ps := by
  unfold requested_options
  rw [h "--spi-device" (by decide), h "--freq" (by decide), h "--cp-i" (by decide),
    h "--bleed" (by decide), h "--phase" (by decide)]

/-- Function `main` of update_adf4382.c on a command line that requests at
least one update: it returns 0 exactly when the library loads, `init_adf4382`
returns 0 and the updates end without a failure, and after a successful
initialisation it ends with `cleanup` on the state the updates left. -/
theorem main_result_dyn {σ : Type} (L : Libc) (d : Adf4382Driver σ)
    (dlopen_ok symbols_ok : Bool) (args : List String) (w : σ) (o : UpdateOptions)
    (hparse : parse_update_args L args UpdateOptions.start = ParseOutcome.run o)
    (hsome : o.freq_set = true ∨ o.cp_set = true ∨ o.bleed_set = true ∨ o.phase_set = true) :
    ((update_adf4382.main L d dlopen_ok symbols_ok args w).1 = 0 ↔
      dlopen_ok = true ∧ symbols_ok = true
      ∧ (update_adf4382.init_adf4382 d { update_adf4382.start w with lib_handle := true }
          o.spi_device_id).1 = 0
      ∧ (update_adf4382.apply_updates d
          (update_adf4382.init_adf4382 d { update_adf4382.start w with lib_handle := true }
            o.spi_device_id).2 o).1 = 0)
    ∧ (dlopen_ok = true → symbols_ok = true →
        (update_adf4382.init_adf4382 d { update_adf4382.start w with lib_handle := true }
          o.spi_device_id).1 = 0 →
        (update_adf4382.main L d dlopen_ok symbols_ok args w).2
          = update_adf4382.cleanup d (update_adf4382.apply_updates d
              (update_adf4382.init_adf4382 d { update_adf4382.start w with lib_handle := true }
                o.spi_device_id).2 o).2)
    ∧ ((update_adf4382.main L d dlopen_ok symbols_ok args w).1 = 0
        ∨ (update_adf4382.main L d dlopen_ok symbols_ok args w).1 = 1) := by
  have hflags : (!o.freq_set && !o.cp_set && !o.bleed_set && !o.phase_set) = false := by
    rcases hsome with h | h | h | h <;> simp [h]
  simp only [update_adf4382.main, hparse, hflags]
  cases dlopen_ok <;> cases symbols_ok
  · simp [update_adf4382.load_adf4382_library]
  · simp [update_adf4382.load_adf4382_library]
  · simp [update_adf4382.load_adf4382_library]
  · simp [update_adf4382.load_adf4382_library]
    split_ifs <;> simp_all

/-- Function `main` of update_adf4382_static.c on a command line that requests
at least one update: it returns 0 exactly when `init_adf4382` returns 0 and
the updates end without a failure, and after a successful initialisation it
ends with `cleanup` on the state the updates left. -/
theorem main_result_static {σ : Type} (L : Libc) (d : Adf4382Driver σ)
    (args : List String) (w : σ) (o : UpdateOptions)
    (hparse : parse_update_args L args UpdateOptions.start = ParseOutcome.run o)
    (hsome : o.freq_set = true ∨ o.cp_set = true ∨ o.bleed_set = true ∨ o.phase_set = true) :
    ((update_adf4382_static.main L d args w).1 = 0 ↔
      (update_adf4382_static.init_adf4382 d (update_adf4382_static.start w)
          o.spi_device_id).1 = 0
      ∧ (update_adf4382_static.apply_updates d
          (update_adf4382_static.init_adf4382 d (update_adf4382_static.start w)
            o.spi_device_id).2 o).1 = 0)
    ∧ ((update_adf4382_static.init_adf4382 d (update_adf4382_static.start w)
          o.spi_device_id).1 = 0 →
        (update_adf4382_static.main L d args w).2
          = update_adf4382_static.cleanup d (update_adf4382_static.apply_updates d
              (update_adf4382_static.init_adf4382 d (update_adf4382_static.start w)
                o.spi_device_id).2 o).2)
    ∧ ((update_adf4382_static.main L d args w).1 = 0
        ∨ (update_adf4382_static.main L d args w).1 = 1) := by
  have hflags : (!o.freq_set && !o.cp_set && !o.bleed_set && !o.phase_set) = false := by
    rcases hsome with h | h | h | h <;> simp [h]
  simp only [update_adf4382_static.main, hparse, hflags]
  split_ifs <;> simp_all

/-- C23: on a command line of options with their values that names at least
one parameter, both update tools apply the requested updates in the fixed order
frequency, charge-pump current, bleed word, phase adjustment: the option loop
records for each option the value given last, whatever the order of the
options, so two command lines with the same last values run identically; the
updates are served as the reference behaviour prescribes, one after the other
in the fixed order, and the first setter that fails ends the sequence with its
result (no later setter is called); `main` returns 0 exactly when the
initialisation (for update_adf4382.c: loading the library and `init_adf4382`)
and every requested update succeeded, and 1 otherwise. -/
theorem updates_in_fixed_order {σ : Type} (L : Libc) (d : Adf4382Driver σ)
    (dlopen_ok symbols_ok : Bool) (w : σ) (ps : List (String × String))
    (hps : ∀ p ∈ ps, p.1 ∈ value_options) (hreq : ∃ p ∈ ps, p.1 ≠ "--spi-device") :
    parse_update_args L (pairs_args ps) UpdateOptions.start
      = ParseOutcome.run (requested_options L ps)
    ∧ (∀ ps2 : List (String × String), (∀ p ∈ ps2, p.1 ∈ value_options) →
        (∀ name ∈ value_options, last_value ps2 name = last_value ps name) →
        update_adf4382.main L d dlopen_ok symbols_ok (pairs_args ps2) w
          = update_adf4382.main L d dlopen_ok symbols_ok (pairs_args ps) w
        ∧ update_adf4382_static.main L d (pairs_args ps2) w
          = update_adf4382_static.main L d (pairs_args ps) w)
    ∧ (∀ o : UpdateOptions, (requested_updates o).Pairwise (fun a b => a.rank < b.rank))
    ∧ (∀ (st : DynToolState σ) (o : UpdateOptions),
        update_adf4382.apply_updates d st o
          = update_adf4382.apply_until_failure d st (requested_updates o))
    ∧ (∀ (st : ToolState σ) (o : UpdateOptions),
        update_adf4382_static.apply_updates d st o
          = update_adf4382_static.apply_until_failure d st (requested_updates o))
    ∧ (∀ (st : DynToolState σ) (pre post : List UpdateRequest) (u : UpdateRequest),
        (update_adf4382.apply_until_failure d st pre).1 = 0 →
        (update_adf4382.apply_update d (update_adf4382.apply_until_failure d st pre).2 u).1 ≠ 0 →
        update_adf4382.apply_until_failure d st (pre ++ u :: post)
          = update_adf4382.apply_update d (update_adf4382.apply_until_failure d st pre).2 u)
    ∧ (∀ (st : ToolState σ) (pre post : List UpdateRequest) (u : UpdateRequest),
        (update_adf4382_static.apply_until_failure d st pre).1 = 0 →
        (update_adf4382_static.apply_update d
          (update_adf4382_static.apply_until_failure d st pre).2 u).1 ≠ 0 →
        update_adf4382_static.apply_until_failure d st (pre ++ u :: post)
          = update_adf4382_static.apply_update d
              (update_adf4382_static.apply_until_failure d st pre).2 u)
    ∧ ((update_adf4382.main L d dlopen_ok symbols_ok (pairs_args ps) w).1 = 0 ↔
        dlopen_ok = true ∧ symbols_ok = true
        ∧ (update_adf4382.init_adf4382 d { update_adf4382.start w with lib_handle := true }
            (requested_options L ps).spi_device_id).1 = 0
        ∧ ∀ (pre post : List UpdateRequest) (u : UpdateRequest),
            requested_updates (requested_options L ps) = pre ++ u :: post →
            (update_adf4382.apply_update d
              (update_adf4382.apply_until_failure d
                (update_adf4382.init_adf4382 d
                  { update_adf4382.start w with lib_handle := true }
                  (requested_options L ps).spi_device_id).2 pre).2 u).1 = 0)
    ∧ ((update_adf4382_static.main L d (pairs_args ps) w).1 = 0 ↔
        (update_adf4382_static.init_adf4382 d (update_adf4382_static.start w)
            (requested_options L ps).spi_device_id).1 = 0
        ∧ ∀ (pre post : List UpdateRequest) (u : UpdateRequest),
            requested_updates (requested_options L ps) = pre ++ u :: post →
            (update_adf4382_static.apply_update d
              (update_adf4382_static.apply_until_failure d
                (update_adf4382_static.init_adf4382 d (update_adf4382_static.start w)
                  (requested_options L ps).spi_device_id).2 pre).2 u).1 = 0)
    ∧ ((update_adf4382.main L d dlopen_ok symbols_ok (pairs_args ps) w).1 = 0
        ∨ (update_adf4382.main L d dlopen_ok symbols_ok (pairs_args ps) w).1 = 1)
    ∧ ((update_adf4382_static.main L d (pairs_args ps) w).1 = 0
        ∨ (update_adf4382_static.main L d (pairs_args ps) w).1 = 1)
    ∧ (dlopen_ok = true → symbols_ok = true →
        (update_adf4382.init_adf4382 d { update_adf4382.start w with lib_handle := true }
          (requested_options L ps).spi_device_id).1 = 0 →
        (update_adf4382.main L d dlopen_ok symbols_ok (pairs_args ps) w).2
          = update_adf4382.cleanup d (update_adf4382.apply_until_failure d
              (update_adf4382.init_adf4382 d { update_adf4382.start w with lib_handle := true }
                (requested_options L ps).spi_device_id).2
              (requested_updates (requested_options L ps))).2)
    ∧ ((update_adf4382_static.init_adf4382 d (update_adf4382_static.start w)
          (requested_options L ps).spi_device_id).1 = 0 →
        (update_adf4382_static.main L d (pairs_args ps) w).2
          = update_adf4382_static.cleanup d (update_adf4382_static.apply_until_failure d
              (update_adf4382_static.init_adf4382 d (update_adf4382_static.start w)
                (requested_options L ps).spi_device_id).2
              (requested_updates (requested_options L ps))).2) := by
  have hparse := parse_update_args_requested L ps hps
  have hsome := requested_some L ps hps hreq
  have hd := main_result_dyn L d dlopen_ok symbols_ok (pairs_args ps) w _ hparse hsome
  have hs := main_result_static L d (pairs_args ps) w _ hparse hsome
  refine ⟨hparse, ?_, requested_updates_ordered, apply_updates_reference_dyn d,
    apply_updates_reference_static d, ?_, ?_, ?_, ?_, hd.2.2, hs.2.2, ?_, ?_⟩
  · intro ps2 hps2 hlast
    have hparse2 := parse_update_args_requested L ps2 hps2
    rw [requested_options_congr L ps ps2 hlast, ← hparse] at hparse2
    constructor
    · simp only [update_adf4382.main, hparse2]
    · simp only [update_adf4382_static.main, hparse2]
  · intro st pre post u h1 h2
    exact apply_until_failure_stops_dyn d pre post u st h1 h2
  · intro st pre post u h1 h2
    exact apply_until_failure_stops_static d pre post u st h1 h2
  · rw [hd.1, apply_updates_reference_dyn, apply_until_failure_zero_iff_dyn]
  · rw [hs.1, apply_updates_reference_static, apply_until_failure_zero_iff_static]
  · intro h1 h2 h3
    rw [hd.2.1 h1 h2 h3, apply_updates_reference_dyn]
  · intro h3
    rw [hs.2.1 h3, apply_updates_reference_static]

/-- Instance of `updates_in_fixed_order`: the command line
`--phase 5 --cp-i 3 --freq 1 --cp-i 7` asks for frequency 1, charge-pump
current 7 (the last value) and phase 5; on the willing driver the setters are
called in the fixed order, and on a driver whose `adf4382_set_cp_i` fails the
phase setter is not called and the exit code is 1. -/
theorem updates_in_fixed_order_witness :
    ((∀ p ∈ [("--phase", "5"), ("--cp-i", "3"), ("--freq", "1"), ("--cp-i", "7")],
        p.1 ∈ value_options)
      ∧ ∃ p ∈ [("--phase", "5"), ("--cp-i", "3"), ("--freq", "1"), ("--cp-i", "7")],
          p.1 ≠ "--spi-device")
    ∧ parse_update_args decimal_libc
        ["--phase", "5", "--cp-i", "3", "--freq", "1", "--cp-i", "7"] UpdateOptions.start
      = ParseOutcome.run (requested_options decimal_libc
          [("--phase", "5"), ("--cp-i", "3"), ("--freq", "1"), ("--cp-i", "7")])
    ∧ requested_updates (requested_options decimal_libc
          [("--phase", "5"), ("--cp-i", "3"), ("--freq", "1"), ("--cp-i", "7")])
      = [UpdateRequest.frequency 1, UpdateRequest.charge_pump 7, UpdateRequest.phase 5]
    ∧ (update_adf4382_static.main decimal_libc willing_driver
        ["--phase", "5", "--cp-i", "3", "--freq", "1", "--cp-i", "7"] ()).2.calls
      = [Adf4382Call.init 0, Adf4382Call.set_rfout 1 1, Adf4382Call.set_cp_i 1 7,
         Adf4382Call.set_phase_adjust 1 5, Adf4382Call.remove 1]
    ∧ (update_adf4382.main decimal_libc cp_failing_driver true true
        ["--phase", "5", "--cp-i", "3", "--freq", "1", "--cp-i", "7"] ()).1 = 1
    ∧ (update_adf4382.main decimal_libc cp_failing_driver true true
        ["--phase", "5", "--cp-i", "3", "--freq", "1", "--cp-i", "7"] ()).2.calls
      = [Adf4382Call.init 0, Adf4382Call.set_rfout 1 1, Adf4382Call.set_cp_i 1 7,
         Adf4382Call.remove 1] :=
  ⟨⟨by decide, ⟨("--phase", "5"), by decide, by decide⟩⟩,
   (updates_in_fixed_order decimal_libc willing_driver true true ()
      [("--phase", "5"), ("--cp-i", "3"), ("--freq", "1"), ("--cp-i", "7")]
      (by decide) ⟨("--phase", "5"), by decide, by decide⟩).1,
   by decide, by decide, by decide, by decide⟩

/-! ## Sequences of calls of the adf4377_test API -/

/-- The scan for a removal that does not follow an initialisation, after one
more driver call. -/
theorem lifecycle_append (calls : List Adf4377Call) (x : Adf4377Call) :
    (calls ++ [x]).foldl lifecycle_step (some false)
      = lifecycle_step (calls.foldl lifecycle_step (some false)) x := by
  rw [List.foldl_append, List.foldl_cons, List.foldl_nil]

/-- Function `adf4377_test_init` in terms of the driver's answer. -/
theorem adf4377_test_init_eq {σ : Type} (d : Adf4377Driver σ) (st : ApiState σ)
    (spi_device spi_cs : Int) (b : SpiBlocks)
    (hb : b = { extra_device_id := (spi_device % 2 ^ 32).toNat
                extra_chip_select := (spi_cs % 2 ^ 8).toNat
                ip_device_id := (spi_device % 2 ^ 32).toNat
                ip_chip_select := (spi_cs % 2 ^ 8).toNat }) :
    adf4377_test_init d st spi_device spi_cs
      = ((d.init st.world st.adf4377_dev b).1,
         { adf4377_dev := (d.init st.world st.adf4377_dev b).2.1, blocks := b,
           calls := st.calls ++ [Adf4377Call.init b],
           world := (d.init st.world st.adf4377_dev b).2.2 }) := by
  subst hb
  rfl

/-- An API call other than `adf4377_test_init` and `adf4377_test_remove` leaves
the handle as it is and makes no `adf4377_init` or `adf4377_remove` call: it
adds at most one driver call, which is neither. -/
theorem api_step_passive {σ : Type} (d : Adf4377Driver σ) (st : ApiState σ) (c : ApiCall)
    (hi : ∀ a b, c ≠ ApiCall.init a b) (hr : c ≠ ApiCall.remove) :
    (api_step d st c).2.adf4377_dev = st.adf4377_dev
    ∧ ((api_step d st c).2.calls = st.calls
      ∨ ∃ x, (api_step d st c).2.calls = st.calls ++ [x] ∧ x.is_remove = false
          ∧ ∀ a : Option Bool, lifecycle_step a x = a) := by
  have hstep : ∀ (a : Option Bool) (x : Adf4377Call),
      (∀ b, x ≠ Adf4377Call.init b) → (∀ dev, x ≠ Adf4377Call.remove dev) →
      lifecycle_step a x = a := by
    intro a x h1 h2
    cases a with
    | none => rfl
    | some v =>
        cases x with
        | init b => exact absurd rfl (h1 b)
        | remove dev => exact absurd rfl (h2 dev)
        | spi_read _ _ => rfl
        | spi_write _ _ _ => rfl
        | spi_update_bit _ _ _ _ => rfl
        | set_rfout _ _ => rfl
  cases c with
  | init a b => exact absurd rfl (hi a b)
  | remove => exact absurd rfl hr
  | read_reg reg =>
      obtain h | ⟨dev, h⟩ := Option.eq_none_or_eq_some st.adf4377_dev
      · have e : adf4377_test_read_reg d st reg = (-EINVAL, none, st) := by
          simp [adf4377_test_read_reg, h]
        simp only [api_step, e]
        exact ⟨trivial, Or.inl trivial⟩
      · have e : adf4377_test_read_reg d st reg
            = ((d.spi_read st.world dev (d.REG reg)).1, (d.spi_read st.world dev (d.REG reg)).2.1,
               { st with calls := st.calls ++ [Adf4377Call.spi_read dev (d.REG reg)],
                         world := (d.spi_read st.world dev (d.REG reg)).2.2 }) := by
          simp [adf4377_test_read_reg, h]
        simp only [api_step, e]
        exact ⟨trivial, Or.inr ⟨_, rfl, rfl, fun a => hstep a _ (by simp) (by simp)⟩⟩
  | write_reg reg val =>
      obtain h | ⟨dev, h⟩ := Option.eq_none_or_eq_some st.adf4377_dev
      · have e : adf4377_test_write_reg d st reg val = (-EINVAL, st) := by
          simp [adf4377_test_write_reg, h]
        simp only [api_step, e]
        exact ⟨trivial, Or.inl trivial⟩
      · have e : adf4377_test_write_reg d st reg val
            = ((d.spi_write st.world dev (d.REG reg) val).1,
               { st with calls := st.calls ++ [Adf4377Call.spi_write dev (d.REG reg) val],
                         world := (d.spi_write st.world dev (d.REG reg) val).2 }) := by
          simp [adf4377_test_write_reg, h]
        simp only [api_step, e]
        exact ⟨trivial, Or.inr ⟨_, rfl, rfl, fun a => hstep a _ (by simp) (by simp)⟩⟩
  | update_bits reg mask value =>
      obtain h | ⟨dev, h⟩ := Option.eq_none_or_eq_some st.adf4377_dev
      · have e : adf4377_test_update_bits d st reg mask value = (-EINVAL, st) := by
          simp [adf4377_test_update_bits, h]
        simp only [api_step, e]
        exact ⟨trivial, Or.inl trivial⟩
      · have e : adf4377_test_update_bits d st reg mask value
            = ((d.spi_update_bit st.world dev (d.REG reg) mask value).1,
               { st with
                 calls := st.calls ++ [Adf4377Call.spi_update_bit dev (d.REG reg) mask value],
                 world := (d.spi_update_bit st.world dev (d.REG reg) mask value).2 }) := by
          simp [adf4377_test_update_bits, h]
        simp only [api_step, e]
        exact ⟨trivial, Or.inr ⟨_, rfl, rfl, fun a => hstep a _ (by simp) (by simp)⟩⟩
  | set_rfout freq_hz =>
      obtain h | ⟨dev, h⟩ := Option.eq_none_or_eq_some st.adf4377_dev
      · have e : adf4377_test_set_rfout d st freq_hz = (-EINVAL, st) := by
          simp [adf4377_test_set_rfout, h]
        simp only [api_step, e]
        exact ⟨trivial, Or.inl trivial⟩
      · have e : adf4377_test_set_rfout d st freq_hz
            = ((d.set_rfout st.world dev freq_hz).1,
               { st with calls := st.calls ++ [Adf4377Call.set_rfout dev freq_hz],
                         world := (d.set_rfout st.world dev freq_hz).2 }) := by
          simp [adf4377_test_set_rfout, h]
        simp only [api_step, e]
        exact ⟨trivial, Or.inr ⟨_, rfl, rfl, fun a => hstep a _ (by simp) (by simp)⟩⟩

/-- Function `adf4377_test_remove` with a handle held: one `adf4377_remove`
call on that handle, the driver's result returned, the handle cleared. -/
theorem adf4377_test_remove_held {σ : Type} (d : Adf4377Driver σ) (st : ApiState σ)
    (dev : Nat) (h : st.adf4377_dev = some dev) :
    adf4377_test_remove d st
      = ((d.remove st.world dev).1,
         { st with adf4377_dev := none, calls := st.calls ++ [Adf4377Call.remove dev],
                   world := (d.remove st.world dev).2 }) := by
  simp [adf4377_test_remove, h]

/-- In a list of driver calls without a removal that does not follow an
initialisation, the `adf4377_remove` calls, plus one while an initialisation
is yet to be removed, are at most the `adf4377_init` calls. -/
theorem lifecycle_count (calls : List Adf4377Call) :
    ∀ a : Bool, calls.foldl lifecycle_step (some false) = some a →
      calls.countP Adf4377Call.is_remove + (if a = true then 1 else 0)
        ≤ calls.countP Adf4377Call.is_init := by
  induction calls using List.reverseRecOn with
  | nil =>
      intro a ha
      have h : a = false := by
        simp only [List.foldl_nil, Option.some.injEq] at ha
        exact ha.symm
      subst h
      simp
  | append_singleton l x ih =>
      intro a ha
      rw [lifecycle_append] at ha
      obtain h | ⟨a0, h⟩ := Option.eq_none_or_eq_some (l.foldl lifecycle_step (some false))
      · rw [h] at ha
        cases x <;> simp [lifecycle_step] at ha
      · rw [h] at ha
        have h0 := ih a0 h
        rw [List.countP_append, List.countP_append]
        cases x with
        | init b =>
            have e : a = true := by
              simp only [lifecycle_step, Option.some.injEq] at ha
              exact ha.symm
            subst e
            have c1 : List.countP Adf4377Call.is_remove [Adf4377Call.init b] = 0 := rfl
            have c2 : List.countP Adf4377Call.is_init [Adf4377Call.init b] = 1 := rfl
            rw [c1, c2]
            simp only [if_true]
            split_ifs at h0 <;> omega
        | remove dev =>
            have c1 : List.countP Adf4377Call.is_remove [Adf4377Call.remove dev] = 1 := rfl
            have c2 : List.countP Adf4377Call.is_init [Adf4377Call.remove dev] = 0 := rfl
            rw [c1, c2]
            cases a0 with
            | false => simp [lifecycle_step] at ha
            | true =>
                have e : a = false := by
                  simp only [lifecycle_step, if_true, Option.some.injEq] at ha
                  exact ha.symm
                subst e
                simp only [if_true] at h0
                simp only [Bool.false_eq_true, if_false]
                omega
        | spi_read dev reg =>
            have e : a = a0 := by
              simp only [lifecycle_step, Option.some.injEq] at ha
              exact ha.symm
            subst e
            have c1 : List.countP Adf4377Call.is_remove [Adf4377Call.spi_read dev reg] = 0 := rfl
            have c2 : List.countP Adf4377Call.is_init [Adf4377Call.spi_read dev reg] = 0 := rfl
            rw [c1, c2]
            omega
        | spi_write dev reg val =>
            have e : a = a0 := by
              simp only [lifecycle_step, Option.some.injEq] at ha
              exact ha.symm
            subst e
            have c1 : List.countP Adf4377Call.is_remove
                [Adf4377Call.spi_write dev reg val] = 0 := rfl
            have c2 : List.countP Adf4377Call.is_init
                [Adf4377Call.spi_write dev reg val] = 0 := rfl
            rw [c1, c2]
            omega
        | spi_update_bit dev reg mask val =>
            have e : a = a0 := by
              simp only [lifecycle_step, Option.some.injEq] at ha
              exact ha.symm
            subst e
            have c1 : List.countP Adf4377Call.is_remove
                [Adf4377Call.spi_update_bit dev reg mask val] = 0 := rfl
            have c2 : List.countP Adf4377Call.is_init
                [Adf4377Call.spi_update_bit dev reg mask val] = 0 := rfl
            rw [c1, c2]
            omega
        | set_rfout dev freq =>
            have e : a = a0 := by
              simp only [lifecycle_step, Option.some.injEq] at ha
              exact ha.symm
            subst e
            have c1 : List.countP Adf4377Call.is_remove
                [Adf4377Call.set_rfout dev freq] = 0 := rfl
            have c2 : List.countP Adf4377Call.is_init
                [Adf4377Call.set_rfout dev freq] = 0 := rfl
            rw [c1, c2]
            omega

/-- One API call keeps the bookkeeping of the handle: a held handle was stored
by an `adf4377_init` later than every `adf4377_remove`; and for a driver whose
failed `adf4377_init` on a `NULL` handle leaves it `NULL`, the number of
`adf4377_remove` calls plus one for a held handle grows by at most one, and
only through an `adf4377_test_init` that returned 0. -/
theorem api_step_bookkeeping {σ : Type} (d : Adf4377Driver σ)
    (st : ApiState σ) (c : ApiCall) :
    ((∀ (w : σ) (b : SpiBlocks), (d.init w none b).1 ≠ 0 → (d.init w none b).2.1 = none) →
      (if (api_step d st c).2.adf4377_dev.isSome then 1 else 0)
        + (api_step d st c).2.calls.countP Adf4377Call.is_remove
      ≤ (if st.adf4377_dev.isSome then 1 else 0) + st.calls.countP Adf4377Call.is_remove
        + successful_inits [c] [(api_step d st c).1])
    ∧ (∀ a : Bool, st.calls.foldl lifecycle_step (some false) = some a →
        (st.adf4377_dev.isSome = true → a = true) →
        ∃ a2 : Bool, (api_step d st c).2.calls.foldl lifecycle_step (some false) = some a2
          ∧ ((api_step d st c).2.adf4377_dev.isSome = true → a2 = true)) := by
  by_cases hinit : ∃ a b, c = ApiCall.init a b
  · obtain ⟨spi_device, spi_cs, rfl⟩ := hinit
    have e := adf4377_test_init_eq d st spi_device spi_cs _ rfl
    have hf : (∀ (w : σ) (b : SpiBlocks),
          (d.init w none b).1 ≠ 0 → (d.init w none b).2.1 = none) →
        st.adf4377_dev = none →
        (d.init st.world st.adf4377_dev
          { extra_device_id := (spi_device % 2 ^ 32).toNat
            extra_chip_select := (spi_cs % 2 ^ 8).toNat
            ip_device_id := (spi_device % 2 ^ 32).toNat
            ip_chip_select := (spi_cs % 2 ^ 8).toNat }).1 ≠ 0 →
        (d.init st.world st.adf4377_dev
          { extra_device_id := (spi_device % 2 ^ 32).toNat
            extra_chip_select := (spi_cs % 2 ^ 8).toNat
            ip_device_id := (spi_device % 2 ^ 32).toNat
            ip_chip_select := (spi_cs % 2 ^ 8).toNat }).2.1 = none := by
      intro hfail hn
      rw [hn]
      exact hfail st.world _
    simp only [api_step, e, successful_inits]
    generalize d.init st.world st.adf4377_dev
      { extra_device_id := (spi_device % 2 ^ 32).toNat
        extra_chip_select := (spi_cs % 2 ^ 8).toNat
        ip_device_id := (spi_device % 2 ^ 32).toNat
        ip_chip_select := (spi_cs % 2 ^ 8).toNat } = r at hf ⊢
    have hc : ∀ b : SpiBlocks,
        List.countP Adf4377Call.is_remove [Adf4377Call.init b] = 0 := fun _ => rfl
    constructor
    · intro hfail
      rw [List.countP_append, hc]
      by_cases h0 : r.1 = 0
      · rw [if_pos h0]
        split_ifs <;> omega
      · rw [if_neg h0]
        obtain hn | ⟨dev, hn⟩ := Option.eq_none_or_eq_some st.adf4377_dev
        · rw [hf hfail hn h0, hn]
          simp
        · rw [hn]
          simp only [Option.isSome_some, if_true]
          split_ifs <;> omega
    · intro a ha _
      rw [lifecycle_append, ha]
      exact ⟨true, rfl, fun _ => rfl⟩
  · by_cases hrem : c = ApiCall.remove
    · subst hrem
      obtain h | ⟨dev, h⟩ := Option.eq_none_or_eq_some st.adf4377_dev
      · have e : adf4377_test_remove d st = (0, st) := by simp [adf4377_test_remove, h]
        simp only [api_step, e, successful_inits]
        exact ⟨fun _ => by omega, fun a ha hh => ⟨a, ha, hh⟩⟩
      · simp only [api_step, adf4377_test_remove_held d st dev h, successful_inits]
        constructor
        · intro _
          simp [h, List.countP_append, Adf4377Call.is_remove]
          omega
        · intro a ha hh
          rw [lifecycle_append, ha, hh (by simp [h])]
          exact ⟨false, rfl, fun hx => by simp at hx⟩
    · have hi : ∀ a b, c ≠ ApiCall.init a b := fun a b hc => hinit ⟨a, b, hc⟩
      obtain ⟨hdev, hcalls⟩ := api_step_passive d st c hi hrem
      have hzero : successful_inits [c] [(api_step d st c).1] = 0 := by
        cases c with
        | init a b => exact absurd rfl (hi a b)
        | remove => rfl
        | read_reg _ => rfl
        | write_reg _ _ => rfl
        | update_bits _ _ _ => rfl
        | set_rfout _ => rfl
      rw [hdev, hzero]
      rcases hcalls with hc | ⟨x, hc, hx, hl⟩
      · rw [hc]
        exact ⟨fun _ => by omega, fun a ha hh => ⟨a, ha, hh⟩⟩
      · rw [hc]
        constructor
        · intro _
          simp [List.countP_append, hx]
        · intro a ha hh
          rw [lifecycle_append, ha, hl]
          exact ⟨a, rfl, hh⟩

/-- The successful initialisations of a sequence are those of its first call
plus those of the rest. -/
theorem successful_inits_cons (c : ApiCall) (cs : List ApiCall) (r : Int) (rs : List Int) :
    successful_inits (c :: cs) (r :: rs) = successful_inits [c] [r] + successful_inits cs rs := by
  cases c <;> simp [successful_inits]

/-- A sequence of API calls keeps the bookkeeping of the handle. -/
theorem run_api_bookkeeping {σ : Type} (d : Adf4377Driver σ)
    (ops : List ApiCall) (st : ApiState σ) :
    ((∀ (w : σ) (b : SpiBlocks), (d.init w none b).1 ≠ 0 → (d.init w none b).2.1 = none) →
      (if (run_api d st ops).2.adf4377_dev.isSome then 1 else 0)
        + (run_api d st ops).2.calls.countP Adf4377Call.is_remove
      ≤ (if st.adf4377_dev.isSome then 1 else 0) + st.calls.countP Adf4377Call.is_remove
        + successful_inits ops (run_api d st ops).1)
    ∧ (∀ a : Bool, st.calls.foldl lifecycle_step (some false) = some a →
        (st.adf4377_dev.isSome = true → a = true) →
        ∃ a2 : Bool, (run_api d st ops).2.calls.foldl lifecycle_step (some false) = some a2
          ∧ ((run_api d st ops).2.adf4377_dev.isSome = true → a2 = true)) := by
  induction ops generalizing st with
  | nil =>
      simp only [run_api, successful_inits]
      exact ⟨fun _ => by omega, fun a ha hh => ⟨a, ha, hh⟩⟩
  | cons c rest ih =>
      obtain ⟨s1, s2⟩ := api_step_bookkeeping d st c
      obtain ⟨r1, r2⟩ := ih (api_step d st c).2
      simp only [run_api]
      rw [successful_inits_cons]
      constructor
      · intro hfail
        have s1h := s1 hfail
        have r1h := r1 hfail
        omega
      · intro a ha hh
        obtain ⟨a1, ha1, hh1⟩ := s2 a ha hh
        exact r2 a1 ha1 hh1

/-- C24 fails on the code: the handle is whatever `adf4377_init` left in the
handle variable, also when it failed. Against a driver whose failed
`adf4377_init` has stored a handle, `adf4377_test_init` returns `-EINVAL` and
the `adf4377_test_remove` that follows calls the driver's `adf4377_remove`:
one removal, no successful `adf4377_test_init`. -/
theorem remove_after_failed_init :
    (run_api storing_on_failure (api_start ⟨0, 0, 0, 0⟩ ())
        [ApiCall.init 0 0, ApiCall.remove]).1 = [-22, 0]
    ∧ (run_api storing_on_failure (api_start ⟨0, 0, 0, 0⟩ ())
        [ApiCall.init 0 0, ApiCall.remove]).2.calls
        = [Adf4377Call.init ⟨0, 0, 0, 0⟩, Adf4377Call.remove 1]
    ∧ (run_api storing_on_failure (api_start ⟨0, 0, 0, 0⟩ ())
        [ApiCall.init 0 0, ApiCall.remove]).2.calls.countP Adf4377Call.is_remove = 1
    ∧ successful_inits [ApiCall.init 0 0, ApiCall.remove]
        (run_api storing_on_failure (api_start ⟨0, 0, 0, 0⟩ ())
          [ApiCall.init 0 0, ApiCall.remove]).1 = 0 := by
  refine ⟨?_, ?_, ?_, ?_⟩ <;> decide

/-- C24 as amended: `adf4377_test_remove` with a handle held calls the driver's
`adf4377_remove` once on that handle, returns the driver's result unchanged and
leaves the handle cleared whatever the result was; without a handle it returns
0 and calls nothing. Hence in every sequence of API calls from program start,
against any driver, every `adf4377_remove` follows an `adf4377_init` that is
later than any earlier `adf4377_remove` (no handle is removed twice), and the
number of `adf4377_remove` calls is at most the number of `adf4377_init` calls;
and for a driver whose failed `adf4377_init` on a `NULL` handle leaves it
`NULL`, the number of `adf4377_remove` calls is at most the number of
`adf4377_test_init` calls that returned 0. -/
theorem remove_once_per_init {σ : Type} (d : Adf4377Driver σ) :
    (∀ (st : ApiState σ) (dev : Nat), st.adf4377_dev = some dev →
        (adf4377_test_remove d st).1 = (d.remove st.world dev).1
        ∧ (adf4377_test_remove d st).2.calls = st.calls ++ [Adf4377Call.remove dev]
        ∧ (adf4377_test_remove d st).2.world = (d.remove st.world dev).2
        ∧ (adf4377_test_remove d st).2.blocks = st.blocks
        ∧ (adf4377_test_remove d st).2.adf4377_dev = none)
    ∧ (∀ st : ApiState σ, st.adf4377_dev = none → adf4377_test_remove d st = (0, st))
    ∧ (∀ (b : SpiBlocks) (w : σ) (ops : List ApiCall),
        removes_follow_init (run_api d (api_start b w) ops).2.calls = true
        ∧ (run_api d (api_start b w) ops).2.calls.countP Adf4377Call.is_remove
          ≤ (run_api d (api_start b w) ops).2.calls.countP Adf4377Call.is_init)
    ∧ ((∀ (w : σ) (b : SpiBlocks), (d.init w none b).1 ≠ 0 → (d.init w none b).2.1 = none) →
        ∀ (b : SpiBlocks) (w : σ) (ops : List ApiCall),
          (run_api d (api_start b w) ops).2.calls.countP Adf4377Call.is_remove
            ≤ successful_inits ops (run_api d (api_start b w) ops).1) := by
  refine ⟨?_, ?_, ?_, ?_⟩
  · intro st dev h
    rw [adf4377_test_remove_held d st dev h]
    exact ⟨rfl, rfl, rfl, rfl, rfl⟩
  · intro st h
    simp [adf4377_test_remove, h]
  · intro b w ops
    obtain ⟨_, h2⟩ := run_api_bookkeeping d ops (api_start b w)
    obtain ⟨a2, ha2, _⟩ := h2 false rfl (fun h => by simp [api_start] at h)
    constructor
    · unfold removes_follow_init
      rw [ha2]
      rfl
    · have hc := lifecycle_count _ a2 ha2
      omega
  · intro hfail b w ops
    obtain ⟨h1, _⟩ := run_api_bookkeeping d ops (api_start b w)
    have h1h := h1 hfail
    have e1 : (api_start b w).adf4377_dev.isSome = false := rfl
    have e2 : (api_start b w).calls.countP Adf4377Call.is_remove = 0 := rfl
    rw [e1, e2] at h1h
    simp only [Bool.false_eq_true, if_false] at h1h
    omega

/-- Instance of `remove_once_per_init`: on a driver whose initialisation fails
on SPI device 1 and whose removal reports an error, the calls init(0), remove,
remove, init(1), remove reach the driver's `adf4377_remove` once. -/
theorem remove_once_per_init_witness :
    (∀ (w : Unit) (b : SpiBlocks),
      (flaky_adf4377.init w none b).1 ≠ 0 → (flaky_adf4377.init w none b).2.1 = none)
    ∧ (run_api flaky_adf4377 (api_start ⟨0, 0, 0, 0⟩ ())
        [ApiCall.init 0 0, ApiCall.remove, ApiCall.remove, ApiCall.init 1 0,
         ApiCall.remove]).2.calls.countP Adf4377Call.is_remove
      ≤ successful_inits
          [ApiCall.init 0 0, ApiCall.remove, ApiCall.remove, ApiCall.init 1 0, ApiCall.remove]
          (run_api flaky_adf4377 (api_start ⟨0, 0, 0, 0⟩ ())
            [ApiCall.init 0 0, ApiCall.remove, ApiCall.remove, ApiCall.init 1 0,
             ApiCall.remove]).1
    ∧ (run_api flaky_adf4377 (api_start ⟨0, 0, 0, 0⟩ ())
        [ApiCall.init 0 0, ApiCall.remove, ApiCall.remove, ApiCall.init 1 0,
         ApiCall.remove]).1 = [0, -22, 0, -22, 0]
    ∧ (run_api flaky_adf4377 (api_start ⟨0, 0, 0, 0⟩ ())
        [ApiCall.init 0 0, ApiCall.remove, ApiCall.remove, ApiCall.init 1 0,
         ApiCall.remove]).2.calls
      = [Adf4377Call.init ⟨0, 0, 0, 0⟩, Adf4377Call.remove 1, Adf4377Call.init ⟨1, 0, 1, 0⟩] :=
  have hfail : ∀ (w : Unit) (b : SpiBlocks),
      (flaky_adf4377.init w none b).1 ≠ 0 → (flaky_adf4377.init w none b).2.1 = none := by
    intro w b
    unfold flaky_adf4377
    by_cases hb : b.ip_device_id = 0 <;> simp [hb]
  ⟨hfail,
   (remove_once_per_init flaky_adf4377).2.2.2 hfail ⟨0, 0, 0, 0⟩ ()
      [ApiCall.init 0 0, ApiCall.remove, ApiCall.remove, ApiCall.init 1 0, ApiCall.remove],
   by decide, by decide⟩

/-! ## Verdicts of simple_vendor_id_test.c -/

/-- The vendor ID assembled from two bytes is the number `msb * 256 + lsb`. -/
theorem vendor_id_of_eq (msb lsb : Nat) (hm : msb < 256) (hl : lsb < 256) :
    vendor_id_of msb lsb = msb * 256 + lsb := by
  unfold vendor_id_of
  rw [Nat.mod_eq_of_lt hm, Nat.mod_eq_of_lt hl, Nat.shiftLeft_eq]
  have h := Nat.mul_add_lt_is_or (i := 8) (b := lsb) (by simpa using hl) msb
  have e : msb * 2 ^ 8 = 2 ^ 8 * msb := Nat.mul_comm _ _
  rw [e, ← h]
  norm_num
  omega

/-- C25: for all bytes `lsb` and `msb` the vendor ID `(msb << 8) | lsb` is
0x0456 exactly when `lsb` is 0x56 and `msb` is 0x04, and zero exactly when both
bytes are zero. So in simple_vendor_id_test.c the check of the full ID reports
success exactly when both per-register checks report success and "no response"
exactly when both per-register checks report no response; it reports "some
response" in every other case, so exactly one of the three messages applies.
The ID the program assembles is this function of byte 2 of the responses to
its two read frames. -/
theorem vendor_id_verdicts_agree (lsb msb : Nat) (hl : lsb < 256) (hm : msb < 256) :
    (vendor_id_of msb lsb = 0x0456 ↔ lsb = 0x56 ∧ msb = 0x04)
    ∧ (vendor_id_of msb lsb = 0 ↔ lsb = 0 ∧ msb = 0)
    ∧ (id_verdict (vendor_id_of msb lsb) = IdVerdict.success ↔
        byte_verdict 0x56 lsb = IdVerdict.success ∧ byte_verdict 0x04 msb = IdVerdict.success)
    ∧ (id_verdict (vendor_id_of msb lsb) = IdVerdict.silent ↔
        byte_verdict 0x56 lsb = IdVerdict.silent ∧ byte_verdict 0x04 msb = IdVerdict.silent)
    ∧ (id_verdict (vendor_id_of msb lsb) = IdVerdict.responding ↔
        ¬ (byte_verdict 0x56 lsb = IdVerdict.success ∧ byte_verdict 0x04 msb = IdVerdict.success)
        ∧ ¬ (byte_verdict 0x56 lsb = IdVerdict.silent ∧ byte_verdict 0x04 msb = IdVerdict.silent))
    ∧ (∀ v : Nat, (id_verdict v = IdVerdict.success ↔ v = 0x0456)
        ∧ (id_verdict v = IdVerdict.responding ↔ v ≠ 0x0456 ∧ v ≠ 0)
        ∧ (id_verdict v = IdVerdict.silent ↔ v = 0))
    ∧ (∀ (σ : Type) (transfer : σ → List Nat → Option (List Nat) × σ) (access_ok : Bool)
        (c : SpidevSetup) (s : σ),
        (simple_vendor_id_test_main transfer access_ok c s).1 = 0 →
        (simple_vendor_id_test_main transfer access_ok c s).2.2.1
          = some (vendor_id_of
              (read_value ((transfer (transfer (transfer s [0x00, 0x00, 0x81]).2
                [0x80, 0x0C, 0x00]).2 [0x80, 0x0D, 0x00]).1.getD []))
              (read_value ((transfer (transfer s [0x00, 0x00, 0x81]).2
                [0x80, 0x0C, 0x00]).1.getD [])))) := by
  have key := vendor_id_of_eq msb lsb hm hl
  have hv : ∀ v : Nat, (id_verdict v = IdVerdict.success ↔ v = 0x0456)
      ∧ (id_verdict v = IdVerdict.responding ↔ v ≠ 0x0456 ∧ v ≠ 0)
      ∧ (id_verdict v = IdVerdict.silent ↔ v = 0) := by
    intro v
    unfold id_verdict
    refine ⟨?_, ?_, ?_⟩ <;> split_ifs <;> simp_all
  have hb : ∀ k b : Nat, k ≠ 0 → (byte_verdict k b = IdVerdict.success ↔ b = k)
      ∧ (byte_verdict k b = IdVerdict.silent ↔ b = 0) := by
    intro k b hk
    unfold byte_verdict
    refine ⟨?_, ?_⟩ <;> split_ifs <;> simp_all
  have h1 : vendor_id_of msb lsb = 0x0456 ↔ lsb = 0x56 ∧ msb = 0x04 := by
    rw [key]; omega
  have h0 : vendor_id_of msb lsb = 0 ↔ lsb = 0 ∧ msb = 0 := by
    rw [key]; omega
  have hs : id_verdict (vendor_id_of msb lsb) = IdVerdict.success ↔
      byte_verdict 0x56 lsb = IdVerdict.success ∧ byte_verdict 0x04 msb = IdVerdict.success := by
    rw [(hv _).1, h1, (hb 0x56 lsb (by decide)).1, (hb 0x04 msb (by decide)).1]
  have hz : id_verdict (vendor_id_of msb lsb) = IdVerdict.silent ↔
      byte_verdict 0x56 lsb = IdVerdict.silent ∧ byte_verdict 0x04 msb = IdVerdict.silent := by
    rw [(hv _).2.2, h0, (hb 0x56 lsb (by decide)).2, (hb 0x04 msb (by decide)).2]
  refine ⟨h1, h0, hs, hz, ?_, hv, ?_⟩
  · rw [← hs, ← hz]
    cases id_verdict (vendor_id_of msb lsb) <;> simp
  · intro σ transfer access_ok c s h
    unfold simple_vendor_id_test_main at h ⊢
    by_cases hc : (access_ok && c.ready) = true
    · simp only [hc, if_true] at h ⊢
      rcases h1 : transfer s [0x00, 0x00, 0x81] with ⟨o1, s1⟩
      rw [h1] at h
      cases o1 with
      | none => simp at h
      | some r1 =>
          simp only at h ⊢
          rcases h2 : transfer s1 [0x80, 0x0C, 0x00] with ⟨o2, s2⟩
          rw [h2] at h
          cases o2 with
          | none => simp at h
          | some r2 =>
              simp only at h ⊢
              rcases h3 : transfer s2 [0x80, 0x0D, 0x00] with ⟨o3, s3⟩
              rw [h3] at h
              cases o3 with
              | none => simp at h
              | some r3 => simp [vendor_id_of]
    · simp [hc] at h

/-- Instance of `vendor_id_verdicts_agree`: the bytes of a genuine chip. -/
theorem vendor_id_verdicts_agree_witness :
    ((0x56 : Nat) < 256 ∧ (0x04 : Nat) < 256)
    ∧ (vendor_id_of 0x04 0x56 = 0x0456 ↔ (0x56 : Nat) = 0x56 ∧ (0x04 : Nat) = 0x04) :=
  ⟨⟨by decide, by decide⟩, (vendor_id_verdicts_agree 0x56 0x04 (by decide) (by decide)).1⟩

/-! ## The frame as an encoding -/

/-- Flag bit and address field of byte 0 of a frame, for a 7-bit upper address
part, with the read flag set and clear. -/
theorem byte0_fields : ∀ x < 128,
    (128 + x) &&& 0x80 ≠ 0 ∧ (128 + x) &&& 0x7F = x ∧ x &&& 0x80 = 0 ∧ x &&& 0x7F = x := by
  decide

/-- Joining the upper seven and the lower eight bits gives the address back. -/
theorem join_address (a : Nat) : ((a / 256) <<< 8) ||| (a % 256) = a := by
  have h := Nat.mul_add_lt_is_or (i := 8) (b := a % 256) (by simpa using Nat.mod_lt a (by decide))
    (a / 256)
  rw [Nat.shiftLeft_eq, Nat.mul_comm, ← h]
  have := Nat.div_add_mod a 256
  norm_num
  omega

/-- Decoding a frame built from a read flag, an address below 2^15 and a data
byte gives the three back. -/
theorem decode_encode_frame (r : Bool) (a d : Nat) (ha : a < 2 ^ 15) (hd : d < 256) :
    decode_frame (encode_frame { read_bit := r, address := a, data := d })
      = some { read_bit := r, address := a, data := d } := by
  have hhi : a / 256 < 128 := addr_hi_lt ha
  obtain ⟨h1, h2, h3, h4⟩ := byte0_fields (a / 256) hhi
  cases r
  · simp only [encode_frame, decode_frame, Nat.mod_eq_of_lt hhi, Nat.mod_eq_of_lt hd]
    simp [h3, h4, join_address]
  · simp only [encode_frame, decode_frame, Nat.mod_eq_of_lt hhi, Nat.mod_eq_of_lt hd]
    simp [h1, h2, join_address]

/-- C26: the 3-byte command frame is a lossless encoding. For every read flag,
address below 2^15 and data byte, decoding the frame as (byte0 bit 7,
((byte0 & 0x7F) << 8) | byte1, byte2) gives back the flag, the address and the
byte; hence two operations with the same frame are the same operation, and no
read frame equals a write frame. The frames of spi_mode_test.c (scratchpad
write and read) and simple_vendor_id_test.c (reset, vendor-ID reads) decode to
the operations their comments name. -/
theorem frame_codec_lossless (r : Bool) (a d : Nat) (ha : a < 2 ^ 15) (hd : d < 256) :
    decode_frame (encode_frame { read_bit := r, address := a, data := d })
      = some { read_bit := r, address := a, data := d }
    ∧ (∀ (r2 : Bool) (a2 d2 : Nat), a2 < 2 ^ 15 → d2 < 256 →
        encode_frame { read_bit := r, address := a, data := d }
          = encode_frame { read_bit := r2, address := a2, data := d2 } →
        r = r2 ∧ a = a2 ∧ d = d2)
    ∧ (∀ a2 v : Nat, read_frame a ≠ write_frame a2 v)
    ∧ (∀ a2 : Nat, write_frame a d ≠ read_frame a2)
    ∧ test_spi_mode_frames.map decode_frame
        = [some { read_bit := false, address := 0x0000, data := 0x81 },
           some { read_bit := false, address := 0x0000, data := 0x00 },
           some { read_bit := false, address := 0x000A, data := 0x5A },
           some { read_bit := true, address := 0x000A, data := 0x00 }]
    ∧ simple_vendor_id_test_frames.map decode_frame
        = [some { read_bit := false, address := 0x0000, data := 0x81 },
           some { read_bit := true, address := 0x000C, data := 0x00 },
           some { read_bit := true, address := 0x000D, data := 0x00 }] := by
  refine ⟨decode_encode_frame r a d ha hd, ?_, ?_, ?_, by decide, by decide⟩
  · intro r2 a2 d2 ha2 hd2 h
    have e1 := decode_encode_frame r a d ha hd
    have e2 := decode_encode_frame r2 a2 d2 ha2 hd2
    rw [h, e2] at e1
    simp only [Option.some.injEq, RegisterFrame.mk.injEq] at e1
    exact ⟨e1.1.symm, e1.2.1.symm, e1.2.2.symm⟩
  · intro a2 v h
    simp only [read_frame, write_frame, encode_frame] at h
    have h0 := (List.cons.inj h).1
    simp only [if_true] at h0
    have : a2 / 256 % 128 < 128 := Nat.mod_lt _ (by decide)
    simp at h0
    omega
  · intro a2 h
    simp only [read_frame, write_frame, encode_frame] at h
    have h0 := (List.cons.inj h).1
    have : a / 256 % 128 < 128 := Nat.mod_lt _ (by decide)
    simp at h0
    omega

/-- Instance of `frame_codec_lossless`: the read of the vendor-ID register 0x000C. -/
theorem frame_codec_lossless_witness :
    ((0x000C : Nat) < 2 ^ 15 ∧ (0 : Nat) < 256)
    ∧ decode_frame (encode_frame { read_bit := true, address := 0x000C, data := 0 })
        = some { read_bit := true, address := 0x000C, data := 0 } :=
  ⟨⟨by decide, by decide⟩, (frame_codec_lossless true 0x000C 0 (by decide) (by decide)).1⟩

/-! ## The two update tools against each other -/

/-- The setter functions of update_adf4382.c and update_adf4382_static.c do the
same on the same driver: same return value, same handle, driver calls and
outside world afterwards. -/
theorem apply_update_simulation {σ : Type} (d : Adf4382Driver σ) (st : DynToolState σ)
    (u : UpdateRequest) :
    (update_adf4382.apply_update d st u).1
      = (update_adf4382_static.apply_update d st.to_static u).1
    ∧ (update_adf4382.apply_update d st u).2.to_static
      = (update_adf4382_static.apply_update d st.to_static u).2 := by
  obtain h | ⟨dev, h⟩ := Option.eq_none_or_eq_some st.adf4382_dev
  · cases u <;>
      simp [update_adf4382.apply_update, update_adf4382_static.apply_update,
        update_adf4382.set_frequency, update_adf4382_static.set_frequency,
        update_adf4382.set_charge_pump_current, update_adf4382_static.set_charge_pump_current,
        update_adf4382.set_bleed_word, update_adf4382_static.set_bleed_word,
        update_adf4382.set_phase_adjustment, update_adf4382_static.set_phase_adjustment,
        DynToolState.to_static, h]
  · cases u with
    | frequency f =>
        simp [update_adf4382.apply_update, update_adf4382_static.apply_update,
          update_adf4382.set_frequency, update_adf4382_static.set_frequency,
          DynToolState.to_static, h]
    | charge_pump v =>
        by_cases hr : v < 0 ∨ v > 15
        · simp [update_adf4382.apply_update, update_adf4382_static.apply_update,
            update_adf4382.set_charge_pump_current,
            update_adf4382_static.set_charge_pump_current, DynToolState.to_static, h, hr]
        · simp [update_adf4382.apply_update, update_adf4382_static.apply_update,
            update_adf4382.set_charge_pump_current,
            update_adf4382_static.set_charge_pump_current, DynToolState.to_static, h, hr]
    | bleed v =>
        by_cases hr : v < 0 ∨ v > 8191
        · simp [update_adf4382.apply_update, update_adf4382_static.apply_update,
            update_adf4382.set_bleed_word, update_adf4382_static.set_bleed_word,
            DynToolState.to_static, h, hr]
        · simp [update_adf4382.apply_update, update_adf4382_static.apply_update,
            update_adf4382.set_bleed_word, update_adf4382_static.set_bleed_word,
            DynToolState.to_static, h, hr]
    | phase v =>
        simp [update_adf4382.apply_update, update_adf4382_static.apply_update,
          update_adf4382.set_phase_adjustment, update_adf4382_static.set_phase_adjustment,
          DynToolState.to_static, h]

/-- Serving a list of requests does the same in both tools on the same driver. -/
theorem apply_until_failure_simulation {σ : Type} (d : Adf4382Driver σ)
    (us : List UpdateRequest) (st : DynToolState σ) :
    (update_adf4382.apply_until_failure d st us).1
      = (update_adf4382_static.apply_until_failure d st.to_static us).1
    ∧ (update_adf4382.apply_until_failure d st us).2.to_static
      = (update_adf4382_static.apply_until_failure d st.to_static us).2 := by
  induction us generalizing st with
  | nil => exact ⟨rfl, rfl⟩
  | cons u us ih =>
      obtain ⟨h1, h2⟩ := apply_update_simulation d st u
      simp only [update_adf4382.apply_until_failure, update_adf4382_static.apply_until_failure]
      rw [← h1]
      by_cases hu : (update_adf4382.apply_update d st u).1 ≠ 0
      · rw [if_pos hu, if_pos hu]
        exact ⟨h1, h2⟩
      · rw [if_neg hu, if_neg hu, ← h2]
        exact ih _

/-- Function `cleanup` does the same in both tools on the same driver. -/
theorem cleanup_simulation {σ : Type} (d : Adf4382Driver σ) (st : DynToolState σ) :
    (update_adf4382.cleanup d st).to_static = update_adf4382_static.cleanup d st.to_static := by
  obtain h | ⟨dev, h⟩ := Option.eq_none_or_eq_some st.adf4382_dev
  · simp [update_adf4382.cleanup, update_adf4382_static.cleanup, DynToolState.to_static, h]
  · simp [update_adf4382.cleanup, update_adf4382_static.cleanup, DynToolState.to_static, h]

/-- With the library and its symbols resolving, `main` of update_adf4382.c and
`main` of update_adf4382_static.c do the same on the same driver transitions:
same exit code, same driver calls, same handle and outside world at the end. -/
theorem main_simulation {σ : Type} (L : Libc) (d : Adf4382Driver σ) (args : List String)
    (w : σ) :
    (update_adf4382.main L d true true args w).1 = (update_adf4382_static.main L d args w).1
    ∧ (update_adf4382.main L d true true args w).2.to_static
      = (update_adf4382_static.main L d args w).2 := by
  cases hparse : parse_update_args L args UpdateOptions.start with
  | help => simp [update_adf4382.main, update_adf4382_static.main, hparse,
      update_adf4382.start, update_adf4382_static.start, DynToolState.to_static]
  | unknown a => simp [update_adf4382.main, update_adf4382_static.main, hparse,
      update_adf4382.start, update_adf4382_static.start, DynToolState.to_static]
  | run o =>
      by_cases hflags : (!o.freq_set && !o.cp_set && !o.bleed_set && !o.phase_set) = true
      · simp [update_adf4382.main, update_adf4382_static.main, hparse, hflags,
          update_adf4382.start, update_adf4382_static.start, DynToolState.to_static]
      · have hload : update_adf4382.load_adf4382_library true true (update_adf4382.start w)
            = (0, { update_adf4382.start w with lib_handle := true }) := rfl
        have hinit1 : (update_adf4382.init_adf4382 d
              { update_adf4382.start w with lib_handle := true } o.spi_device_id).1
            = (update_adf4382_static.init_adf4382 d (update_adf4382_static.start w)
                o.spi_device_id).1 := rfl
        have hinit2 : (update_adf4382.init_adf4382 d
              { update_adf4382.start w with lib_handle := true } o.spi_device_id).2.to_static
            = (update_adf4382_static.init_adf4382 d (update_adf4382_static.start w)
                o.spi_device_id).2 := rfl
        have hup := apply_until_failure_simulation d (requested_updates o)
          (update_adf4382.init_adf4382 d
              { update_adf4382.start w with lib_handle := true } o.spi_device_id).2
        rw [hinit2, ← apply_updates_reference_dyn, ← apply_updates_reference_static] at hup
        have hc1 := cleanup_simulation d (update_adf4382.init_adf4382 d
              { update_adf4382.start w with lib_handle := true } o.spi_device_id).2
        have hc2 := cleanup_simulation d (update_adf4382.apply_updates d
              (update_adf4382.init_adf4382 d
                { update_adf4382.start w with lib_handle := true } o.spi_device_id).2 o).2
        rw [hinit2] at hc1
        rw [hup.2] at hc2
        simp only [update_adf4382.main, update_adf4382_static.main, hparse, hflags, hload]
        simp only [Bool.false_eq_true, if_false, ne_eq, not_true_eq_false]
        rw [← hinit1, ← hup.1]
        by_cases hi : (update_adf4382.init_adf4382 d
              { update_adf4382.start w with lib_handle := true } o.spi_device_id).1 = 0
        · simp only [hi, not_true_eq_false, if_false]
          exact ⟨trivial, hc2⟩
        · simp only [hi, not_false_eq_true, if_true]
          exact ⟨trivial, hc1⟩

/-- C27 fails on the code: the two tools hand `adf4382_init` different SPI
blocks (`platform_ops` and `extra` are `NULL` in update_adf4382.c and point to
`linux_spi_ops` and `spi_extra` in update_adf4382_static.c), so a driver whose
initialisation needs the platform operations separates them. On `--freq 100`
update_adf4382.c calls `adf4382_init` only and exits with 1, while
update_adf4382_static.c calls `adf4382_init`, `adf4382_set_rfout` and
`adf4382_remove` and exits with 0. -/
theorem tools_differ_on_platform_ops :
    (update_adf4382.init_param 0).spi_init.platform_ops = none
    ∧ (update_adf4382.init_param 0).spi_init.extra = none
    ∧ (update_adf4382_static.init_param 0).spi_init.platform_ops
        = some SpiPlatformOps.linux_spi_ops
    ∧ (update_adf4382_static.init_param 0).spi_init.extra
        = some { device_id := 0, chip_select := 0, max_speed_hz := 1500000, mode := 0 }
    ∧ (update_adf4382.main decimal_libc (update_adf4382.linked strict_library) true true
        ["--freq", "100"] ()).1 = 1
    ∧ (update_adf4382.main decimal_libc (update_adf4382.linked strict_library) true true
        ["--freq", "100"] ()).2.calls = [Adf4382Call.init 0]
    ∧ (update_adf4382_static.main decimal_libc (update_adf4382_static.linked strict_library)
        ["--freq", "100"] ()).1 = 0
    ∧ (update_adf4382_static.main decimal_libc (update_adf4382_static.linked strict_library)
        ["--freq", "100"] ()).2.calls
      = [Adf4382Call.init 0, Adf4382Call.set_rfout 1 100, Adf4382Call.remove 1] := by
  refine ⟨rfl, rfl, rfl, rfl, by decide, by decide, by decide, by decide⟩

/-- C27 as amended: with the library and all six symbols resolving, the two
tools are equivalent for every driver library whose `adf4382_init` answers the
same on the two initialisation blocks, which agree in every synthesizer value
and in the SPI device id, speed, bit order, mode and chip select, and differ
in `platform_ops` and `extra` only. For every argument list they then make the
same sequence of driver calls with the same arguments, leave the same handle
and outside world, and return the same exit code. -/
theorem tools_equivalent_on_shared_fields {σ : Type} (L : Libc) (lib : Adf4382Library σ)
    (hinit : ∀ (w : σ) (h : Option Nat) (spi_device_id : Nat),
      lib.init w h (update_adf4382.init_param spi_device_id)
        = lib.init w h (update_adf4382_static.init_param spi_device_id))
    (args : List String) (w : σ) :
    (update_adf4382.main L (update_adf4382.linked lib) true true args w).1
      = (update_adf4382_static.main L (update_adf4382_static.linked lib) args w).1
    ∧ (update_adf4382.main L (update_adf4382.linked lib) true true args w).2.calls
      = (update_adf4382_static.main L (update_adf4382_static.linked lib) args w).2.calls
    ∧ (update_adf4382.main L (update_adf4382.linked lib) true true args w).2.adf4382_dev
      = (update_adf4382_static.main L (update_adf4382_static.linked lib) args w).2.adf4382_dev
    ∧ (update_adf4382.main L (update_adf4382.linked lib) true true args w).2.world
      = (update_adf4382_static.main L (update_adf4382_static.linked lib) args w).2.world
    ∧ (∀ spi_device_id : Nat,
        { update_adf4382.init_param spi_device_id with
            spi_init := update_adf4382_static.spi_param spi_device_id }
          = update_adf4382_static.init_param spi_device_id)
    ∧ (∀ spi_device_id : Nat,
        { update_adf4382.spi_param spi_device_id with
            platform_ops := some SpiPlatformOps.linux_spi_ops,
            extra := some (update_adf4382_static.spi_extra spi_device_id) }
          = update_adf4382_static.spi_param spi_device_id)
    ∧ (∀ spi_device_id : Nat,
        update_adf4382.init_param spi_device_id
          ≠ update_adf4382_static.init_param spi_device_id) := by
  have hd : update_adf4382.linked lib = update_adf4382_static.linked lib := by
    unfold update_adf4382.linked update_adf4382_static.linked
    congr
    funext w0 h id
    exact hinit w0 h id
  obtain ⟨h1, h2⟩ := main_simulation L (update_adf4382_static.linked lib) args w
  rw [hd]
  refine ⟨h1, ?_, ?_, ?_, fun _ => rfl, fun _ => rfl, ?_⟩
  · rw [← h2]; rfl
  · rw [← h2]; rfl
  · rw [← h2]; rfl
  · intro id h
    have hp := congrArg (fun p => p.spi_init.platform_ops) h
    simp [update_adf4382.init_param, update_adf4382_static.init_param,
      update_adf4382.spi_param, update_adf4382_static.spi_param] at hp

/-- Instance of `tools_equivalent_on_shared_fields`: a library whose
`adf4382_init` looks at the synthesizer values only, on `--freq 100 --cp-i 3`. -/
theorem tools_equivalent_on_shared_fields_witness :
    (∀ (w : Unit) (h : Option Nat) (spi_device_id : Nat),
      synth_only_library.init w h (update_adf4382.init_param spi_device_id)
        = synth_only_library.init w h (update_adf4382_static.init_param spi_device_id))
    ∧ (update_adf4382.main decimal_libc (update_adf4382.linked synth_only_library) true true
        ["--freq", "100", "--cp-i", "3"] ()).1
      = (update_adf4382_static.main decimal_libc
          (update_adf4382_static.linked synth_only_library)
          ["--freq", "100", "--cp-i", "3"] ()).1
    ∧ (update_adf4382_static.main decimal_libc
          (update_adf4382_static.linked synth_only_library)
          ["--freq", "100", "--cp-i", "3"] ()).2.calls
      = [Adf4382Call.init 0, Adf4382Call.set_rfout 1 100, Adf4382Call.set_cp_i 1 3,
         Adf4382Call.remove 1] :=
  ⟨fun _ _ _ => rfl,
   (tools_equivalent_on_shared_fields decimal_libc synth_only_library (fun _ _ _ => rfl)
      ["--freq", "100", "--cp-i", "3"] ()).1,
   by decide⟩

/-! ## Shipped synthesizer configurations -/

/-- A target that is a multiple of the comparison frequency is never refused
for want of a fractional accumulator, and a plan for it has no fractional part. -/
theorem integer_ratio_plan (p : ChipProfile) (ref_freq_hz : Nat) (doubler_en : Bool)
    (ref_div target_freq_hz : Nat)
    (h : target_freq_hz % pfd_frequency ref_freq_hz doubler_en ref_div = 0) :
    compute_divider_plan p ref_freq_hz doubler_en ref_div target_freq_hz
      ≠ Except.error PlanError.UnsupportedFractionalRatio
    ∧ (∀ plan, compute_divider_plan p ref_freq_hz doubler_en ref_div target_freq_hz
          = Except.ok plan →
        plan.frac = 0
        ∧ plan.n_int = target_freq_hz / pfd_frequency ref_freq_hz doubler_en ref_div) := by
  unfold compute_divider_plan
  split_ifs
  · simp
  · simp
  · simp
  · cases select_post_divider p target_freq_hz with
    | none => simp
    | some d =>
        cases p.frac_modulus with
        | none => simp [h]
        | some m => simp [h]

/-- C28: every synthesizer configuration shipped in the repository has an
integer feedback ratio. With f_pfd = ref_freq * (doubler ? 2 : 1) / ref_div
computed without remainder, the target is an exact multiple of f_pfd for
ADF4382_Test and both update tools (125 MHz doubled, 20 GHz, N = 80), for
adf4368 (100 MHz, no doubler, 2.4 GHz, N = 24) and for the libadnoos example
(125 MHz doubled, 11 GHz, N = 44), as for ADF4377_Test (10 GHz, N = 40); no
configuration is refused for want of a fractional accumulator, a plan for it
has fractional part zero, and every value computed on the way is below 2^64
and the same in 64-bit unsigned arithmetic. -/
theorem shipped_configurations_integer_ratio :
    (∀ (spi : no_os_spi_init_param) (ID_ADF4382 : Nat),
        IntegerRatio (ADF4382_Test.adf4382_ip spi ID_ADF4382).ref_freq_hz
          (ADF4382_Test.adf4382_ip spi ID_ADF4382).ref_doubler_en
          (ADF4382_Test.adf4382_ip spi ID_ADF4382).ref_div
          (ADF4382_Test.adf4382_ip spi ID_ADF4382).freq 80)
    ∧ (∀ spi_device_id : Nat,
        IntegerRatio (update_adf4382.init_param spi_device_id).ref_freq_hz
          (update_adf4382.init_param spi_device_id).ref_doubler_en
          (update_adf4382.init_param spi_device_id).ref_div
          (update_adf4382.init_param spi_device_id).freq 80)
    ∧ (∀ spi_device_id : Nat,
        IntegerRatio (update_adf4382_static.init_param spi_device_id).ref_freq_hz
          (update_adf4382_static.init_param spi_device_id).ref_doubler_en
          (update_adf4382_static.init_param spi_device_id).ref_div
          (update_adf4382_static.init_param spi_device_id).freq 80)
    ∧ IntegerRatio adf4368_ip.ref_freq_hz adf4368_ip.ref_doubler_en adf4368_ip.ref_div
        adf4368_ip.freq 24
    ∧ IntegerRatio libadnoos.init_param.clkin_freq
        (decide (libadnoos.init_param.ref_doubler_en ≠ 0)) libadnoos.init_param.ref_div_factor
        libadnoos.init_param.f_clk 44
    ∧ IntegerRatio adf4377_ip.clkin_freq (decide (adf4377_ip.ref_doubler_en ≠ 0))
        adf4377_ip.ref_div_factor adf4377_ip.f_clk 40
    ∧ pfd_frequency 125000000 true 1 = 250000000
    ∧ pfd_frequency 100000000 false 1 = 100000000
    ∧ (∀ p : ChipProfile,
        compute_divider_plan p 125000000 true 1 20000000000
            ≠ Except.error PlanError.UnsupportedFractionalRatio
        ∧ compute_divider_plan p 100000000 false 1 2400000000
            ≠ Except.error PlanError.UnsupportedFractionalRatio
        ∧ compute_divider_plan p 125000000 true 1 11000000000
            ≠ Except.error PlanError.UnsupportedFractionalRatio
        ∧ (∀ plan, compute_divider_plan p 125000000 true 1 20000000000 = Except.ok plan →
            plan.frac = 0 ∧ plan.n_int = 80)
        ∧ (∀ plan, compute_divider_plan p 100000000 false 1 2400000000 = Except.ok plan →
            plan.frac = 0 ∧ plan.n_int = 24)
        ∧ (∀ plan, compute_divider_plan p 125000000 true 1 11000000000 = Except.ok plan →
            plan.frac = 0 ∧ plan.n_int = 44)) := by
  have r80 : IntegerRatio 125000000 true 1 20000000000 80 := by
    unfold IntegerRatio; decide
  have r24 : IntegerRatio 100000000 false 1 2400000000 24 := by
    unfold IntegerRatio; decide
  have r44 : IntegerRatio 125000000 true 1 11000000000 44 := by
    unfold IntegerRatio; decide
  have r40 : IntegerRatio 125000000 true 1 10000000000 40 := by
    unfold IntegerRatio; decide
  refine ⟨fun _ _ => r80, fun _ => r80, fun _ => r80, r24, r44, r40, by decide, by decide, ?_⟩
  intro p
  have a := integer_ratio_plan p 125000000 true 1 20000000000 (by decide)
  have b := integer_ratio_plan p 100000000 false 1 2400000000 (by decide)
  have c := integer_ratio_plan p 125000000 true 1 11000000000 (by decide)
  refine ⟨a.1, b.1, c.1, ?_, ?_, ?_⟩
  · intro plan hp
    obtain ⟨h1, h2⟩ := a.2 plan hp
    exact ⟨h1, by rw [h2]; decide⟩
  · intro plan hp
    obtain ⟨h1, h2⟩ := b.2 plan hp
    exact ⟨h1, by rw [h2]; decide⟩
  · intro plan hp
    obtain ⟨h1, h2⟩ := c.2 plan hp
    exact ⟨h1, by rw [h2]; decide⟩


end XMW
